import Mathlib

/-!
# HiSilicon clock and reset drivers: a verification development

Shallow embedding of `drivers/clk/hisilicon/reset.c`, `clk.c`, the table of
`clk-hip04.c` and the PLL node, the tables and the SHUB prologue of
`clk-hi3559a.c`, followed by theorems about the embedded functions.

Conventions of the embedding:

* machine integers are natural numbers reduced explicitly: `u32` values are
  taken `% 2 ^ 32`, `u64` values `% 2 ^ 64`, `u8` values `% 2 ^ 8`;
* `unsigned long` and `size_t` are 64 bits wide (`BITS_PER_LONG`), the LP64
  data model of the arm64 targets of these drivers;
* the register space is a map from address to value, read with `readl` and
  written with `writel`, both of which carry 32-bit values;
* pointers to clock handles are integers: `0` is `NULL`, the values
  `-MAX_ERRNO .. -1` are the error pointers of `ERR_PTR`, anything else is a
  live handle;
* calls into the kernel outside these files (allocation, the common clock
  framework) take their results from an environment and are recorded in a
  log of events, in call order.
-/

namespace Hisi

/-! ## Machine integers and register access -/

/-- Width in bits of `unsigned long` and `size_t`. -/
def BITS_PER_LONG : Nat := 64

/-- Conversion of a 32-bit pattern to C `int` (two's complement). -/
def s32 (x : Nat) : Int :=
  if x % 2 ^ 32 < 2 ^ 31 then (x % 2 ^ 32 : Nat) else ((x % 2 ^ 32 : Nat) : Int) - 2 ^ 32

/-- Bitwise complement `~x` of a 32-bit value. -/
def not32 (x : Nat) : Nat := 2 ^ 32 - 1 - x % 2 ^ 32

/-- Bitwise complement `~x` of an `unsigned long`. -/
def not_ulong (x : Nat) : Nat := 2 ^ BITS_PER_LONG - 1 - x % 2 ^ BITS_PER_LONG

/-- The kernel macro `BIT(nr)`, that is `1UL << nr`. -/
def BIT (nr : Nat) : Nat := (1 <<< nr) % 2 ^ BITS_PER_LONG

/-- Register space: the 32-bit register found at each address. -/
abbrev Mem := Nat → Nat

/-- Read of a 32-bit register, `readl` and `readl_relaxed`. -/
def readl (m : Mem) (addr : Nat) : Nat := m addr % 2 ^ 32

/-- Write of a 32-bit register, `writel` and `writel_relaxed`; the value is
converted to `u32`. -/
def writel (val : Nat) (addr : Nat) (m : Mem) : Mem :=
  fun a => if a = addr then val % 2 ^ 32 else m a

/-! ## reset.c -/

def HISI_RESET_BIT_MASK : Nat := 0x1f
def HISI_RESET_OFFSET_SHIFT : Nat := 8
def HISI_RESET_OFFSET_MASK : Nat := 0xffff00

/-- `hisi_reset_of_xlate`: `args0`, `args1` are `reset_spec->args[0]` and
`reset_spec->args[1]` (`u32` cells); `offset` is a `u32`, `bit` a `u8`, and the
result is returned as an `int`. -/
def hisi_reset_of_xlate (args0 args1 : Nat) : Int :=
  let offset := (((args0 % 2 ^ 32) <<< HISI_RESET_OFFSET_SHIFT) % 2 ^ 32) &&& HISI_RESET_OFFSET_MASK
  let bit := ((args1 % 2 ^ 32) &&& HISI_RESET_BIT_MASK) % 2 ^ 8
  s32 (offset ||| bit)

/-- The `u32 offset` computed from `id` at the top of `hisi_reset_assert` and
`hisi_reset_deassert`. -/
def hisi_reset_id_offset (id : Nat) : Nat :=
  ((id &&& HISI_RESET_OFFSET_MASK) >>> HISI_RESET_OFFSET_SHIFT) % 2 ^ 32

/-- The `u8 bit` computed from `id` at the top of `hisi_reset_assert` and
`hisi_reset_deassert`. -/
def hisi_reset_id_bit (id : Nat) : Nat :=
  (id &&& HISI_RESET_BIT_MASK) % 2 ^ 8

/-- `hisi_reset_assert`: the register space after the call and the value
returned. Addresses are offsets from `rstc->membase`. -/
def hisi_reset_assert (m : Mem) (id : Nat) : Mem × Int :=
  let offset := hisi_reset_id_offset id
  let bit := hisi_reset_id_bit id
  let reg := readl m offset
  (writel (reg ||| BIT bit) offset m, 0)

/-- `hisi_reset_deassert`: the register space after the call and the value
returned. -/
def hisi_reset_deassert (m : Mem) (id : Nat) : Mem × Int :=
  let offset := hisi_reset_id_offset id
  let bit := hisi_reset_id_bit id
  let reg := readl m offset
  (writel (reg &&& not_ulong (BIT bit)) offset m, 0)

/-! ## clk-hi3559a.c: the fractional PLL node -/

def PLL_MASK_WIDTH : Nat := 24

/-- `struct hi3559av100_pll_clock`, the PLL descriptor: register offsets and,
for each field, its shift and width. -/
structure hi3559av100_pll_clock where
  id : Nat
  name : String
  parent_name : Option String
  ctrl_reg1 : Nat
  frac_shift : Nat
  frac_width : Nat
  postdiv1_shift : Nat
  postdiv1_width : Nat
  postdiv2_shift : Nat
  postdiv2_width : Nat
  ctrl_reg2 : Nat
  fbdiv_shift : Nat
  fbdiv_width : Nat
  refdiv_shift : Nat
  refdiv_width : Nat

/-- `struct hi3559av100_clk_pll`, the PLL handle: `ctrl_reg1` and `ctrl_reg2`
are register addresses. -/
structure hi3559av100_clk_pll where
  id : Nat
  ctrl_reg1 : Nat
  frac_shift : Nat
  frac_width : Nat
  postdiv1_shift : Nat
  postdiv1_width : Nat
  postdiv2_shift : Nat
  postdiv2_width : Nat
  ctrl_reg2 : Nat
  fbdiv_shift : Nat
  fbdiv_width : Nat
  refdiv_shift : Nat
  refdiv_width : Nat

/-- The table `hi3559av100_pll_clks`. The identifiers `HI3559AV100_APLL_CLK`
and `HI3559AV100_GPLL_CLK` come from a binding header and are parameters. -/
def hi3559av100_pll_clks (HI3559AV100_APLL_CLK HI3559AV100_GPLL_CLK : Nat) :
    List hi3559av100_pll_clock :=
  [ { id := HI3559AV100_APLL_CLK, name := "apll", parent_name := none,
      ctrl_reg1 := 0x0, frac_shift := 0, frac_width := 24,
      postdiv1_shift := 24, postdiv1_width := 3, postdiv2_shift := 28, postdiv2_width := 3,
      ctrl_reg2 := 0x4, fbdiv_shift := 0, fbdiv_width := 12,
      refdiv_shift := 12, refdiv_width := 6 },
    { id := HI3559AV100_GPLL_CLK, name := "gpll", parent_name := none,
      ctrl_reg1 := 0x20, frac_shift := 0, frac_width := 24,
      postdiv1_shift := 24, postdiv1_width := 3, postdiv2_shift := 28, postdiv2_width := 3,
      ctrl_reg2 := 0x24, fbdiv_shift := 0, fbdiv_width := 12,
      refdiv_shift := 12, refdiv_width := 6 } ]

/-- The handle `p_clk` that `hisi_clk_register_pll` fills in for the descriptor
`c` with register base `base` (the handle is zero-allocated, `id` is not set). -/
def pll_clk_of_desc (base : Nat) (c : hi3559av100_pll_clock) : hi3559av100_clk_pll :=
  { id := 0,
    ctrl_reg1 := base + c.ctrl_reg1,
    frac_shift := c.frac_shift,
    frac_width := c.frac_width,
    postdiv1_shift := c.postdiv1_shift,
    postdiv1_width := c.postdiv1_width,
    postdiv2_shift := c.postdiv2_shift,
    postdiv2_width := c.postdiv2_width,
    ctrl_reg2 := base + c.ctrl_reg2,
    fbdiv_shift := c.fbdiv_shift,
    fbdiv_width := c.fbdiv_width,
    refdiv_shift := c.refdiv_shift,
    refdiv_width := c.refdiv_width }

/-- The kernel macro `do_div(n, base)` on a `u64` `n`: the first component is
the new value of `n` (the quotient), the second the value returned (the
remainder). -/
def do_div (n base : Nat) : Nat × Nat := (n / base, n % base)

/-- The five `u32` outputs of `hi3559av100_calc_pll`. -/
structure pll_vals where
  frac_val : Nat
  postdiv1_val : Nat
  postdiv2_val : Nat
  fbdiv_val : Nat
  refdiv_val : Nat
deriving DecidableEq, Repr

/-- `hi3559av100_calc_pll`: `rate` is a `u64`, the outputs are `u32`. -/
def hi3559av100_calc_pll (rate : Nat) : pll_vals :=
  let postdiv1_val := 2
  let postdiv2_val := 1
  let rate := (rate % 2 ^ 64 * ((postdiv1_val * postdiv2_val) % 2 ^ 32)) % 2 ^ 64
  let d1 := do_div rate 1000000
  let rate := d1.1
  let d2 := do_div rate PLL_MASK_WIDTH
  let rate := d2.1
  let rem := d2.2
  let fbdiv_val := rate % 2 ^ 32
  let refdiv_val := 1
  let rem := (rem * (1 <<< PLL_MASK_WIDTH)) % 2 ^ 64
  let d3 := do_div rem PLL_MASK_WIDTH
  let rem := d3.1
  let frac_val := rem % 2 ^ 32
  { frac_val := frac_val, postdiv1_val := postdiv1_val, postdiv2_val := postdiv2_val,
    fbdiv_val := fbdiv_val, refdiv_val := refdiv_val }

/-- `clk_pll_set_rate`: the register space after the call and the value
returned. `rate` and `parent_rate` are `unsigned long`. The masks
`((1 << width) - 1) << shift` are `int` expressions, used here as 32-bit
patterns; C defines them for widths and shifts below 32. -/
def clk_pll_set_rate (clk : hi3559av100_clk_pll) (rate : Nat) (_parent_rate : Nat)
    (m : Mem) : Mem × Int :=
  let p := hi3559av100_calc_pll (rate % 2 ^ BITS_PER_LONG)
  let val := readl m clk.ctrl_reg1
  let val := val &&& not32 (((1 <<< clk.frac_width) - 1) <<< clk.frac_shift)
  let val := val &&& not32 (((1 <<< clk.postdiv1_width) - 1) <<< clk.postdiv1_shift)
  let val := val &&& not32 (((1 <<< clk.postdiv2_width) - 1) <<< clk.postdiv2_shift)
  let val := val ||| (p.frac_val <<< clk.frac_shift) % 2 ^ 32
  let val := val ||| (p.postdiv1_val <<< clk.postdiv1_shift) % 2 ^ 32
  let val := val ||| (p.postdiv2_val <<< clk.postdiv2_shift) % 2 ^ 32
  let m := writel val clk.ctrl_reg1 m
  let val := readl m clk.ctrl_reg2
  let val := val &&& not32 (((1 <<< clk.fbdiv_width) - 1) <<< clk.fbdiv_shift)
  let val := val &&& not32 (((1 <<< clk.refdiv_width) - 1) <<< clk.refdiv_shift)
  let val := val ||| (p.fbdiv_val <<< clk.fbdiv_shift) % 2 ^ 32
  let val := val ||| (p.refdiv_val <<< clk.refdiv_shift) % 2 ^ 32
  let m := writel val clk.ctrl_reg2 m
  (m, 0)

/-- `clk_pll_recalc_rate`: the rate returned, or `none` when one of the two
`div_u64` calls divides by zero. `frac_val`, `fbdiv_val`, `tmp` and `rate` are
`u64`; `val`, `postdiv1_val` and `postdiv2_val` are `u32`, and so is the
product `postdiv1_val * postdiv2_val`. -/
def clk_pll_recalc_rate (clk : hi3559av100_clk_pll) (_parent_rate : Nat) (m : Mem) :
    Option Nat :=
  let val := readl m clk.ctrl_reg1
  let val := val >>> clk.frac_shift
  let val := val &&& ((1 <<< clk.frac_width) - 1) % 2 ^ 32
  let frac_val := val
  let val := readl m clk.ctrl_reg1
  let val := val >>> clk.postdiv1_shift
  let val := val &&& ((1 <<< clk.postdiv1_width) - 1) % 2 ^ 32
  let postdiv1_val := val
  let val := readl m clk.ctrl_reg1
  let val := val >>> clk.postdiv2_shift
  let val := val &&& ((1 <<< clk.postdiv2_width) - 1) % 2 ^ 32
  let postdiv2_val := val
  let val := readl m clk.ctrl_reg2
  let val := val >>> clk.fbdiv_shift
  let val := val &&& ((1 <<< clk.fbdiv_width) - 1) % 2 ^ 32
  let fbdiv_val := val
  let val := readl m clk.ctrl_reg2
  let val := val >>> clk.refdiv_shift
  let val := val &&& ((1 <<< clk.refdiv_width) - 1) % 2 ^ 32
  let rate := 0
  let tmp := ((24000000 * fbdiv_val) % 2 ^ 64
      + ((24000000 * frac_val) % 2 ^ 64) / (1 <<< 24)) % 2 ^ 64
  let rate := (rate + tmp) % 2 ^ 64
  if val = 0 then none
  else
    let rate := rate / val
    let div := (postdiv1_val * postdiv2_val) % 2 ^ 32
    if div = 0 then none
    else some (rate / div)

/-- The bit field of `width` bits at `shift` of the register at `reg`, as
`clk_pll_recalc_rate` reads each of its five fields:
`(readl(reg) >> shift) & ((1 << width) - 1)`. -/
def pll_field (m : Mem) (reg shift width : Nat) : Nat :=
  (readl m reg >>> shift) &&& ((1 <<< width) - 1) % 2 ^ 32

/-- The rate model in the words of the specification,
`reference_rate × (fbdiv + frac / 2^F) / refdiv / (postdiv1 × postdiv2)`,
in integer arithmetic: the fractional contribution `floor(R * frac / 2^F)` is
added to `R * fbdiv` before the division by `refdiv` and then by
`postdiv1 * postdiv2`. Division by zero gives zero here. -/
def pll_model_rate (R F fbdiv frac refdiv postdiv1 postdiv2 : Nat) : Nat :=
  (R * fbdiv + R * frac / 2 ^ F) / refdiv / (postdiv1 * postdiv2)

/-- Shifts and widths of a PLL handle for which C defines the shift
expressions of `clk_pll_set_rate` and `clk_pll_recalc_rate`: all below 32. -/
def pll_shifts_defined (clk : hi3559av100_clk_pll) : Prop :=
  clk.frac_shift < 32 ∧ clk.frac_width < 32 ∧
  clk.postdiv1_shift < 32 ∧ clk.postdiv1_width < 32 ∧
  clk.postdiv2_shift < 32 ∧ clk.postdiv2_width < 32 ∧
  clk.fbdiv_shift < 32 ∧ clk.fbdiv_width < 32 ∧
  clk.refdiv_shift < 32 ∧ clk.refdiv_width < 32

instance (clk : hi3559av100_clk_pll) : Decidable (pll_shifts_defined clk) := by
  unfold pll_shifts_defined
  infer_instance

/-- Register space holding `v1` at address `a1`, `v2` at address `a2` and zero
elsewhere. -/
def two_regs (a1 v1 a2 v2 : Nat) : Mem :=
  fun a => if a = a1 then v1 else if a = a2 then v2 else 0

/-! ## clk.c: the clock handle registry and leaf registration -/

def MAX_ERRNO : Int := 4095
def ENOENT : Int := 2
def ENOMEM : Int := 12
def EPROBE_DEFER : Int := 517

/-- Largest value of the `int` loop counters of clk.c. The loops count in
natural numbers here, which is exact for bounds up to `INT_MAX`. -/
def INT_MAX : Nat := 2147483647

/-- `IS_ERR(ptr)`: the pointer lies in the last `MAX_ERRNO` addresses. -/
def IS_ERR (ptr : Int) : Bool := decide (-MAX_ERRNO ≤ ptr ∧ ptr < 0)

/-- `ERR_PTR(error)`. -/
def ERR_PTR (error : Int) : Int := error

/-- `PTR_ERR(ptr)`. -/
def PTR_ERR (ptr : Int) : Int := ptr

/-- `struct hisi_fixed_rate_clock`. -/
structure hisi_fixed_rate_clock where
  id : Nat
  name : String
  parent_name : Option String
  flags : Nat
  fixed_rate : Nat
deriving DecidableEq, Repr, Inhabited

/-- `struct hisi_fixed_factor_clock`. -/
structure hisi_fixed_factor_clock where
  id : Nat
  name : String
  parent_name : Option String
  mult : Nat
  div : Nat
  flags : Nat
deriving DecidableEq, Repr, Inhabited

/-- `struct hisi_mux_clock`; `table = none` is `NULL`; `alias_name` is the
member `alias`, with `none` for `NULL`. -/
structure hisi_mux_clock where
  id : Nat
  name : String
  parent_names : List String
  num_parents : Nat
  flags : Nat
  offset : Nat
  shift : Nat
  width : Nat
  mux_flags : Nat
  table : Option (List Nat)
  alias_name : Option String := none
deriving DecidableEq, Repr, Inhabited

/-- `struct hisi_phase_clock`. -/
structure hisi_phase_clock where
  id : Nat
  name : String
  parent_names : Option String
  flags : Nat
  offset : Nat
  shift : Nat
  width : Nat
  phase_degrees : List Nat
  phase_regvals : List Nat
  phase_num : Nat
deriving DecidableEq, Repr, Inhabited

/-- `struct hisi_divider_clock`; an entry of `table` is a pair `(val, div)` of
`struct clk_div_table`. -/
structure hisi_divider_clock where
  id : Nat
  name : String
  parent_name : Option String
  flags : Nat
  offset : Nat
  shift : Nat
  width : Nat
  div_flags : Nat
  table : Option (List (Nat × Nat))
  alias_name : Option String := none
deriving DecidableEq, Repr, Inhabited

/-- `struct hi6220_divider_clock`. -/
structure hi6220_divider_clock where
  id : Nat
  name : String
  parent_name : Option String
  flags : Nat
  offset : Nat
  shift : Nat
  width : Nat
  mask_bit : Nat
  alias_name : Option String := none
deriving DecidableEq, Repr, Inhabited

/-- `struct hisi_gate_clock`. -/
structure hisi_gate_clock where
  id : Nat
  name : String
  parent_name : Option String
  flags : Nat
  offset : Nat
  bit_idx : Nat
  gate_flags : Nat
  alias_name : Option String := none
deriving DecidableEq, Repr, Inhabited

/-- `struct hisi_clocks`. The two function pointers `prologue` and
`clk_register_customized` are recorded as set (`true`) or `NULL` (`false`);
what the functions do comes from the environment. The array
`customized_clks` is a `const void *` that clk.c only hands to the callback
and is left out. -/
structure hisi_clocks where
  nr : Nat
  fixed_rate_clks : List hisi_fixed_rate_clock
  fixed_rate_clks_num : Nat
  fixed_factor_clks : List hisi_fixed_factor_clock
  fixed_factor_clks_num : Nat
  mux_clks_num : Nat := 0
  phase_clks_num : Nat := 0
  divider_clks_num : Nat := 0
  gate_clks_num : Nat := 0
  gate_sep_clks_num : Nat := 0
  customized_clks_num : Nat := 0
  prologue : Bool := false
  mux_clks : List hisi_mux_clock := []
  phase_clks : List hisi_phase_clock := []
  divider_clks : List hisi_divider_clock := []
  gate_clks : List hisi_gate_clock := []
  gate_sep_clks : List hisi_gate_clock := []
  clk_register_customized : Bool := false
deriving DecidableEq, Repr

/-- `struct clk_hw_onecell_data`: `num` and the array `hws` of handle
pointers. -/
structure clk_hw_onecell_data where
  num : Nat
  hws : List Int
deriving DecidableEq, Repr

/-- `struct hisi_clock_data`; `clks = none` is the `NULL` table pointer. -/
structure hisi_clock_data where
  clk_data : clk_hw_onecell_data
  base : Nat
  clks : Option hisi_clocks
deriving DecidableEq, Repr

/-- The assignment `data->clk_data->hws[id] = clk`. -/
def hisi_clock_data.set_hw (data : hisi_clock_data) (id : Nat) (clk : Int) : hisi_clock_data :=
  { data with clk_data := { data.clk_data with hws := data.clk_data.hws.set id clk } }

/-- The read `data->clk_data->hws[id]`. -/
def hisi_clock_data.get_hw (data : hisi_clock_data) (id : Nat) : Int :=
  data.clk_data.hws.getD id 0

/-- Calls made into the kernel outside clk.c, with the arguments that matter. -/
inductive Event where
  | of_iomap
  | kmalloc
  | kzalloc (nr : Nat)
  | kfree_clk_data
  | kfree_data
  | of_clk_add_hw_provider
  | of_clk_del_provider
  | clk_hw_register_fixed_rate (name : String) (parent_name : Option String)
      (flags : Nat) (fixed_rate : Nat)
  | clk_hw_unregister_fixed_rate (hw : Int)
  | clk_hw_register_fixed_factor (name : String) (parent_name : Option String)
      (flags : Nat) (mult : Nat) (div : Nat)
  | clk_hw_unregister_fixed_factor (hw : Int)
  | devm_clk_hw_register_mux (name : String) (reg : Nat) (shift : Nat) (mask : Nat)
  | devm_clk_hw_register_hisi_phase (name : String) (base : Nat)
  | devm_clk_hw_register_divider_table (name : String) (reg : Nat) (shift : Nat) (width : Nat)
  | devm_clk_hw_register_gate (name : String) (reg : Nat) (bit_idx : Nat)
  | devm_clk_hw_register_hisi_gate_sep (name : String) (reg : Nat) (bit_idx : Nat)
  | devm_clk_hw_register_hi6220_divider (name : String) (reg : Nat) (shift : Nat)
      (width : Nat) (mask_bit : Nat)
  | clk_hw_register_clkdev (hw : Int) (alias_name : String)
  | prologue
  | clk_register_customized (num : Nat)
  | platform_set_drvdata
  | devm_kmalloc_crg
  | devm_kmalloc_rstc
  | devm_platform_ioremap_resource
  | reset_controller_register (membase : Int)
  | reset_controller_unregister (membase : Int)
deriving DecidableEq, Repr

/-- `struct hisi_reset_controller` of reset.c, restricted to the member
`membase`, a pointer. -/
structure hisi_reset_controller where
  membase : Int
deriving DecidableEq, Repr

/-- `struct hisi_crg_dev` of crg.h: the two members are pointers, `none` is a
pointer that leads to no object of the member's type. -/
structure hisi_crg_dev where
  clk_data : Option hisi_clock_data
  rstc : Option hisi_reset_controller
deriving DecidableEq, Repr

/-- Results of the calls made into the kernel: `of_iomap` gives the mapped
base (`0` is `NULL`), `kmalloc` and `kzalloc` tell whether the allocation of
`data` and of `data->clk_data` succeeds, `of_clk_add_hw_provider` gives its
return value, and each constructor gives, for the descriptor at index `i`
of the batch, the pointer returned. `of_device_get_match_data` is the table
matched for the device (`none` is `NULL`). `prologue` and
`clk_register_customized` are the functions behind the two pointers of
`struct hisi_clocks`: the value returned and the registry as they leave it.
For reset.c: `devm_kmalloc_crg` is the object that `devm_kmalloc` returns in
`hisi_crg_probe` (`none` is `NULL`), with the contents the allocator left in
it, since `devm_kmalloc` does not clear memory; `devm_kmalloc_rstc` tells
whether the allocation in `hisi_reset_init` succeeds, and
`devm_platform_ioremap_resource` is the pointer that call returns. -/
structure Env where
  of_iomap : Nat
  kmalloc : Bool
  kzalloc : Bool
  of_clk_add_hw_provider : Int
  clk_hw_register_fixed_rate : Nat → Int
  clk_hw_register_fixed_factor : Nat → Int
  of_device_get_match_data : Option hisi_clocks := none
  prologue : hisi_clock_data → Int × hisi_clock_data := fun data => (0, data)
  clk_register_customized : Nat → hisi_clock_data → Int × hisi_clock_data :=
    fun _ data => (0, data)
  devm_clk_hw_register_mux : Nat → Int := fun _ => ERR_PTR (-ENOMEM)
  devm_clk_hw_register_hisi_phase : Nat → Int := fun _ => ERR_PTR (-ENOMEM)
  devm_clk_hw_register_divider_table : Nat → Int := fun _ => ERR_PTR (-ENOMEM)
  devm_clk_hw_register_gate : Nat → Int := fun _ => ERR_PTR (-ENOMEM)
  devm_clk_hw_register_hisi_gate_sep : Nat → Int := fun _ => ERR_PTR (-ENOMEM)
  devm_clk_hw_register_hi6220_divider : Nat → Int := fun _ => ERR_PTR (-ENOMEM)
  devm_kmalloc_crg : Option hisi_crg_dev := none
  devm_kmalloc_rstc : Bool := false
  devm_platform_ioremap_resource : Int := ERR_PTR (-ENOMEM)

/-- The loop `for (i = 0; i < nr; i++) data->clk_data->hws[i] = ERR_PTR(-EPROBE_DEFER)`
of `hisi_clk_init`, with `n` iterations left from index `i`. -/
def hisi_clk_init_loop : Nat → Nat → List Int → List Int
  | 0, _, hws => hws
  | n + 1, i, hws => hisi_clk_init_loop n (i + 1) (hws.set i (ERR_PTR (-EPROBE_DEFER)))

/-- `hisi_clk_init`: the registry returned (`none` is `NULL`) and the log.
`kzalloc` returns `nr` zeroed slots. -/
def hisi_clk_init (env : Env) (nr : Nat) (log : List Event) :
    Option hisi_clock_data × List Event :=
  let base := env.of_iomap
  let log := log ++ [Event.of_iomap]
  if base = 0 then (none, log)
  else
    let log := log ++ [Event.kmalloc]
    if env.kmalloc = false then (none, log)
    else
      let log := log ++ [Event.kzalloc nr]
      if env.kzalloc = false then (none, log ++ [Event.kfree_data])
      else
        let hws := List.replicate nr (0 : Int)
        let ret := env.of_clk_add_hw_provider
        let log := log ++ [Event.of_clk_add_hw_provider]
        if ret ≠ 0 then (none, log ++ [Event.kfree_clk_data, Event.kfree_data])
        else
          (some { base := base, clks := none,
                  clk_data := { num := nr, hws := hisi_clk_init_loop nr 0 hws } }, log)

/-- The loop of `hisi_clk_unregister_fixed_rate` (an instance of
`hisi_clk_unregister_fn`), with `n` iterations left from index `i`. -/
def hisi_clk_unregister_fixed_rate_loop (data : hisi_clock_data)
    (clks : List hisi_fixed_rate_clock) : Nat → Nat → List Event → List Event
  | 0, _, log => log
  | n + 1, i, log =>
    let clk := data.get_hw (clks.getD i default).id
    if clk ≠ 0 ∧ IS_ERR clk = false then
      hisi_clk_unregister_fixed_rate_loop data clks n (i + 1)
        (log ++ [Event.clk_hw_unregister_fixed_rate clk])
    else
      hisi_clk_unregister_fixed_rate_loop data clks n (i + 1) log

/-- `hisi_clk_unregister_fixed_rate`, called with `data->clks` equal to `clks`. -/
def hisi_clk_unregister_fixed_rate (data : hisi_clock_data) (clks : hisi_clocks)
    (log : List Event) : List Event :=
  hisi_clk_unregister_fixed_rate_loop data clks.fixed_rate_clks clks.fixed_rate_clks_num 0 log

/-- The loop of `hisi_clk_unregister_fixed_factor`. -/
def hisi_clk_unregister_fixed_factor_loop (data : hisi_clock_data)
    (clks : List hisi_fixed_factor_clock) : Nat → Nat → List Event → List Event
  | 0, _, log => log
  | n + 1, i, log =>
    let clk := data.get_hw (clks.getD i default).id
    if clk ≠ 0 ∧ IS_ERR clk = false then
      hisi_clk_unregister_fixed_factor_loop data clks n (i + 1)
        (log ++ [Event.clk_hw_unregister_fixed_factor clk])
    else
      hisi_clk_unregister_fixed_factor_loop data clks n (i + 1) log

/-- `hisi_clk_unregister_fixed_factor`, called with `data->clks` equal to `clks`. -/
def hisi_clk_unregister_fixed_factor (data : hisi_clock_data) (clks : hisi_clocks)
    (log : List Event) : List Event :=
  hisi_clk_unregister_fixed_factor_loop data clks.fixed_factor_clks
    clks.fixed_factor_clks_num 0 log

/-- `hisi_clk_free`: the log after the call; `data` is released at the end. -/
def hisi_clk_free (data : hisi_clock_data) (log : List Event) : List Event :=
  let log :=
    match data.clks with
    | some clks =>
      let log :=
        if clks.fixed_rate_clks_num ≠ 0 then hisi_clk_unregister_fixed_rate data clks log
        else log
      if clks.fixed_factor_clks_num ≠ 0 then hisi_clk_unregister_fixed_factor data clks log
      else log
    | none => log
  log ++ [Event.of_clk_del_provider, Event.kfree_clk_data, Event.kfree_data]

/-- State of a registration loop when it is left. -/
structure LoopExit where
  failed : Option (Nat × Int)
  data : hisi_clock_data
  log : List Event

/-- The `for` loop of `hisi_clk_register_fixed_rate`, with `n` iterations left
from index `i`. `failed = some (i, clk)` is the jump to `err` with the index
and the error pointer at that time; `failed = none` is the normal exit. -/
def hisi_clk_register_fixed_rate_loop (env : Env) (clks : List hisi_fixed_rate_clock) :
    Nat → Nat → hisi_clock_data → List Event → LoopExit
  | 0, _, data, log => { failed := none, data := data, log := log }
  | n + 1, i, data, log =>
    let p_clk := clks.getD i default
    let clk := env.clk_hw_register_fixed_rate i
    let log := log ++ [Event.clk_hw_register_fixed_rate p_clk.name p_clk.parent_name
      p_clk.flags p_clk.fixed_rate]
    if IS_ERR clk then { failed := some (i, clk), data := data, log := log }
    else hisi_clk_register_fixed_rate_loop env clks n (i + 1) (data.set_hw p_clk.id clk) log

/-- The loop `while (i--) clk_hw_unregister_fixed_rate(data->clk_data->hws[clks[i].id])`
at the label `err` of `hisi_clk_register_fixed_rate`, entered with the value `i`. -/
def hisi_clk_register_fixed_rate_err (clks : List hisi_fixed_rate_clock)
    (data : hisi_clock_data) : Nat → List Event → List Event
  | 0, log => log
  | i + 1, log =>
    hisi_clk_register_fixed_rate_err clks data i
      (log ++ [Event.clk_hw_unregister_fixed_rate (data.get_hw (clks.getD i default).id)])

/-- Outcome of a registration routine: value returned, registry and log. -/
structure RegResult where
  ret : Int
  data : hisi_clock_data
  log : List Event

/-- `hisi_clk_register_fixed_rate`. -/
def hisi_clk_register_fixed_rate (env : Env) (clks : List hisi_fixed_rate_clock)
    (num : Nat) (data : hisi_clock_data) (log : List Event) : RegResult :=
  let l := hisi_clk_register_fixed_rate_loop env clks num 0 data log
  match l.failed with
  | none => { ret := 0, data := l.data, log := l.log }
  | some (i, clk) =>
    { ret := PTR_ERR clk, data := l.data,
      log := hisi_clk_register_fixed_rate_err clks l.data i l.log }

/-- The `for` loop of `hisi_clk_register_fixed_factor`. -/
def hisi_clk_register_fixed_factor_loop (env : Env) (clks : List hisi_fixed_factor_clock) :
    Nat → Nat → hisi_clock_data → List Event → LoopExit
  | 0, _, data, log => { failed := none, data := data, log := log }
  | n + 1, i, data, log =>
    let p_clk := clks.getD i default
    let clk := env.clk_hw_register_fixed_factor i
    let log := log ++ [Event.clk_hw_register_fixed_factor p_clk.name p_clk.parent_name
      p_clk.flags p_clk.mult p_clk.div]
    if IS_ERR clk then { failed := some (i, clk), data := data, log := log }
    else hisi_clk_register_fixed_factor_loop env clks n (i + 1) (data.set_hw p_clk.id clk) log

/-- The loop at the label `err` of `hisi_clk_register_fixed_factor`; the source
calls `clk_hw_unregister_fixed_rate` here. -/
def hisi_clk_register_fixed_factor_err (clks : List hisi_fixed_factor_clock)
    (data : hisi_clock_data) : Nat → List Event → List Event
  | 0, log => log
  | i + 1, log =>
    hisi_clk_register_fixed_factor_err clks data i
      (log ++ [Event.clk_hw_unregister_fixed_rate (data.get_hw (clks.getD i default).id)])

/-- `hisi_clk_register_fixed_factor`. -/
def hisi_clk_register_fixed_factor (env : Env) (clks : List hisi_fixed_factor_clock)
    (num : Nat) (data : hisi_clock_data) (log : List Event) : RegResult :=
  let l := hisi_clk_register_fixed_factor_loop env clks num 0 data log
  match l.failed with
  | none => { ret := 0, data := l.data, log := l.log }
  | some (i, clk) =>
    { ret := PTR_ERR clk, data := l.data,
      log := hisi_clk_register_fixed_factor_err clks l.data i l.log }

/-- `hisi_clocks_get_nr`; the sum is a `size_t`. -/
def hisi_clocks_get_nr (clks : hisi_clocks) : Nat :=
  if clks.nr ≠ 0 then clks.nr
  else
    (clks.fixed_rate_clks_num + clks.fixed_factor_clks_num +
      clks.mux_clks_num + clks.phase_clks_num +
      clks.divider_clks_num + clks.gate_clks_num +
      clks.gate_sep_clks_num + clks.customized_clks_num) % 2 ^ BITS_PER_LONG

/-- `struct device_node`, restricted to the member `data`; `none` is `NULL`. -/
structure device_node where
  data : Option hisi_clock_data
deriving DecidableEq, Repr

/-- Outcome of `hisi_clk_early_init`: value returned, the node and the log. -/
structure InitResult where
  ret : Int
  np : device_node
  log : List Event

/-- `hisi_clk_early_init`. -/
def hisi_clk_early_init (env : Env) (np : device_node) (clks : hisi_clocks)
    (log : List Event) : InitResult :=
  match hisi_clk_init env (hisi_clocks_get_nr clks) log with
  | (none, log) => { ret := -ENOMEM, np := np, log := log }
  | (some data, log) =>
    let data := { data with clks := some clks }
    let r := hisi_clk_register_fixed_rate env clks.fixed_rate_clks
      clks.fixed_rate_clks_num data log
    if r.ret ≠ 0 then { ret := r.ret, np := np, log := hisi_clk_free r.data r.log }
    else
      let r := hisi_clk_register_fixed_factor env clks.fixed_factor_clks
        clks.fixed_factor_clks_num r.data r.log
      if r.ret ≠ 0 then { ret := r.ret, np := np, log := hisi_clk_free r.data r.log }
      else { ret := 0, np := { np with data := some r.data }, log := r.log }

/-! ## clk.c: generic node registration and the platform driver helpers -/

/-- The loop of a function made by the macro `hisi_clk_register_fn(fn, type, stmt)`,
with `n` iterations left from index `i`. `ctor i` is the pointer returned by
the constructor call `stmt` for the descriptor at index `i`, `call base p_clk`
is the record of that call, `id` and `alias_of` read the members `id` and
`alias` of the descriptor type, and `base` is `data->base` as read on entry. -/
def hisi_clk_register_fn_loop {α : Type} [Inhabited α] (ctor : Nat → Int)
    (call : Nat → α → Event) (id : α → Nat) (alias_of : α → Option String)
    (clks : List α) (base : Nat) : Nat → Nat → hisi_clock_data → List Event → RegResult
  | 0, _, data, log => { ret := 0, data := data, log := log }
  | n + 1, i, data, log =>
    let p_clk := clks.getD i default
    let clk := ctor i
    let log := log ++ [call base p_clk]
    if IS_ERR clk then { ret := PTR_ERR clk, data := data, log := log }
    else
      let log :=
        match alias_of p_clk with
        | some a => log ++ [Event.clk_hw_register_clkdev clk a]
        | none => log
      hisi_clk_register_fn_loop ctor call id alias_of clks base n (i + 1)
        (data.set_hw (id p_clk) clk) log

/-- A function made by the macro `hisi_clk_register_fn(fn, type, stmt)`. -/
def hisi_clk_register_fn {α : Type} [Inhabited α] (ctor : Nat → Int)
    (call : Nat → α → Event) (id : α → Nat) (alias_of : α → Option String)
    (clks : List α) (num : Nat) (data : hisi_clock_data) (log : List Event) : RegResult :=
  hisi_clk_register_fn_loop ctor call id alias_of clks data.base num 0 data log

/-- The record of the call `__devm_clk_hw_register_mux(...)` for `p_clk`; the
mask argument `BIT(p_clk->width) - 1` is passed as a `u32`. -/
def call_register_mux (base : Nat) (p_clk : hisi_mux_clock) : Event :=
  Event.devm_clk_hw_register_mux p_clk.name (base + p_clk.offset) p_clk.shift
    ((BIT p_clk.width - 1) % 2 ^ 32)

/-- `hisi_clk_register_mux`. -/
def hisi_clk_register_mux (env : Env) (clks : List hisi_mux_clock) (num : Nat)
    (data : hisi_clock_data) (log : List Event) : RegResult :=
  hisi_clk_register_fn env.devm_clk_hw_register_mux call_register_mux
    (fun p_clk => p_clk.id) (fun p_clk => p_clk.alias_name) clks num data log

/-- The loop of `hisi_clk_register_phase`, with `n` iterations left from index `i`. -/
def hisi_clk_register_phase_loop (env : Env) (clks : List hisi_phase_clock) (base : Nat) :
    Nat → Nat → hisi_clock_data → List Event → RegResult
  | 0, _, data, log => { ret := 0, data := data, log := log }
  | n + 1, i, data, log =>
    let p_clk := clks.getD i default
    let clk := env.devm_clk_hw_register_hisi_phase i
    let log := log ++ [Event.devm_clk_hw_register_hisi_phase p_clk.name base]
    if IS_ERR clk then { ret := PTR_ERR clk, data := data, log := log }
    else hisi_clk_register_phase_loop env clks base n (i + 1) (data.set_hw p_clk.id clk) log

/-- `hisi_clk_register_phase`. -/
def hisi_clk_register_phase (env : Env) (clks : List hisi_phase_clock) (num : Nat)
    (data : hisi_clock_data) (log : List Event) : RegResult :=
  hisi_clk_register_phase_loop env clks data.base num 0 data log

/-- The record of the call `devm_clk_hw_register_divider_table(...)` for `p_clk`. -/
def call_register_divider (base : Nat) (p_clk : hisi_divider_clock) : Event :=
  Event.devm_clk_hw_register_divider_table p_clk.name (base + p_clk.offset) p_clk.shift
    p_clk.width

/-- `hisi_clk_register_divider`. -/
def hisi_clk_register_divider (env : Env) (clks : List hisi_divider_clock) (num : Nat)
    (data : hisi_clock_data) (log : List Event) : RegResult :=
  hisi_clk_register_fn env.devm_clk_hw_register_divider_table call_register_divider
    (fun p_clk => p_clk.id) (fun p_clk => p_clk.alias_name) clks num data log

/-- The record of the call `devm_clk_hw_register_gate(...)` for `p_clk`. -/
def call_register_gate (base : Nat) (p_clk : hisi_gate_clock) : Event :=
  Event.devm_clk_hw_register_gate p_clk.name (base + p_clk.offset) p_clk.bit_idx

/-- `hisi_clk_register_gate`. -/
def hisi_clk_register_gate (env : Env) (clks : List hisi_gate_clock) (num : Nat)
    (data : hisi_clock_data) (log : List Event) : RegResult :=
  hisi_clk_register_fn env.devm_clk_hw_register_gate call_register_gate
    (fun p_clk => p_clk.id) (fun p_clk => p_clk.alias_name) clks num data log

/-- The record of the call `devm_clk_hw_register_hisi_gate_sep(...)` for `p_clk`. -/
def call_register_gate_sep (base : Nat) (p_clk : hisi_gate_clock) : Event :=
  Event.devm_clk_hw_register_hisi_gate_sep p_clk.name (base + p_clk.offset) p_clk.bit_idx

/-- `hisi_clk_register_gate_sep`. -/
def hisi_clk_register_gate_sep (env : Env) (clks : List hisi_gate_clock) (num : Nat)
    (data : hisi_clock_data) (log : List Event) : RegResult :=
  hisi_clk_register_fn env.devm_clk_hw_register_hisi_gate_sep call_register_gate_sep
    (fun p_clk => p_clk.id) (fun p_clk => p_clk.alias_name) clks num data log

/-- The record of the call `devm_clk_hw_register_hi6220_divider(...)` for `p_clk`. -/
def call_register_hi6220_divider (base : Nat) (p_clk : hi6220_divider_clock) : Event :=
  Event.devm_clk_hw_register_hi6220_divider p_clk.name (base + p_clk.offset) p_clk.shift
    p_clk.width p_clk.mask_bit

/-- `hi6220_clk_register_divider`. -/
def hi6220_clk_register_divider (env : Env) (clks : List hi6220_divider_clock) (num : Nat)
    (data : hisi_clock_data) (log : List Event) : RegResult :=
  hisi_clk_register_fn env.devm_clk_hw_register_hi6220_divider call_register_hi6220_divider
    (fun p_clk => p_clk.id) (fun p_clk => p_clk.alias_name) clks num data log

/-- The call `clks->clk_register_customized(dev, clks->customized_clks, num, data)`. -/
def call_clk_register_customized (env : Env) (num : Nat) (data : hisi_clock_data)
    (log : List Event) : RegResult :=
  { ret := (env.clk_register_customized num data).1,
    data := (env.clk_register_customized num data).2,
    log := log ++ [Event.clk_register_customized num] }

/-- `hisi_clk_register`: each `do_hisi_clk_register(type)` runs the batch when
its count is non-zero and returns at once when the batch fails. -/
def hisi_clk_register (env : Env) (clks : hisi_clocks) (data : hisi_clock_data)
    (log : List Event) : RegResult :=
  let r : RegResult :=
    if clks.mux_clks_num ≠ 0 then hisi_clk_register_mux env clks.mux_clks clks.mux_clks_num data log
    else { ret := 0, data := data, log := log }
  if r.ret ≠ 0 then r
  else
    let r : RegResult :=
      if clks.phase_clks_num ≠ 0 then
        hisi_clk_register_phase env clks.phase_clks clks.phase_clks_num r.data r.log
      else { r with ret := 0 }
    if r.ret ≠ 0 then r
    else
      let r : RegResult :=
        if clks.divider_clks_num ≠ 0 then
          hisi_clk_register_divider env clks.divider_clks clks.divider_clks_num r.data r.log
        else { r with ret := 0 }
      if r.ret ≠ 0 then r
      else
        let r : RegResult :=
          if clks.gate_clks_num ≠ 0 then
            hisi_clk_register_gate env clks.gate_clks clks.gate_clks_num r.data r.log
          else { r with ret := 0 }
        if r.ret ≠ 0 then r
        else
          let r : RegResult :=
            if clks.gate_sep_clks_num ≠ 0 then
              hisi_clk_register_gate_sep env clks.gate_sep_clks clks.gate_sep_clks_num
                r.data r.log
            else { r with ret := 0 }
          if r.ret ≠ 0 then r
          else
            let r : RegResult :=
              if clks.clk_register_customized = true ∧ clks.customized_clks_num ≠ 0 then
                call_clk_register_customized env clks.customized_clks_num r.data r.log
              else { r with ret := 0 }
            if r.ret ≠ 0 then r
            else { r with ret := 0 }

/-- The driver data of a device, a `void *`: `NULL`, a pointer to a
`struct hisi_clock_data` (stored by `hisi_clk_probe`) or a pointer to a
`struct hisi_crg_dev` (stored by `hisi_crg_probe`). -/
inductive drvdata_ptr where
  | null
  | clock_data (data : hisi_clock_data)
  | crg_dev (crg : hisi_crg_dev)
deriving DecidableEq, Repr

/-- `struct platform_device`, restricted to the device-tree node
`dev.of_node` and the driver data. -/
structure platform_device where
  of_node : device_node
  drvdata : drvdata_ptr
deriving DecidableEq, Repr

/-- Outcome of `hisi_clk_probe`: value returned, the device and the log. -/
structure ProbeResult where
  ret : Int
  pdev : platform_device
  log : List Event

/-- The step `if (clks->prologue) ret = clks->prologue(dev, data)` of
`hisi_clk_probe`; without a prologue nothing happens and the step counts as
returning 0. -/
def call_prologue (env : Env) (clks : hisi_clocks) (data : hisi_clock_data)
    (log : List Event) : RegResult :=
  if clks.prologue = true then
    { ret := (env.prologue data).1, data := (env.prologue data).2,
      log := log ++ [Event.prologue] }
  else { ret := 0, data := data, log := log }

/-- The body of `hisi_clk_probe` from the prologue on, entered once `data` has
been taken from the node and `np->data` has been set to `NULL` (in `pdev`). -/
def hisi_clk_probe_claimed (env : Env) (clks : hisi_clocks) (pdev : platform_device)
    (data : hisi_clock_data) (log : List Event) : ProbeResult :=
  let p := call_prologue env clks data log
  if p.ret ≠ 0 then { ret := p.ret, pdev := pdev, log := hisi_clk_free p.data p.log }
  else
    let r := hisi_clk_register env clks p.data p.log
    if r.ret ≠ 0 then { ret := r.ret, pdev := pdev, log := hisi_clk_free r.data r.log }
    else
      { ret := 0, pdev := { pdev with drvdata := drvdata_ptr.clock_data r.data },
        log := r.log ++ [Event.platform_set_drvdata] }

/-- `hisi_clk_probe`. After a successful `hisi_clk_early_init` the node holds
the registry; the branch in which it does not is a `NULL` dereference in the
source and returns `-ENOMEM` here. -/
def hisi_clk_probe (env : Env) (pdev : platform_device) (log : List Event) : ProbeResult :=
  match env.of_device_get_match_data with
  | none => { ret := -ENOENT, pdev := pdev, log := log }
  | some clks =>
    match pdev.of_node.data with
    | some data =>
      hisi_clk_probe_claimed env clks { pdev with of_node := { data := none } } data log
    | none =>
      let e := hisi_clk_early_init env pdev.of_node clks log
      if e.ret ≠ 0 then { ret := e.ret, pdev := { pdev with of_node := e.np }, log := e.log }
      else
        match e.np.data with
        | some data =>
          hisi_clk_probe_claimed env clks { pdev with of_node := { data := none } } data e.log
        | none => { ret := -ENOMEM, pdev := { pdev with of_node := e.np }, log := e.log }

/-- `hisi_clk_remove`: the log after the call. The driver data is read as a
pointer to `struct hisi_clock_data` and handed to `hisi_clk_free`; when it is
`NULL` or points to an object of another type the accesses of
`hisi_clk_free` through it are undefined and the result is `none`. -/
def hisi_clk_remove (pdev : platform_device) (log : List Event) : Option (List Event) :=
  match pdev.drvdata with
  | drvdata_ptr.clock_data data => some (hisi_clk_free data log)
  | _ => none

/-! ## reset.c: the reset controller of a device and the combined driver -/

/-- `hisi_reset_init`: the controller returned (`none` is `NULL`) and the log. -/
def hisi_reset_init (env : Env) (log : List Event) :
    Option hisi_reset_controller × List Event :=
  let log := log ++ [Event.devm_kmalloc_rstc]
  if env.devm_kmalloc_rstc = false then (none, log)
  else
    let membase := env.devm_platform_ioremap_resource
    let log := log ++ [Event.devm_platform_ioremap_resource]
    if IS_ERR membase then (none, log)
    else (some { membase := membase }, log ++ [Event.reset_controller_register membase])

/-- `hisi_reset_exit`: the log after the call. -/
def hisi_reset_exit (rstc : hisi_reset_controller) (log : List Event) : List Event :=
  log ++ [Event.reset_controller_unregister rstc.membase]

/-- `hisi_crg_probe`; `none` when the call of `hisi_clk_remove` at the label
`err` is undefined. The member `crg->clk_data` is not assigned. -/
def hisi_crg_probe (env : Env) (pdev : platform_device) (log : List Event) :
    Option ProbeResult :=
  let log := log ++ [Event.devm_kmalloc_crg]
  match env.devm_kmalloc_crg with
  | none => some { ret := -ENOMEM, pdev := pdev, log := log }
  | some crg =>
    let p := hisi_clk_probe env pdev log
    if p.ret ≠ 0 then some { ret := p.ret, pdev := p.pdev, log := p.log }
    else
      let i := hisi_reset_init env p.log
      let crg := { crg with rstc := i.1 }
      match crg.rstc with
      | none =>
        match hisi_clk_remove p.pdev i.2 with
        | some log => some { ret := -ENOMEM, pdev := p.pdev, log := log }
        | none => none
      | some _ =>
        some { ret := 0, pdev := { p.pdev with drvdata := drvdata_ptr.crg_dev crg },
               log := i.2 ++ [Event.platform_set_drvdata] }

/-- `hisi_crg_remove`: the log after the call. The driver data is read as a
pointer to `struct hisi_crg_dev`; `none` when it is not one, when `crg->rstc`
is `NULL`, or when the call of `hisi_clk_remove` is undefined. -/
def hisi_crg_remove (pdev : platform_device) (log : List Event) : Option (List Event) :=
  match pdev.drvdata with
  | drvdata_ptr.crg_dev crg =>
    match crg.rstc with
    | some rstc => hisi_clk_remove pdev (hisi_reset_exit rstc log)
    | none => none
  | _ => none

/-! ## clk-hi3559a.c: multiplexer tables -/

def fmc_mux_p : List String :=
  ["24m", "75m", "125m", "150m", "200m", "250m", "300m", "400m"]

def mmc_mux_p : List String :=
  ["100k", "25m", "49p5m", "99m", "187p5m", "150m", "198m", "400k"]

def sysapb_mux_p : List String := ["24m", "50m"]

def sysbus_mux_p : List String := ["24m", "300m"]

def uart_mux_p : List String := ["50m", "24m", "3m"]

def a73_clksel_mux_p : List String := ["24m", "apll", "1000m"]

def fmc_mux_table : List Nat := [0, 1, 2, 3, 4, 5, 6, 7]
def mmc_mux_table : List Nat := [0, 1, 2, 3, 4, 5, 6, 7]
def sysapb_mux_table : List Nat := [0, 1]
def sysbus_mux_table : List Nat := [0, 1]
def uart_mux_table : List Nat := [0, 1, 2]
def a73_clksel_mux_table : List Nat := [0, 1, 2]

/-- The table `hi3559av100_mux_clks_crg`. The identifiers `HI3559AV100_...` of
the binding header and the flag `CLK_SET_RATE_PARENT` of the clock framework
are parameters: `ID` maps the name of an identifier to its value. -/
def hi3559av100_mux_clks_crg (ID : String → Nat) (CLK_SET_RATE_PARENT : Nat) :
    List hisi_mux_clock :=
  [ { id := ID "HI3559AV100_FMC_MUX", name := "fmc_mux", parent_names := fmc_mux_p,
      num_parents := fmc_mux_p.length, flags := CLK_SET_RATE_PARENT, offset := 0x170,
      shift := 2, width := 3, mux_flags := 0, table := some fmc_mux_table },
    { id := ID "HI3559AV100_MMC0_MUX", name := "mmc0_mux", parent_names := mmc_mux_p,
      num_parents := mmc_mux_p.length, flags := CLK_SET_RATE_PARENT, offset := 0x1a8,
      shift := 24, width := 3, mux_flags := 0, table := some mmc_mux_table },
    { id := ID "HI3559AV100_MMC1_MUX", name := "mmc1_mux", parent_names := mmc_mux_p,
      num_parents := mmc_mux_p.length, flags := CLK_SET_RATE_PARENT, offset := 0x1ec,
      shift := 24, width := 3, mux_flags := 0, table := some mmc_mux_table },
    { id := ID "HI3559AV100_MMC2_MUX", name := "mmc2_mux", parent_names := mmc_mux_p,
      num_parents := mmc_mux_p.length, flags := CLK_SET_RATE_PARENT, offset := 0x214,
      shift := 24, width := 3, mux_flags := 0, table := some mmc_mux_table },
    { id := ID "HI3559AV100_MMC3_MUX", name := "mmc3_mux", parent_names := mmc_mux_p,
      num_parents := mmc_mux_p.length, flags := CLK_SET_RATE_PARENT, offset := 0x23c,
      shift := 24, width := 3, mux_flags := 0, table := some mmc_mux_table },
    { id := ID "HI3559AV100_SYSAPB_MUX", name := "sysapb_mux", parent_names := sysapb_mux_p,
      num_parents := sysapb_mux_p.length, flags := CLK_SET_RATE_PARENT, offset := 0xe8,
      shift := 3, width := 1, mux_flags := 0, table := some sysapb_mux_table },
    { id := ID "HI3559AV100_SYSBUS_MUX", name := "sysbus_mux", parent_names := sysbus_mux_p,
      num_parents := sysbus_mux_p.length, flags := CLK_SET_RATE_PARENT, offset := 0xe8,
      shift := 0, width := 1, mux_flags := 0, table := some sysbus_mux_table },
    { id := ID "HI3559AV100_UART_MUX", name := "uart_mux", parent_names := uart_mux_p,
      num_parents := uart_mux_p.length, flags := CLK_SET_RATE_PARENT, offset := 0x198,
      shift := 28, width := 2, mux_flags := 0, table := some uart_mux_table },
    { id := ID "HI3559AV100_A73_MUX", name := "a73_mux", parent_names := a73_clksel_mux_p,
      num_parents := a73_clksel_mux_p.length, flags := CLK_SET_RATE_PARENT, offset := 0xe4,
      shift := 0, width := 2, mux_flags := 0, table := some a73_clksel_mux_table } ]

def shub_source_clk_mux_table : List Nat := [0, 1, 2, 3]

def shub_source_clk_mux_p : List String :=
  ["clk_source_24M", "clk_source_200M", "clk_source_300M", "clk_source_PLL"]

def shub_uart_source_clk_mux_table : List Nat := [0, 1, 2, 3]

def shub_uart_source_clk_mux_p : List String :=
  ["clk_uart_32K", "clk_uart_div_clk", "clk_uart_div_clk", "clk_source_24M"]

/-- The table `hi3559av100_shub_mux_clks`; `ID` as in `hi3559av100_mux_clks_crg`. -/
def hi3559av100_shub_mux_clks (ID : String → Nat) : List hisi_mux_clock :=
  [ { id := ID "HI3559AV100_SHUB_SOURCE_CLK", name := "shub_clk",
      parent_names := shub_source_clk_mux_p, num_parents := shub_source_clk_mux_p.length,
      flags := 0, offset := 0x0, shift := 0, width := 2, mux_flags := 0,
      table := some shub_source_clk_mux_table },
    { id := ID "HI3559AV100_SHUB_UART_SOURCE_CLK", name := "shub_uart_source_clk",
      parent_names := shub_uart_source_clk_mux_p,
      num_parents := shub_uart_source_clk_mux_p.length,
      flags := 0, offset := 0x1c, shift := 28, width := 2, mux_flags := 0,
      table := some shub_uart_source_clk_mux_table } ]

/-- Modelled from the spec: the multiplexer write of the common clock
framework, which is not among these source files. "Writing is table-driven:
the stored bit pattern for parent index `k` is `table[k]`, not `k` itself";
the pattern is stored, by read-modify-write, in the field of `width` bits at
`shift` of the register at `base + offset`, the field that
`hisi_clk_register_mux` hands to the constructor with the mask
`BIT(width) - 1`. The result is `none` when the descriptor has no table or
`k` is not an index of it. -/
def mux_set_parent (base : Nat) (c : hisi_mux_clock) (k : Nat) (m : Mem) : Option Mem :=
  match c.table with
  | none => none
  | some table =>
    match table[k]? with
    | none => none
    | some val =>
      let mask := (BIT c.width - 1) % 2 ^ 32
      let reg := readl m (base + c.offset)
      let reg := reg &&& not32 (mask <<< c.shift)
      let reg := reg ||| (val <<< c.shift) % 2 ^ 32
      some (writel reg (base + c.offset) m)

/-- Modelled from the spec: the inverse lookup of the multiplexer read, over
the first `num_parents` entries of the table from index `i`, with `n` entries
left: the first index whose entry equals `val`, or `none` when the value is
absent from the table. -/
def mux_val_to_index_loop (table : List Nat) (val : Nat) : Nat → Nat → Option Nat
  | 0, _ => none
  | n + 1, i =>
    if table[i]? = some val then some i
    else mux_val_to_index_loop table val n (i + 1)

/-- Modelled from the spec: the multiplexer read of the common clock
framework, which is not among these source files. "Reading performs the
inverse lookup; if the current register value is absent from the table the
read must fail rather than guess." The value looked up is the field of
`width` bits at `shift` of the register at `base + offset`. -/
def mux_get_parent (base : Nat) (c : hisi_mux_clock) (m : Mem) : Option Nat :=
  match c.table with
  | none => none
  | some table =>
    let mask := (BIT c.width - 1) % 2 ^ 32
    let val := (readl m (base + c.offset) >>> c.shift) &&& mask
    mux_val_to_index_loop table val c.num_parents 0

/-! ## Example inputs -/

/-- A registry of two slots, both deferred, with no table attached. -/
def deferred2 : hisi_clock_data :=
  { clk_data := { num := 2, hws := [ERR_PTR (-EPROBE_DEFER), ERR_PTR (-EPROBE_DEFER)] },
    base := 0x1000, clks := none }

/-- Two fixed-rate descriptors with the distinct identifiers 0 and 1. -/
def fixed_rate2 : List hisi_fixed_rate_clock :=
  [ { id := 0, name := "osc", parent_name := none, flags := 0, fixed_rate := 24000000 },
    { id := 1, name := "ref", parent_name := none, flags := 0, fixed_rate := 50000000 } ]

/-- Two fixed-factor descriptors with the distinct identifiers 0 and 1. -/
def fixed_factor2 : List hisi_fixed_factor_clock :=
  [ { id := 0, name := "half", parent_name := some "osc", mult := 1, div := 2, flags := 0 },
    { id := 1, name := "quarter", parent_name := some "osc", mult := 1, div := 4, flags := 0 } ]

/-- An environment in which every call succeeds except the leaf constructor
for the descriptor at index 1, which returns `ERR_PTR(-ENOMEM)`; the handle
constructed for index 0 is `1000`. -/
def env_fail_at_1 : Env :=
  { of_iomap := 0x1000, kmalloc := true, kzalloc := true, of_clk_add_hw_provider := 0,
    clk_hw_register_fixed_rate := fun i => if i = 0 then 1000 else ERR_PTR (-ENOMEM),
    clk_hw_register_fixed_factor := fun i => if i = 0 then 1000 else ERR_PTR (-ENOMEM) }

/-- The descriptor table holding the two fixed-rate descriptors of
`fixed_rate2` and nothing else. -/
def clocks_fixed_rate2 : hisi_clocks :=
  { nr := 0, fixed_rate_clks := fixed_rate2, fixed_rate_clks_num := 2,
    fixed_factor_clks := [], fixed_factor_clks_num := 0 }

/-- An environment in which every call succeeds: the constructors return the
handles `1000 + i` (fixed rate), `2000 + i` (fixed factor), `3000 + i` (mux),
`4000 + i` (phase), `5000 + i` (divider), `6000 + i` (gate), `7000 + i`
(gate with separate registers) and `8000 + i` (hi6220 divider) for the
descriptor at index `i` of the batch. -/
def env_ok : Env :=
  { of_iomap := 0x1000, kmalloc := true, kzalloc := true, of_clk_add_hw_provider := 0,
    clk_hw_register_fixed_rate := fun i => 1000 + i,
    clk_hw_register_fixed_factor := fun i => 2000 + i,
    devm_clk_hw_register_mux := fun i => 3000 + i,
    devm_clk_hw_register_hisi_phase := fun i => 4000 + i,
    devm_clk_hw_register_divider_table := fun i => 5000 + i,
    devm_clk_hw_register_gate := fun i => 6000 + i,
    devm_clk_hw_register_hisi_gate_sep := fun i => 7000 + i,
    devm_clk_hw_register_hi6220_divider := fun i => 8000 + i }

/-- A descriptor table with the two fixed-rate descriptors of `fixed_rate2`
(ids 0 and 1) and one fixed-factor descriptor (id 2). -/
def clocks_leaf3 : hisi_clocks :=
  { nr := 0, fixed_rate_clks := fixed_rate2, fixed_rate_clks_num := 2,
    fixed_factor_clks :=
      [{ id := 2, name := "half", parent_name := some "osc", mult := 1, div := 2, flags := 0 }],
    fixed_factor_clks_num := 1 }

/-- A descriptor table with the two fixed-rate descriptors of `fixed_rate2`
(ids 0 and 1), one fixed-factor descriptor (id 2), one multiplexer (id 3) with
an alias and one gate (id 4). -/
def clocks_mixed : hisi_clocks :=
  { nr := 0, fixed_rate_clks := fixed_rate2, fixed_rate_clks_num := 2,
    fixed_factor_clks :=
      [{ id := 2, name := "half", parent_name := some "osc", mult := 1, div := 2, flags := 0 }],
    fixed_factor_clks_num := 1,
    mux_clks :=
      [{ id := 3, name := "sel", parent_names := ["osc", "ref"], num_parents := 2, flags := 0,
         offset := 0x10, shift := 0, width := 1, mux_flags := 0, table := some [0, 1],
         alias_name := some "sel_alias" }],
    mux_clks_num := 1,
    gate_clks :=
      [{ id := 4, name := "gate", parent_name := some "sel", flags := 0, offset := 0x14,
         bit_idx := 0, gate_flags := 0 }],
    gate_clks_num := 1 }

/-- A registry for `clocks_mixed` in which slot 0 holds the fixed-rate handle
1000, slot 1 is still deferred, slot 2 holds the fixed-factor handle 2000,
slot 3 the mux handle 3000 and slot 4 is deferred. -/
def registry4 : hisi_clock_data :=
  { clk_data := { num := 5, hws := [1000, ERR_PTR (-EPROBE_DEFER), 2000, 3000,
      ERR_PTR (-EPROBE_DEFER)] },
    base := 0x1000, clks := some clocks_mixed }

/-! ## Predicates used in the statements -/

/-- Two states of a registry that agree on everything but the contents of
the slots: same base, same table, same `num`, same number of slots. -/
def same_shape (d d2 : hisi_clock_data) : Prop :=
  d2.base = d.base ∧ d2.clks = d.clks ∧ d2.clk_data.num = d.clk_data.num ∧
    d2.clk_data.hws.length = d.clk_data.hws.length

/-- The log `log2` is the log `log` followed by events that all satisfy `P`. -/
def log_adds (P : Event → Prop) (log log2 : List Event) : Prop :=
  ∃ l, log2 = log ++ l ∧ ∀ e ∈ l, P e

/-- A slot holds a handle that is present: neither `NULL` nor an error
pointer. -/
def slot_present (clk : Int) : Bool := decide (clk ≠ 0) && !IS_ERR clk

/-- The unregistrations of the leaf handles found in a registry, for the table
`clks`: for each fixed-rate descriptor in table order whose slot is present,
`clk_hw_unregister_fixed_rate` on the content of the slot, then for each
fixed-factor descriptor whose slot is present, `clk_hw_unregister_fixed_factor`
on the content of the slot. -/
def leaf_unregister_events (data : hisi_clock_data) (clks : hisi_clocks) : List Event :=
  ((List.range clks.fixed_rate_clks_num).filter
      (fun j => slot_present (data.get_hw (clks.fixed_rate_clks.getD j default).id))).map
    (fun j => Event.clk_hw_unregister_fixed_rate
      (data.get_hw (clks.fixed_rate_clks.getD j default).id))
  ++ ((List.range clks.fixed_factor_clks_num).filter
      (fun j => slot_present (data.get_hw (clks.fixed_factor_clks.getD j default).id))).map
    (fun j => Event.clk_hw_unregister_fixed_factor
      (data.get_hw (clks.fixed_factor_clks.getD j default).id))

/-- The events of one successful iteration of a loop made by
`hisi_clk_register_fn`, for the descriptor at index `j`: the constructor call
and, when the descriptor has an alias, the call of `clk_hw_register_clkdev` on
the new handle. -/
def register_fn_events {α : Type} [Inhabited α] (ctor : Nat → Int)
    (call : Nat → α → Event) (alias_of : α → Option String) (clks : List α) (base : Nat)
    (j : Nat) : List Event :=
  call base (clks.getD j default) ::
    (match alias_of (clks.getD j default) with
     | some a => [Event.clk_hw_register_clkdev (ctor j) a]
     | none => [])

/-- The contract of one generic registration routine `run`, whose constructor
returns `ctor i` for the descriptor at index `i`: for a batch of `num`
descriptors with pairwise distinct ids that index slots of the registry,
(1) if the constructor fails first at index `k`, the routine returns the error
of that constructor, its log is the log on entry followed by the events of
the iterations 0..k-1 and the failing constructor call, with nothing else
(no later descriptor, no unregistration), and the slots of the descriptors
before `k` hold their handles; (2) if no constructor fails it returns 0, the
log has the events of all iterations and every descriptor's slot holds its
handle. -/
def register_routine_spec {α : Type} [Inhabited α]
    (run : List α → Nat → hisi_clock_data → List Event → RegResult)
    (ctor : Nat → Int) (call : Nat → α → Event) (id : α → Nat)
    (alias_of : α → Option String) : Prop :=
  ∀ (clks : List α) (num : Nat) (data : hisi_clock_data) (log : List Event),
    num ≤ clks.length → num ≤ INT_MAX →
    (∀ a, a < num → ∀ b, b < num →
      id (clks.getD a default) = id (clks.getD b default) → a = b) →
    (∀ a, a < num → id (clks.getD a default) < data.clk_data.hws.length) →
    (∀ k, k < num → (∀ j, j < k → IS_ERR (ctor j) = false) → IS_ERR (ctor k) = true →
      (run clks num data log).ret = PTR_ERR (ctor k) ∧
      (run clks num data log).log =
        log ++ (List.range k).flatMap (register_fn_events ctor call alias_of clks data.base)
          ++ [call data.base (clks.getD k default)] ∧
      ∀ i, i < k → (run clks num data log).data.get_hw (id (clks.getD i default)) = ctor i) ∧
    ((∀ j, j < num → IS_ERR (ctor j) = false) →
      (run clks num data log).ret = 0 ∧
      (run clks num data log).log =
        log ++ (List.range num).flatMap
          (register_fn_events ctor call alias_of clks data.base) ∧
      ∀ i, i < num → (run clks num data log).data.get_hw (id (clks.getD i default)) = ctor i)

/-- The record of the call `devm_clk_hw_register_hisi_phase(dev, p_clk, base, ...)`. -/
def call_register_phase (base : Nat) (p_clk : hisi_phase_clock) : Event :=
  Event.devm_clk_hw_register_hisi_phase p_clk.name base

/-- An environment like `env_ok` in which the multiplexer constructor fails
with `-ENOMEM` for the descriptor at index 1. -/
def env_mux_fail_at_1 : Env :=
  { env_ok with
    devm_clk_hw_register_mux := fun i => if i = 0 then 3000 else ERR_PTR (-ENOMEM) }

/-- Two multiplexer descriptors with the ids 3 and 4, the first with an alias. -/
def mux2 : List hisi_mux_clock :=
  [ { id := 3, name := "sel", parent_names := ["osc", "ref"], num_parents := 2, flags := 0,
      offset := 0x10, shift := 0, width := 1, mux_flags := 0, table := some [0, 1],
      alias_name := some "sel_alias" },
    { id := 4, name := "sel2", parent_names := ["osc", "ref"], num_parents := 2, flags := 0,
      offset := 0x10, shift := 1, width := 1, mux_flags := 0, table := some [0, 1] } ]

/-- A registry of five deferred slots at base 0x1000, with no table. -/
def deferred5 : hisi_clock_data :=
  { clk_data := { num := 5, hws := List.replicate 5 (ERR_PTR (-EPROBE_DEFER)) },
    base := 0x1000, clks := none }

/-- The kinds of non-leaf batches that `hisi_clk_register` knows. -/
inductive clk_kind where
  | mux
  | phase
  | divider
  | gate
  | gate_sep
  | customized
deriving DecidableEq, Repr

/-- The fixed order of the specification: "multiplexers, phase nodes, dividers,
gates, separate-edge gates, and finally any custom node type". -/
def register_order : List clk_kind :=
  [clk_kind.mux, clk_kind.phase, clk_kind.divider, clk_kind.gate, clk_kind.gate_sep,
    clk_kind.customized]

/-- A kind takes part in the registration when its count is non-zero; the
custom kind also needs its registration callback. -/
def batch_enabled (clks : hisi_clocks) : clk_kind → Bool
  | clk_kind.mux => decide (clks.mux_clks_num ≠ 0)
  | clk_kind.phase => decide (clks.phase_clks_num ≠ 0)
  | clk_kind.divider => decide (clks.divider_clks_num ≠ 0)
  | clk_kind.gate => decide (clks.gate_clks_num ≠ 0)
  | clk_kind.gate_sep => decide (clks.gate_sep_clks_num ≠ 0)
  | clk_kind.customized =>
    clks.clk_register_customized && decide (clks.customized_clks_num ≠ 0)

/-- The batch registration of one kind: the routine of that kind on the array
and count of the table. -/
def run_batch (env : Env) (clks : hisi_clocks) :
    clk_kind → hisi_clock_data → List Event → RegResult
  | clk_kind.mux => hisi_clk_register_mux env clks.mux_clks clks.mux_clks_num
  | clk_kind.phase => hisi_clk_register_phase env clks.phase_clks clks.phase_clks_num
  | clk_kind.divider => hisi_clk_register_divider env clks.divider_clks clks.divider_clks_num
  | clk_kind.gate => hisi_clk_register_gate env clks.gate_clks clks.gate_clks_num
  | clk_kind.gate_sep =>
    hisi_clk_register_gate_sep env clks.gate_sep_clks clks.gate_sep_clks_num
  | clk_kind.customized => call_clk_register_customized env clks.customized_clks_num

/-- The registration of a sequence of batches in the words of the
specification: the batches are registered in the order of the list, and the
first batch that returns an error stops the sequence, its error being
returned; when none fails the result is 0. -/
def run_batches (env : Env) (clks : hisi_clocks) :
    List clk_kind → hisi_clock_data → List Event → RegResult
  | [], data, log => { ret := 0, data := data, log := log }
  | k :: ks, data, log =>
    let r := run_batch env clks k data log
    if r.ret ≠ 0 then r else run_batches env clks ks r.data r.log

/-- The event is the call of a leaf constructor, `clk_hw_register_fixed_rate`
or `clk_hw_register_fixed_factor`. -/
def is_leaf_register : Event → Bool
  | Event.clk_hw_register_fixed_rate _ _ _ _ => true
  | Event.clk_hw_register_fixed_factor _ _ _ _ _ => true
  | _ => false

/-- The event is an unregistration of a handle. -/
def is_unregister : Event → Bool
  | Event.clk_hw_unregister_fixed_rate _ => true
  | Event.clk_hw_unregister_fixed_factor _ => true
  | _ => false

/-- The handle `hw` is unregistered somewhere in the log. -/
def is_unregistered (log : List Event) (hw : Int) : Prop :=
  Event.clk_hw_unregister_fixed_rate hw ∈ log ∨ Event.clk_hw_unregister_fixed_factor hw ∈ log

instance (log : List Event) (hw : Int) : Decidable (is_unregistered log hw) := by
  unfold is_unregistered
  infer_instance

/-- An environment like `env_ok` for the table `clocks_mixed` in which the gate
constructor fails with `-ENOMEM`. -/
def env_gate_fail : Env :=
  { env_ok with
    of_device_get_match_data := some clocks_mixed
    devm_clk_hw_register_gate := fun _ => ERR_PTR (-ENOMEM) }

/-- An environment like `env_ok` for the table `clocks_mixed`. -/
def env_mixed_ok : Env :=
  { env_ok with of_device_get_match_data := some clocks_mixed }

/-- An environment like `env_mixed_ok` in which the calls of reset.c succeed
too: the object allocated for `struct hisi_crg_dev` comes with both members
`NULL` and the register space of the reset controller is mapped at 0x9000. -/
def env_crg_ok : Env :=
  { env_mixed_ok with
    devm_kmalloc_crg := some { clk_data := none, rstc := none }
    devm_kmalloc_rstc := true
    devm_platform_ioremap_resource := 0x9000 }

/-- The events a non-leaf batch can add: constructor calls of the device-managed
kinds, alias registrations and the custom registration callback. -/
def is_nonleaf_register : Event → Prop
  | Event.devm_clk_hw_register_mux _ _ _ _ => True
  | Event.devm_clk_hw_register_hisi_phase _ _ => True
  | Event.devm_clk_hw_register_divider_table _ _ _ _ => True
  | Event.devm_clk_hw_register_gate _ _ _ => True
  | Event.devm_clk_hw_register_hisi_gate_sep _ _ _ => True
  | Event.devm_clk_hw_register_hi6220_divider _ _ _ _ _ => True
  | Event.clk_hw_register_clkdev _ _ => True
  | Event.clk_register_customized _ => True
  | _ => False

/-- The state in which the body of `hisi_clk_probe` is left by the first of
its two steps that can fail: the prologue when it returns an error, otherwise
`hisi_clk_register` run after it. -/
def probe_failing_step (env : Env) (clks : hisi_clocks) (data : hisi_clock_data)
    (log : List Event) : RegResult :=
  if (call_prologue env clks data log).ret ≠ 0 then call_prologue env clks data log
  else hisi_clk_register env clks (call_prologue env clks data log).data
    (call_prologue env clks data log).log

/-- A device for the table `clocks_mixed` with no registry attached to its
node and no driver data. -/
def pdev_fresh : platform_device :=
  { of_node := { data := none }, drvdata := drvdata_ptr.null }

/-- A device whose node already holds the registry `registry4`. -/
def pdev_attached : platform_device :=
  { of_node := { data := some registry4 }, drvdata := drvdata_ptr.null }

/-! ## clk-hi3559a.c: the fixed-rate table of the CRG and the SHUB prologue -/

/-- The table `hi3559av100_fixed_rate_clks_crg`. The identifiers
`HI3559AV100_FIXED_...` come from a binding header: `ID` maps the name of an
identifier to its value. -/
def hi3559av100_fixed_rate_clks_crg (ID : String → Nat) : List hisi_fixed_rate_clock :=
  [ { id := ID "HI3559AV100_FIXED_1188M", name := "1188m", parent_name := none, flags := 0,
      fixed_rate := 1188000000 },
    { id := ID "HI3559AV100_FIXED_1000M", name := "1000m", parent_name := none, flags := 0,
      fixed_rate := 1000000000 },
    { id := ID "HI3559AV100_FIXED_842M", name := "842m", parent_name := none, flags := 0,
      fixed_rate := 842000000 },
    { id := ID "HI3559AV100_FIXED_792M", name := "792m", parent_name := none, flags := 0,
      fixed_rate := 792000000 },
    { id := ID "HI3559AV100_FIXED_750M", name := "750m", parent_name := none, flags := 0,
      fixed_rate := 750000000 },
    { id := ID "HI3559AV100_FIXED_710M", name := "710m", parent_name := none, flags := 0,
      fixed_rate := 710000000 },
    { id := ID "HI3559AV100_FIXED_680M", name := "680m", parent_name := none, flags := 0,
      fixed_rate := 680000000 },
    { id := ID "HI3559AV100_FIXED_667M", name := "667m", parent_name := none, flags := 0,
      fixed_rate := 667000000 },
    { id := ID "HI3559AV100_FIXED_631M", name := "631m", parent_name := none, flags := 0,
      fixed_rate := 631000000 },
    { id := ID "HI3559AV100_FIXED_600M", name := "600m", parent_name := none, flags := 0,
      fixed_rate := 600000000 },
    { id := ID "HI3559AV100_FIXED_568M", name := "568m", parent_name := none, flags := 0,
      fixed_rate := 568000000 },
    { id := ID "HI3559AV100_FIXED_500M", name := "500m", parent_name := none, flags := 0,
      fixed_rate := 500000000 },
    { id := ID "HI3559AV100_FIXED_475M", name := "475m", parent_name := none, flags := 0,
      fixed_rate := 475000000 },
    { id := ID "HI3559AV100_FIXED_428M", name := "428m", parent_name := none, flags := 0,
      fixed_rate := 428000000 },
    { id := ID "HI3559AV100_FIXED_400M", name := "400m", parent_name := none, flags := 0,
      fixed_rate := 400000000 },
    { id := ID "HI3559AV100_FIXED_396M", name := "396m", parent_name := none, flags := 0,
      fixed_rate := 396000000 },
    { id := ID "HI3559AV100_FIXED_300M", name := "300m", parent_name := none, flags := 0,
      fixed_rate := 300000000 },
    { id := ID "HI3559AV100_FIXED_250M", name := "250m", parent_name := none, flags := 0,
      fixed_rate := 250000000 },
    { id := ID "HI3559AV100_FIXED_200M", name := "200m", parent_name := none, flags := 0,
      fixed_rate := 200000000 },
    { id := ID "HI3559AV100_FIXED_198M", name := "198m", parent_name := none, flags := 0,
      fixed_rate := 198000000 },
    { id := ID "HI3559AV100_FIXED_187p5M", name := "187p5m", parent_name := none, flags := 0,
      fixed_rate := 187500000 },
    { id := ID "HI3559AV100_FIXED_150M", name := "150m", parent_name := none, flags := 0,
      fixed_rate := 150000000 },
    { id := ID "HI3559AV100_FIXED_148p5M", name := "148p5m", parent_name := none, flags := 0,
      fixed_rate := 1485000000 },
    { id := ID "HI3559AV100_FIXED_125M", name := "125m", parent_name := none, flags := 0,
      fixed_rate := 125000000 },
    { id := ID "HI3559AV100_FIXED_107M", name := "107m", parent_name := none, flags := 0,
      fixed_rate := 107000000 },
    { id := ID "HI3559AV100_FIXED_100M", name := "100m", parent_name := none, flags := 0,
      fixed_rate := 100000000 },
    { id := ID "HI3559AV100_FIXED_99M", name := "99m", parent_name := none, flags := 0,
      fixed_rate := 99000000 },
    { id := ID "HI3559AV100_FIXED_75M", name := "75m", parent_name := none, flags := 0,
      fixed_rate := 75000000 },
    { id := ID "HI3559AV100_FIXED_74p25M", name := "74p25m", parent_name := none, flags := 0,
      fixed_rate := 74250000 },
    { id := ID "HI3559AV100_FIXED_72M", name := "72m", parent_name := none, flags := 0,
      fixed_rate := 72000000 },
    { id := ID "HI3559AV100_FIXED_60M", name := "60m", parent_name := none, flags := 0,
      fixed_rate := 60000000 },
    { id := ID "HI3559AV100_FIXED_54M", name := "54m", parent_name := none, flags := 0,
      fixed_rate := 54000000 },
    { id := ID "HI3559AV100_FIXED_50M", name := "50m", parent_name := none, flags := 0,
      fixed_rate := 50000000 },
    { id := ID "HI3559AV100_FIXED_49p5M", name := "49p5m", parent_name := none, flags := 0,
      fixed_rate := 49500000 },
    { id := ID "HI3559AV100_FIXED_37p125M", name := "37p125m", parent_name := none, flags := 0,
      fixed_rate := 37125000 },
    { id := ID "HI3559AV100_FIXED_36M", name := "36m", parent_name := none, flags := 0,
      fixed_rate := 36000000 },
    { id := ID "HI3559AV100_FIXED_32p4M", name := "32p4m", parent_name := none, flags := 0,
      fixed_rate := 32400000 },
    { id := ID "HI3559AV100_FIXED_27M", name := "27m", parent_name := none, flags := 0,
      fixed_rate := 27000000 },
    { id := ID "HI3559AV100_FIXED_25M", name := "25m", parent_name := none, flags := 0,
      fixed_rate := 25000000 },
    { id := ID "HI3559AV100_FIXED_24M", name := "24m", parent_name := none, flags := 0,
      fixed_rate := 24000000 },
    { id := ID "HI3559AV100_FIXED_12M", name := "12m", parent_name := none, flags := 0,
      fixed_rate := 12000000 },
    { id := ID "HI3559AV100_FIXED_3M", name := "3m", parent_name := none, flags := 0,
      fixed_rate := 3000000 },
    { id := ID "HI3559AV100_FIXED_1p6M", name := "1p6m", parent_name := none, flags := 0,
      fixed_rate := 1600000 },
    { id := ID "HI3559AV100_FIXED_400K", name := "400k", parent_name := none, flags := 0,
      fixed_rate := 400000 },
    { id := ID "HI3559AV100_FIXED_100K", name := "100k", parent_name := none, flags := 0,
      fixed_rate := 100000 } ]

/-- The value of a sequence of decimal digits, most significant first, added
to `acc * 10^length`; `none` when a character is not a digit. -/
def decimal_value : List Char → Nat → Option Nat
  | [], acc => some acc
  | c :: cs, acc =>
    if c.isDigit then decimal_value cs (10 * acc + (c.toNat - 48)) else none

/-- The frequency in Hz that the name of a fixed-rate clock denotes, in the
reading of the names: `<N>m` is N * 10^6, `<N>p<F>m` is N.F * 10^6 (the letter
`p` stands for the decimal point) and `<N>k` is N * 10^3; `none` for a name of
another form. -/
def name_frequency (name : String) : Option Nat :=
  match name.toList.reverse with
  | [] => none
  | u :: rest =>
    let body := rest.reverse
    let int_part := body.takeWhile (fun c => c != 'p')
    let frac_part := (body.dropWhile (fun c => c != 'p')).drop 1
    if int_part = [] then none
    else if body.contains 'p' then
      if u = 'm' ∧ frac_part ≠ [] then
        match decimal_value int_part 0, decimal_value frac_part 0 with
        | some n, some f => some (n * 1000000 + f * 1000000 / 10 ^ frac_part.length)
        | _, _ => none
      else none
    else
      match decimal_value int_part 0 with
      | some n =>
        if u = 'm' then some (n * 1000000) else if u = 'k' then some (n * 1000) else none
      | none => none

/-- The rows of a fixed-rate table as pairs of name and rate. -/
def fixed_rate_rows (clks : List hisi_fixed_rate_clock) : List (String × Nat) :=
  clks.map (fun c => (c.name, c.fixed_rate))

/-! ## clk-hip04.c -/

/-- The table `hip04_fixed_rate_clks`; `ID` maps the name of an identifier of
the binding header to its value. -/
def hip04_fixed_rate_clks (ID : String → Nat) : List hisi_fixed_rate_clock :=
  [ { id := ID "HIP04_OSC50M", name := "osc50m", parent_name := none, flags := 0,
      fixed_rate := 50000000 },
    { id := ID "HIP04_CLK_50M", name := "clk50m", parent_name := none, flags := 0,
      fixed_rate := 50000000 },
    { id := ID "HIP04_CLK_168M", name := "clk168m", parent_name := none, flags := 0,
      fixed_rate := 168750000 } ]

/-- The table `hip04_clks`. Its initialiser names two members,
`.fixed_rate_clks = hip04_fixed_rate_clks` and
`.fixed_factor_clks_num = ARRAY_SIZE(hip04_fixed_rate_clks)`; every other
member is zero: `nr` and `fixed_rate_clks_num` are 0 and `fixed_factor_clks`
is `NULL`, an array with no element. -/
def hip04_clks (ID : String → Nat) : hisi_clocks :=
  { nr := 0,
    fixed_rate_clks := hip04_fixed_rate_clks ID,
    fixed_rate_clks_num := 0,
    fixed_factor_clks := [],
    fixed_factor_clks_num := (hip04_fixed_rate_clks ID).length }

/-! ## clk-hi3559a.c: the SHUB dividers and the prologue -/

def shub_spi_clk_table : List (Nat × Nat) := [(0, 8), (1, 4), (2, 2)]

def shub_uart_div_clk_table : List (Nat × Nat) := [(1, 8), (2, 4)]

/-- The table `hi3559av100_shub_div_clks`; the identifiers and the flag
`CLK_DIVIDER_ALLOW_ZERO` of the clock framework are parameters. -/
def hi3559av100_shub_div_clks (ID : String → Nat) (CLK_DIVIDER_ALLOW_ZERO : Nat) :
    List hisi_divider_clock :=
  [ { id := ID "HI3559AV100_SHUB_SPI_SOURCE_CLK", name := "clk_spi_clk",
      parent_name := some "shub_clk", flags := 0, offset := 0x20, shift := 24, width := 2,
      div_flags := CLK_DIVIDER_ALLOW_ZERO, table := some shub_spi_clk_table },
    { id := ID "HI3559AV100_SHUB_UART_DIV_CLK", name := "clk_uart_div_clk",
      parent_name := some "shub_clk", flags := 0, offset := 0x1c, shift := 28, width := 2,
      div_flags := CLK_DIVIDER_ALLOW_ZERO, table := some shub_uart_div_clk_table } ]

/-- `hi3559av100_shub_default_clk_set`: the register space after the call and
the value returned. `crg_base` is the address returned by `devm_ioremap`
(`0` is `NULL`, which the function does not check: the accesses through it
are undefined and the result is `none`). `val` is an `unsigned int`. -/
def hi3559av100_shub_default_clk_set (crg_base : Nat) (m : Mem) : Option (Mem × Int) :=
  if crg_base = 0 then none
  else
    let val := readl m (crg_base + 0x20)
    let val := (val ||| (0x2 <<< 24)) % 2 ^ 32
    let m := writel val (crg_base + 0x20) m
    let val := readl m (crg_base + 0x1C)
    let val := (val ||| (0x1 <<< 28)) % 2 ^ 32
    let m := writel val (crg_base + 0x1C) m
    some (m, 0)

/-- The divisor that a divider table gives for the register value `val`
(`none` when the value is not in the table). -/
def div_table_lookup (table : List (Nat × Nat)) (val : Nat) : Option Nat :=
  (table.find? (fun e => e.1 == val)).map (fun e => e.2)

/-- The event is a call of `clk_hw_register_fixed_rate`. -/
def is_fixed_rate_register : Event → Bool
  | Event.clk_hw_register_fixed_rate _ _ _ _ => true
  | _ => false

/-- Register contents before the SHUB prologue, for the mapping at 0x5000: the
SPI divider field (bits 25:24 of 0x20) holds 1, the table value of 192M/4, and
the UART divider field (bits 29:28 of 0x1C) holds 2, the table value of 192M/4. -/
def shub_regs_div4 : Mem := two_regs (0x5000 + 0x20) 0x01000000 (0x5000 + 0x1C) 0x20000000

/-! ## Lemmas on bit fields -/

theorem and_offset_mask (x : Nat) : x &&& 0xffff00 = (x / 256 % 65536) * 256 := by
  have h1 : (0xffff00 : Nat) = (2 ^ 16 - 1) <<< 8 := by decide
  have h2 : (x / 256 % 65536) * 256 = ((x >>> 8) % 2 ^ 16) <<< 8 := by
    rw [Nat.shiftLeft_eq, Nat.shiftRight_eq_div_pow]; norm_num
  rw [h1, h2]
  apply Nat.eq_of_testBit_eq
  intro i
  simp only [Nat.testBit_and, Nat.testBit_shiftLeft, Nat.testBit_two_pow_sub_one,
    Nat.testBit_mod_two_pow, Nat.testBit_shiftRight]
  by_cases h : 8 ≤ i
  · have : 8 + (i - 8) = i := by omega
    simp only [this, ge_iff_le, h, decide_True, Bool.true_and]
    exact Bool.and_comm _ _
  · simp [h]

theorem and_bit_mask (x : Nat) : x &&& 0x1f = x % 32 := by
  have h1 : (0x1f : Nat) = 2 ^ 5 - 1 := by decide
  rw [h1, Nat.and_pow_two_sub_one_eq_mod]

theorem or_offset_bit (a b : Nat) (hb : b < 256) : a * 256 ||| b = a * 256 + b := by
  have h := @Nat.mul_add_lt_is_or 8 b (by simpa using hb) a
  have e : 2 ^ 8 * a = a * 256 := by omega
  rw [e] at h
  exact h.symm

/-- Closed form of the identifier built by `hisi_reset_of_xlate`. -/
theorem hisi_reset_of_xlate_eq (a0 a1 : Nat) :
    hisi_reset_of_xlate a0 a1 = ((a0 % 65536 * 256 + a1 % 32 : Nat) : Int) := by
  unfold hisi_reset_of_xlate s32
  simp only [HISI_RESET_OFFSET_SHIFT, HISI_RESET_OFFSET_MASK, HISI_RESET_BIT_MASK]
  rw [and_offset_mask, and_bit_mask, Nat.shiftLeft_eq]
  have e1 : (a0 % 2 ^ 32 * 2 ^ 8 % 2 ^ 32 / 256 % 65536) = a0 % 65536 := by omega
  have e2 : a1 % 2 ^ 32 % 32 % 2 ^ 8 = a1 % 32 := by omega
  rw [e1, e2, or_offset_bit _ _ (by omega)]
  have e3 : (a0 % 65536 * 256 + a1 % 32) % 2 ^ 32 = a0 % 65536 * 256 + a1 % 32 := by omega
  rw [e3, if_pos (by omega)]

theorem hisi_reset_id_offset_eq (id : Nat) : hisi_reset_id_offset id = id / 256 % 65536 := by
  unfold hisi_reset_id_offset
  simp only [HISI_RESET_OFFSET_SHIFT, HISI_RESET_OFFSET_MASK]
  rw [and_offset_mask, Nat.shiftRight_eq_div_pow]
  omega

theorem hisi_reset_id_bit_eq (id : Nat) : hisi_reset_id_bit id = id % 32 := by
  unfold hisi_reset_id_bit
  simp only [HISI_RESET_BIT_MASK]
  rw [and_bit_mask]
  omega

theorem hisi_reset_id_bit_lt (id : Nat) : hisi_reset_id_bit id < 32 := by
  rw [hisi_reset_id_bit_eq]; omega

theorem BIT_eq_of_lt (n : Nat) (h : n < 32) : BIT n = 2 ^ n := by
  unfold BIT BITS_PER_LONG
  rw [Nat.shiftLeft_eq, Nat.one_mul]
  exact Nat.mod_eq_of_lt (Nat.pow_lt_pow_right (by decide) (by omega))

theorem two_pow_lt_of_lt_32 (n : Nat) (h : n < 32) : 2 ^ n < 2 ^ 32 :=
  Nat.pow_lt_pow_right (by decide) h

theorem testBit_not32 (x i : Nat) :
    (not32 x).testBit i = (decide (i < 32) && !(x % 2 ^ 32).testBit i) := by
  unfold not32
  have h : 2 ^ 32 - 1 - x % 2 ^ 32 = 2 ^ 32 - (x % 2 ^ 32 + 1) := by omega
  rw [h, Nat.testBit_two_pow_sub_succ (Nat.mod_lt _ (by decide))]

theorem testBit_not_ulong (x i : Nat) :
    (not_ulong x).testBit i = (decide (i < 64) && !(x % 2 ^ 64).testBit i) := by
  unfold not_ulong BITS_PER_LONG
  have h : 2 ^ 64 - 1 - x % 2 ^ 64 = 2 ^ 64 - (x % 2 ^ 64 + 1) := by omega
  rw [h, Nat.testBit_two_pow_sub_succ (Nat.mod_lt _ (by decide))]

theorem readl_writel_same (v a : Nat) (m : Mem) : readl (writel v a m) a = v % 2 ^ 32 := by
  simp [readl, writel]

theorem writel_other (v a b : Nat) (m : Mem) (h : b ≠ a) : writel v a m b = m b := by
  simp [writel, h]

theorem readl_lt (m : Mem) (a : Nat) : readl m a < 2 ^ 32 :=
  Nat.mod_lt _ (by decide)

/-- Value stored by `hisi_reset_deassert`: clearing with the complement of an
`unsigned long` and converting to `u32` is clearing with the 32-bit complement. -/
theorem and_not_ulong_bit (reg n : Nat) (hreg : reg < 2 ^ 32) (hn : n < 32) :
    (reg &&& not_ulong (BIT n)) % 2 ^ 32 = reg &&& not32 (1 <<< n) := by
  rw [BIT_eq_of_lt n hn, Nat.shiftLeft_eq, Nat.one_mul]
  apply Nat.eq_of_testBit_eq
  intro i
  simp only [Nat.testBit_mod_two_pow, Nat.testBit_and, testBit_not32, testBit_not_ulong]
  by_cases hi : i < 32
  · have hi64 : i < 64 := by omega
    simp [hi, hi64]
  · have hr : reg.testBit i = false :=
      Nat.testBit_lt_two_pow (Nat.lt_of_lt_of_le hreg (Nat.pow_le_pow_right (by decide) (by omega)))
    simp [hi, hr]

theorem testBit_field_mask (w s i : Nat) :
    (((1 <<< w) - 1) <<< s).testBit i = (decide (s ≤ i) && decide (i - s < w)) := by
  rw [Nat.shiftLeft_eq 1 w, Nat.one_mul, Nat.testBit_shiftLeft, Nat.testBit_two_pow_sub_one]

theorem testBit_clear_field (v w s i : Nat) :
    (v &&& not32 (((1 <<< w) - 1) <<< s)).testBit i
      = (v.testBit i && (decide (i < 32) && !(decide (s ≤ i) && decide (i - s < w)))) := by
  rw [Nat.testBit_and, testBit_not32, Nat.testBit_mod_two_pow, testBit_field_mask]
  by_cases h : i < 32 <;> simp [h]

theorem testBit_put_field (x s i : Nat) :
    ((x <<< s) % 2 ^ 32).testBit i
      = (decide (i < 32) && (decide (s ≤ i) && x.testBit (i - s))) := by
  rw [Nat.testBit_mod_two_pow, Nat.testBit_shiftLeft]

theorem testBit_eq_false_of_lt_two_pow (x w k : Nat) (hx : x < 2 ^ w) (hk : w ≤ k) :
    x.testBit k = false :=
  Nat.testBit_lt_two_pow (Nat.lt_of_lt_of_le hx (Nat.pow_le_pow_right (by decide) hk))

theorem extract_field (val x s w : Nat) (hw : w < 32) (hx : x < 2 ^ w)
    (h : ∀ j, j < w → val.testBit (s + j) = x.testBit j) :
    (val >>> s) &&& ((1 <<< w) - 1) % 2 ^ 32 = x := by
  have hlt : 2 ^ w < 2 ^ 32 := Nat.pow_lt_pow_right (by decide) hw
  have hpos : 0 < 2 ^ w := Nat.two_pow_pos w
  have e : ((1 <<< w) - 1) % 2 ^ 32 = 2 ^ w - 1 := by
    rw [Nat.shiftLeft_eq, Nat.one_mul]
    exact Nat.mod_eq_of_lt (by omega)
  rw [e, Nat.and_pow_two_sub_one_eq_mod]
  apply Nat.eq_of_testBit_eq
  intro i
  rw [Nat.testBit_mod_two_pow, Nat.testBit_shiftRight]
  by_cases hi : i < w
  · simp [hi, h i hi]
  · simp [hi, testBit_eq_false_of_lt_two_pow x w i hx (by omega)]

/-- Bits of a register in which three ordered, disjoint fields were cleared and set. -/
theorem set3_extract (v x1 x2 x3 s1 w1 s2 w2 s3 w3 : Nat)
    (h12 : s1 + w1 ≤ s2) (h23 : s2 + w2 ≤ s3) (h3 : s3 + w3 ≤ 32)
    (hw1 : w1 < 32) (hw2 : w2 < 32) (hw3 : w3 < 32)
    (hx1 : x1 < 2 ^ w1) (hx2 : x2 < 2 ^ w2) (hx3 : x3 < 2 ^ w3) :
    let R := ((((((v &&& not32 (((1 <<< w1) - 1) <<< s1))
        &&& not32 (((1 <<< w2) - 1) <<< s2))
        &&& not32 (((1 <<< w3) - 1) <<< s3))
        ||| (x1 <<< s1) % 2 ^ 32) ||| (x2 <<< s2) % 2 ^ 32) ||| (x3 <<< s3) % 2 ^ 32)
    (R >>> s1) &&& ((1 <<< w1) - 1) % 2 ^ 32 = x1 ∧
    (R >>> s2) &&& ((1 <<< w2) - 1) % 2 ^ 32 = x2 ∧
    (R >>> s3) &&& ((1 <<< w3) - 1) % 2 ^ 32 = x3 := by
  intro R
  have bits : ∀ i, R.testBit i =
      ((((v.testBit i && (decide (i < 32) && !(decide (s1 ≤ i) && decide (i - s1 < w1))))
        && (decide (i < 32) && !(decide (s2 ≤ i) && decide (i - s2 < w2))))
        && (decide (i < 32) && !(decide (s3 ≤ i) && decide (i - s3 < w3))))
        || (decide (i < 32) && (decide (s1 ≤ i) && x1.testBit (i - s1)))
        || (decide (i < 32) && (decide (s2 ≤ i) && x2.testBit (i - s2)))
        || (decide (i < 32) && (decide (s3 ≤ i) && x3.testBit (i - s3)))) := by
    intro i
    simp only [R, Nat.testBit_or, testBit_clear_field, testBit_put_field]
  refine ⟨extract_field _ _ _ _ hw1 hx1 ?_, extract_field _ _ _ _ hw2 hx2 ?_,
    extract_field _ _ _ _ hw3 hx3 ?_⟩
  · intro j hj
    rw [bits]
    have a1 : s1 + j < 32 := by omega
    have a2 : s1 ≤ s1 + j := by omega
    have a3 : s1 + j - s1 = j := by omega
    have a4 : ¬ s2 ≤ s1 + j := by omega
    have a5 : ¬ s3 ≤ s1 + j := by omega
    simp [a1, a2, a3, a4, a5, hj]
  · intro j hj
    rw [bits]
    have a1 : s2 + j < 32 := by omega
    have a2 : s2 ≤ s2 + j := by omega
    have a3 : s2 + j - s2 = j := by omega
    have a4 : x1.testBit (s2 + j - s1) = false :=
      testBit_eq_false_of_lt_two_pow x1 w1 _ hx1 (by omega)
    have a5 : ¬ s3 ≤ s2 + j := by omega
    simp [a1, a2, a3, a4, a5, hj]
  · intro j hj
    rw [bits]
    have a1 : s3 + j < 32 := by omega
    have a2 : s3 ≤ s3 + j := by omega
    have a3 : s3 + j - s3 = j := by omega
    have a4 : x1.testBit (s3 + j - s1) = false :=
      testBit_eq_false_of_lt_two_pow x1 w1 _ hx1 (by omega)
    have a6 : x2.testBit (s3 + j - s2) = false :=
      testBit_eq_false_of_lt_two_pow x2 w2 _ hx2 (by omega)
    simp [a1, a2, a3, a4, a6, hj]

theorem not32_lt (x : Nat) : not32 x < 2 ^ 32 := by
  unfold not32; omega

theorem readl_writel_other (v a b : Nat) (m : Mem) (h : b ≠ a) :
    readl (writel v a m) b = readl m b := by
  simp [readl, writel, h]

/-- Bits of a register in which two ordered, disjoint fields were cleared and set. -/
theorem set2_extract (v x1 x2 s1 w1 s2 w2 : Nat)
    (h12 : s1 + w1 ≤ s2) (h2 : s2 + w2 ≤ 32)
    (hw1 : w1 < 32) (hw2 : w2 < 32)
    (hx1 : x1 < 2 ^ w1) (hx2 : x2 < 2 ^ w2) :
    let R := ((((v &&& not32 (((1 <<< w1) - 1) <<< s1))
        &&& not32 (((1 <<< w2) - 1) <<< s2))
        ||| (x1 <<< s1) % 2 ^ 32) ||| (x2 <<< s2) % 2 ^ 32)
    (R >>> s1) &&& ((1 <<< w1) - 1) % 2 ^ 32 = x1 ∧
    (R >>> s2) &&& ((1 <<< w2) - 1) % 2 ^ 32 = x2 := by
  intro R
  have bits : ∀ i, R.testBit i =
      (((v.testBit i && (decide (i < 32) && !(decide (s1 ≤ i) && decide (i - s1 < w1))))
        && (decide (i < 32) && !(decide (s2 ≤ i) && decide (i - s2 < w2))))
        || (decide (i < 32) && (decide (s1 ≤ i) && x1.testBit (i - s1)))
        || (decide (i < 32) && (decide (s2 ≤ i) && x2.testBit (i - s2)))) := by
    intro i
    simp only [R, Nat.testBit_or, testBit_clear_field, testBit_put_field]
  refine ⟨extract_field _ _ _ _ hw1 hx1 ?_, extract_field _ _ _ _ hw2 hx2 ?_⟩
  · intro j hj
    rw [bits]
    have a1 : s1 + j < 32 := by omega
    have a2 : s1 ≤ s1 + j := by omega
    have a3 : s1 + j - s1 = j := by omega
    have a4 : ¬ s2 ≤ s1 + j := by omega
    simp [a1, a2, a3, a4, hj]
  · intro j hj
    rw [bits]
    have a1 : s2 + j < 32 := by omega
    have a2 : s2 ≤ s2 + j := by omega
    have a3 : s2 + j - s2 = j := by omega
    have a4 : x1.testBit (s2 + j - s1) = false :=
      testBit_eq_false_of_lt_two_pow x1 w1 _ hx1 (by omega)
    simp [a1, a2, a3, a4, hj]

theorem put_field_lt (x s : Nat) : (x <<< s) % 2 ^ 32 < 2 ^ 32 :=
  Nat.mod_lt _ (by decide)

/-- The five fields read back by `clk_pll_recalc_rate` after `clk_pll_set_rate`
are the values computed by `hi3559av100_calc_pll`, for every handle whose
fields are laid out in order without overlap and are wide enough. -/
theorem clk_pll_set_rate_fields (clk : hi3559av100_clk_pll) (rate pr : Nat) (m : Mem)
    (hreg : clk.ctrl_reg1 ≠ clk.ctrl_reg2)
    (h12 : clk.frac_shift + clk.frac_width ≤ clk.postdiv1_shift)
    (h23 : clk.postdiv1_shift + clk.postdiv1_width ≤ clk.postdiv2_shift)
    (h3 : clk.postdiv2_shift + clk.postdiv2_width ≤ 32)
    (h45 : clk.fbdiv_shift + clk.fbdiv_width ≤ clk.refdiv_shift)
    (h5 : clk.refdiv_shift + clk.refdiv_width ≤ 32)
    (hw1 : clk.frac_width < 32) (hw2 : clk.postdiv1_width < 32)
    (hw3 : clk.postdiv2_width < 32) (hw4 : clk.fbdiv_width < 32)
    (hw5 : clk.refdiv_width < 32)
    (hx1 : (hi3559av100_calc_pll (rate % 2 ^ BITS_PER_LONG)).frac_val < 2 ^ clk.frac_width)
    (hx2 : 2 < 2 ^ clk.postdiv1_width) (hx3 : 1 < 2 ^ clk.postdiv2_width)
    (hx4 : (hi3559av100_calc_pll (rate % 2 ^ BITS_PER_LONG)).fbdiv_val < 2 ^ clk.fbdiv_width)
    (hx5 : 1 < 2 ^ clk.refdiv_width) :
    ((readl (clk_pll_set_rate clk rate pr m).1 clk.ctrl_reg1 >>> clk.frac_shift)
        &&& ((1 <<< clk.frac_width) - 1) % 2 ^ 32
      = (hi3559av100_calc_pll (rate % 2 ^ BITS_PER_LONG)).frac_val) ∧
    ((readl (clk_pll_set_rate clk rate pr m).1 clk.ctrl_reg1 >>> clk.postdiv1_shift)
        &&& ((1 <<< clk.postdiv1_width) - 1) % 2 ^ 32 = 2) ∧
    ((readl (clk_pll_set_rate clk rate pr m).1 clk.ctrl_reg1 >>> clk.postdiv2_shift)
        &&& ((1 <<< clk.postdiv2_width) - 1) % 2 ^ 32 = 1) ∧
    ((readl (clk_pll_set_rate clk rate pr m).1 clk.ctrl_reg2 >>> clk.fbdiv_shift)
        &&& ((1 <<< clk.fbdiv_width) - 1) % 2 ^ 32
      = (hi3559av100_calc_pll (rate % 2 ^ BITS_PER_LONG)).fbdiv_val) ∧
    ((readl (clk_pll_set_rate clk rate pr m).1 clk.ctrl_reg2 >>> clk.refdiv_shift)
        &&& ((1 <<< clk.refdiv_width) - 1) % 2 ^ 32 = 1) := by
  have hne : clk.ctrl_reg2 ≠ clk.ctrl_reg1 := fun h => hreg h.symm
  simp only [clk_pll_set_rate]
  rw [readl_writel_other _ _ _ _ hreg, readl_writel_same, readl_writel_same,
    readl_writel_other _ _ _ _ hne]
  have r1 := set3_extract (readl m clk.ctrl_reg1)
    (hi3559av100_calc_pll (rate % 2 ^ BITS_PER_LONG)).frac_val 2 1
    _ _ _ _ _ _ h12 h23 h3 hw1 hw2 hw3 hx1 hx2 hx3
  have r2 := set2_extract (readl m clk.ctrl_reg2)
    (hi3559av100_calc_pll (rate % 2 ^ BITS_PER_LONG)).fbdiv_val 1
    _ _ _ _ h45 h5 hw4 hw5 hx4 hx5
  have c1 : (hi3559av100_calc_pll (rate % 2 ^ BITS_PER_LONG)).postdiv1_val = 2 := rfl
  have c2 : (hi3559av100_calc_pll (rate % 2 ^ BITS_PER_LONG)).postdiv2_val = 1 := rfl
  have c3 : (hi3559av100_calc_pll (rate % 2 ^ BITS_PER_LONG)).refdiv_val = 1 := rfl
  rw [c1, c2, c3]
  have l1 : ∀ a n b c d : Nat, (((a &&& not32 n) ||| b % 2 ^ 32) ||| c % 2 ^ 32) ||| d % 2 ^ 32
      < 2 ^ 32 := fun a n b c d =>
    Nat.or_lt_two_pow (Nat.or_lt_two_pow (Nat.or_lt_two_pow
      (Nat.and_lt_two_pow _ (not32_lt n)) (Nat.mod_lt _ (by decide))) (Nat.mod_lt _ (by decide)))
      (Nat.mod_lt _ (by decide))
  have l2 : ∀ a n b c : Nat, ((a &&& not32 n) ||| b % 2 ^ 32) ||| c % 2 ^ 32
      < 2 ^ 32 := fun a n b c =>
    Nat.or_lt_two_pow (Nat.or_lt_two_pow
      (Nat.and_lt_two_pow _ (not32_lt n)) (Nat.mod_lt _ (by decide))) (Nat.mod_lt _ (by decide))
  rw [Nat.mod_eq_of_lt (l1 _ _ _ _ _), Nat.mod_eq_of_lt (l2 _ _ _ _)]
  exact ⟨r1.1, r1.2.1, r1.2.2, r2.1, r2.2⟩

theorem calc_pll_closed_form (rate : Nat) (h : 2 * rate < 2 ^ 64) :
    (hi3559av100_calc_pll rate).fbdiv_val = (2 * rate / 1000000 / 24) % 2 ^ 32 ∧
    (hi3559av100_calc_pll rate).frac_val = (2 * rate / 1000000 % 24) * 2 ^ 24 / 24 := by
  have e1 : rate % 2 ^ 64 * ((2 * 1) % 2 ^ 32) % 2 ^ 64 = 2 * rate := by omega
  simp only [hi3559av100_calc_pll, do_div, PLL_MASK_WIDTH, Nat.shiftLeft_eq, e1]
  refine ⟨trivial, ?_⟩
  generalize 2 * rate / 1000000 = M
  have hr : M % 24 < 24 := Nat.mod_lt _ (by decide)
  generalize M % 24 = r at hr
  interval_cases r <;> rfl

theorem calc_pll_frac_lt (rate : Nat) : (hi3559av100_calc_pll rate).frac_val < 2 ^ 24 := by
  simp only [hi3559av100_calc_pll, do_div, PLL_MASK_WIDTH, Nat.shiftLeft_eq]
  have hr : ∀ M : Nat, M % 24 < 24 := fun M => Nat.mod_lt _ (by decide)
  generalize rate % 2 ^ 64 * ((2 * 1) % 2 ^ 32) % 2 ^ 64 / 1000000 = M
  have := hr M
  generalize M % 24 = r at this
  interval_cases r <;> decide

theorem calc_pll_fbdiv_lt (rate : Nat) (h : rate < 49152000000) :
    (hi3559av100_calc_pll rate).fbdiv_val < 2 ^ 12 := by
  simp only [hi3559av100_calc_pll, do_div, PLL_MASK_WIDTH]
  omega

/-- Result of `clk_pll_recalc_rate` on the register state left by
`clk_pll_set_rate`, in terms of the values computed by `hi3559av100_calc_pll`. -/
theorem clk_pll_recalc_after_set (clk : hi3559av100_clk_pll) (rate pr pr2 : Nat) (m : Mem)
    (hreg : clk.ctrl_reg1 ≠ clk.ctrl_reg2)
    (h12 : clk.frac_shift + clk.frac_width ≤ clk.postdiv1_shift)
    (h23 : clk.postdiv1_shift + clk.postdiv1_width ≤ clk.postdiv2_shift)
    (h3 : clk.postdiv2_shift + clk.postdiv2_width ≤ 32)
    (h45 : clk.fbdiv_shift + clk.fbdiv_width ≤ clk.refdiv_shift)
    (h5 : clk.refdiv_shift + clk.refdiv_width ≤ 32)
    (hw1 : clk.frac_width < 32) (hw2 : clk.postdiv1_width < 32)
    (hw3 : clk.postdiv2_width < 32) (hw4 : clk.fbdiv_width < 32)
    (hw5 : clk.refdiv_width < 32)
    (hx1 : (hi3559av100_calc_pll (rate % 2 ^ BITS_PER_LONG)).frac_val < 2 ^ clk.frac_width)
    (hx2 : 2 < 2 ^ clk.postdiv1_width) (hx3 : 1 < 2 ^ clk.postdiv2_width)
    (hx4 : (hi3559av100_calc_pll (rate % 2 ^ BITS_PER_LONG)).fbdiv_val < 2 ^ clk.fbdiv_width)
    (hx5 : 1 < 2 ^ clk.refdiv_width) :
    clk_pll_recalc_rate clk pr2 (clk_pll_set_rate clk rate pr m).1
      = some ((24000000 * (hi3559av100_calc_pll (rate % 2 ^ BITS_PER_LONG)).fbdiv_val
          + 24000000 * (hi3559av100_calc_pll (rate % 2 ^ BITS_PER_LONG)).frac_val / 2 ^ 24) / 2) := by
  obtain ⟨f1, f2, f3, f4, f5⟩ := clk_pll_set_rate_fields clk rate pr m hreg h12 h23 h3 h45 h5
    hw1 hw2 hw3 hw4 hw5 hx1 hx2 hx3 hx4 hx5
  have b1 : (hi3559av100_calc_pll (rate % 2 ^ BITS_PER_LONG)).frac_val < 2 ^ 32 :=
    Nat.lt_of_lt_of_le hx1 (Nat.pow_le_pow_right (by decide) (Nat.le_of_lt hw1))
  have b4 : (hi3559av100_calc_pll (rate % 2 ^ BITS_PER_LONG)).fbdiv_val < 2 ^ 32 :=
    Nat.lt_of_lt_of_le hx4 (Nat.pow_le_pow_right (by decide) (Nat.le_of_lt hw4))
  simp only [clk_pll_recalc_rate, f1, f2, f3, f4, f5]
  generalize (hi3559av100_calc_pll (rate % 2 ^ BITS_PER_LONG)).frac_val = fr at b1
  generalize (hi3559av100_calc_pll (rate % 2 ^ BITS_PER_LONG)).fbdiv_val = fb at b4
  have e1 : 24000000 * fb % 2 ^ 64 = 24000000 * fb := Nat.mod_eq_of_lt (by omega)
  have e2 : 24000000 * fr % 2 ^ 64 = 24000000 * fr := Nat.mod_eq_of_lt (by omega)
  have e3 : (24000000 * fb + 24000000 * fr / 2 ^ 24) % 2 ^ 64
      = 24000000 * fb + 24000000 * fr / 2 ^ 24 := Nat.mod_eq_of_lt (by omega)
  have e4 : (2 * 1) % 2 ^ 32 = 2 := by decide
  simp only [Nat.shiftLeft_eq, Nat.one_mul, Nat.zero_add, e1, e2, e3, e4, Nat.div_one]
  rw [if_neg (by decide), if_neg (by decide)]

theorem pll_field_lt (m : Mem) (reg shift width : Nat) :
    pll_field m reg shift width < 2 ^ 32 :=
  Nat.and_lt_two_pow _ (Nat.mod_lt _ (by decide))

/-- The value computed by `clk_pll_recalc_rate` in terms of the five fields. -/
theorem clk_pll_recalc_rate_eq (clk : hi3559av100_clk_pll) (R : Nat) (m : Mem) :
    clk_pll_recalc_rate clk R m =
      if pll_field m clk.ctrl_reg2 clk.refdiv_shift clk.refdiv_width = 0 then none
      else if (pll_field m clk.ctrl_reg1 clk.postdiv1_shift clk.postdiv1_width
          * pll_field m clk.ctrl_reg1 clk.postdiv2_shift clk.postdiv2_width) % 2 ^ 32 = 0
        then none
      else some ((24000000 * pll_field m clk.ctrl_reg2 clk.fbdiv_shift clk.fbdiv_width
          + 24000000 * pll_field m clk.ctrl_reg1 clk.frac_shift clk.frac_width / 2 ^ 24)
          / pll_field m clk.ctrl_reg2 clk.refdiv_shift clk.refdiv_width
          / ((pll_field m clk.ctrl_reg1 clk.postdiv1_shift clk.postdiv1_width
            * pll_field m clk.ctrl_reg1 clk.postdiv2_shift clk.postdiv2_width) % 2 ^ 32)) := by
  have b1 := pll_field_lt m clk.ctrl_reg2 clk.fbdiv_shift clk.fbdiv_width
  have b2 := pll_field_lt m clk.ctrl_reg1 clk.frac_shift clk.frac_width
  simp only [clk_pll_recalc_rate]
  change (if pll_field m clk.ctrl_reg2 clk.refdiv_shift clk.refdiv_width = 0 then none
      else if (pll_field m clk.ctrl_reg1 clk.postdiv1_shift clk.postdiv1_width
          * pll_field m clk.ctrl_reg1 clk.postdiv2_shift clk.postdiv2_width) % 2 ^ 32 = 0
        then none
      else some ((0 + ((24000000 * pll_field m clk.ctrl_reg2 clk.fbdiv_shift clk.fbdiv_width)
            % 2 ^ 64
          + ((24000000 * pll_field m clk.ctrl_reg1 clk.frac_shift clk.frac_width) % 2 ^ 64)
            / (1 <<< 24)) % 2 ^ 64) % 2 ^ 64
          / pll_field m clk.ctrl_reg2 clk.refdiv_shift clk.refdiv_width
          / ((pll_field m clk.ctrl_reg1 clk.postdiv1_shift clk.postdiv1_width
            * pll_field m clk.ctrl_reg1 clk.postdiv2_shift clk.postdiv2_width) % 2 ^ 32))) = _
  generalize pll_field m clk.ctrl_reg2 clk.fbdiv_shift clk.fbdiv_width = fb at b1
  generalize pll_field m clk.ctrl_reg1 clk.frac_shift clk.frac_width = fr at b2
  have e1 : 24000000 * fb % 2 ^ 64 = 24000000 * fb := Nat.mod_eq_of_lt (by omega)
  have e2 : 24000000 * fr % 2 ^ 64 = 24000000 * fr := Nat.mod_eq_of_lt (by omega)
  have e3 : (24000000 * fb + 24000000 * fr / 2 ^ 24) % 2 ^ 64
      = 24000000 * fb + 24000000 * fr / 2 ^ 24 := Nat.mod_eq_of_lt (by omega)
  simp only [Nat.shiftLeft_eq, Nat.one_mul, Nat.zero_add, e1, e2, e3]

/-! ## Lemmas on the registry -/

theorem get_hw_set_hw_same (data : hisi_clock_data) (id : Nat) (clk : Int)
    (h : id < data.clk_data.hws.length) : (data.set_hw id clk).get_hw id = clk := by
  simp [hisi_clock_data.set_hw, hisi_clock_data.get_hw, h]

theorem get_hw_set_hw_other (data : hisi_clock_data) (id id2 : Nat) (clk : Int)
    (h : id ≠ id2) : (data.set_hw id clk).get_hw id2 = data.get_hw id2 := by
  simp [hisi_clock_data.set_hw, hisi_clock_data.get_hw, h]

theorem length_set_hw (data : hisi_clock_data) (id : Nat) (clk : Int) :
    (data.set_hw id clk).clk_data.hws.length = data.clk_data.hws.length := by
  simp [hisi_clock_data.set_hw]

/-- Slots written by a run of assignments `hws[idf j] = val j`, `j` in `xs`:
a slot whose identifier is not among the `idf j` keeps its content. -/
theorem foldl_set_hw_other (idf : Nat → Nat) (val : Nat → Int) (xs : List Nat)
    (data : hisi_clock_data) (id2 : Nat) (h : ∀ j ∈ xs, idf j ≠ id2) :
    (xs.foldl (fun d j => d.set_hw (idf j) (val j)) data).get_hw id2 = data.get_hw id2 := by
  induction xs generalizing data with
  | nil => rfl
  | cons x xs ih =>
    rw [List.foldl_cons, ih _ (fun j hj => h j (List.mem_cons_of_mem _ hj)),
      get_hw_set_hw_other _ _ _ _ (h x (List.mem_cons_self _ _))]

theorem foldl_set_hw_length (idf : Nat → Nat) (val : Nat → Int) (xs : List Nat)
    (data : hisi_clock_data) :
    (xs.foldl (fun d j => d.set_hw (idf j) (val j)) data).clk_data.hws.length
      = data.clk_data.hws.length := by
  induction xs generalizing data with
  | nil => rfl
  | cons x xs ih => rw [List.foldl_cons, ih, length_set_hw]

/-- With pairwise distinct identifiers inside the table, the slot of `idf j`
holds `val j` after the run of assignments. -/
theorem foldl_set_hw_same (idf : Nat → Nat) (val : Nat → Int) (xs : List Nat)
    (data : hisi_clock_data) (hinj : ∀ a ∈ xs, ∀ b ∈ xs, idf a = idf b → a = b)
    (hnd : xs.Nodup) (hb : ∀ a ∈ xs, idf a < data.clk_data.hws.length)
    (j : Nat) (hj : j ∈ xs) :
    (xs.foldl (fun d j => d.set_hw (idf j) (val j)) data).get_hw (idf j) = val j := by
  induction xs generalizing data with
  | nil => cases hj
  | cons x xs ih =>
    rw [List.foldl_cons]
    have hx : x ∉ xs := (List.nodup_cons.mp hnd).1
    have hnd2 : xs.Nodup := (List.nodup_cons.mp hnd).2
    rcases List.mem_cons.mp hj with rfl | hjx
    · rw [foldl_set_hw_other, get_hw_set_hw_same _ _ _ (hb j (List.mem_cons_self _ _))]
      intro a ha e
      have := hinj a (List.mem_cons_of_mem _ ha) j (List.mem_cons_self _ _) e
      exact hx (this ▸ ha)
    · apply ih _ (fun a ha b hb2 => hinj a (List.mem_cons_of_mem _ ha) b
          (List.mem_cons_of_mem _ hb2)) hnd2 _ hjx
      intro a ha
      rw [length_set_hw]
      exact hb a (List.mem_cons_of_mem _ ha)

/-- The registration loop of `hisi_clk_register_fixed_rate` up to the first
failing constructor, at index `k`. -/
theorem hisi_clk_register_fixed_rate_loop_fail (env : Env) (clks : List hisi_fixed_rate_clock)
    (n i k : Nat) (data : hisi_clock_data) (log : List Event)
    (hik : i ≤ k) (hkn : k < i + n)
    (hok : ∀ j, i ≤ j → j < k → IS_ERR (env.clk_hw_register_fixed_rate j) = false)
    (hfail : IS_ERR (env.clk_hw_register_fixed_rate k) = true) :
    hisi_clk_register_fixed_rate_loop env clks n i data log =
      { failed := some (k, env.clk_hw_register_fixed_rate k),
        data := (List.range' i (k - i)).foldl
          (fun d j => d.set_hw (clks.getD j default).id (env.clk_hw_register_fixed_rate j)) data,
        log := log ++ (List.range' i (k + 1 - i)).map (fun j =>
          Event.clk_hw_register_fixed_rate (clks.getD j default).name
            (clks.getD j default).parent_name (clks.getD j default).flags
            (clks.getD j default).fixed_rate) } := by
  induction n generalizing i data log with
  | zero => omega
  | succ n ih =>
    rw [hisi_clk_register_fixed_rate_loop]
    by_cases hi : i = k
    · subst hi
      simp only [hfail, if_true, Nat.sub_self, Nat.add_sub_cancel_left, List.range', List.foldl_nil,
        List.map_cons, List.map_nil]
    · have hlt : i < k := by omega
      have e1 : k - i = (k - (i + 1)) + 1 := by omega
      have e2 : k + 1 - i = (k + 1 - (i + 1)) + 1 := by omega
      simp only [hok i (Nat.le_refl i) hlt, Bool.false_eq_true, if_false]
      rw [ih (i + 1) _ _ (by omega) (by omega) (fun j h1 h2 => hok j (by omega) h2),
        e1, e2, List.range'_succ, List.range'_succ, List.foldl_cons, List.map_cons,
        List.append_assoc, List.singleton_append]

/-- The registration loop of `hisi_clk_register_fixed_rate` when every
constructor succeeds. -/
theorem hisi_clk_register_fixed_rate_loop_ok (env : Env) (clks : List hisi_fixed_rate_clock)
    (n i : Nat) (data : hisi_clock_data) (log : List Event)
    (hok : ∀ j, i ≤ j → j < i + n → IS_ERR (env.clk_hw_register_fixed_rate j) = false) :
    hisi_clk_register_fixed_rate_loop env clks n i data log =
      { failed := none,
        data := (List.range' i n).foldl
          (fun d j => d.set_hw (clks.getD j default).id (env.clk_hw_register_fixed_rate j)) data,
        log := log ++ (List.range' i n).map (fun j =>
          Event.clk_hw_register_fixed_rate (clks.getD j default).name
            (clks.getD j default).parent_name (clks.getD j default).flags
            (clks.getD j default).fixed_rate) } := by
  induction n generalizing i data log with
  | zero => simp [hisi_clk_register_fixed_rate_loop]
  | succ n ih =>
    rw [hisi_clk_register_fixed_rate_loop]
    simp only [hok i (Nat.le_refl i) (by omega), Bool.false_eq_true, if_false]
    rw [ih (i + 1) _ _ (fun j h1 h2 => hok j (by omega) (by omega)),
      List.range'_succ, List.foldl_cons, List.map_cons,
      List.append_assoc, List.singleton_append]

/-- The unregistration loop at the label `err`. -/
theorem hisi_clk_register_fixed_rate_err_eq (clks : List hisi_fixed_rate_clock)
    (data : hisi_clock_data) (i : Nat) (log : List Event) :
    hisi_clk_register_fixed_rate_err clks data i log =
      log ++ (List.range i).reverse.map (fun j =>
        Event.clk_hw_unregister_fixed_rate (data.get_hw (clks.getD j default).id)) := by
  induction i generalizing log with
  | zero => simp [hisi_clk_register_fixed_rate_err]
  | succ i ih =>
    rw [hisi_clk_register_fixed_rate_err, ih, List.range_succ, List.reverse_append,
      List.reverse_singleton, List.singleton_append, List.map_cons, List.append_assoc,
      List.singleton_append]

theorem hisi_clk_init_loop_length (n i : Nat) (hws : List Int) :
    (hisi_clk_init_loop n i hws).length = hws.length := by
  induction n generalizing i hws with
  | zero => rfl
  | succ n ih => rw [hisi_clk_init_loop, ih, List.length_set]

/-- Slots after the initialisation loop of `hisi_clk_init`. -/
theorem hisi_clk_init_loop_getElem? (n i : Nat) (hws : List Int) (j : Nat) :
    (hisi_clk_init_loop n i hws)[j]? =
      if i ≤ j ∧ j < i + n ∧ j < hws.length then some (ERR_PTR (-EPROBE_DEFER))
      else hws[j]? := by
  induction n generalizing i hws with
  | zero =>
    rw [hisi_clk_init_loop, if_neg (by omega)]
  | succ n ih =>
    rw [hisi_clk_init_loop, ih, List.length_set, List.getElem?_set]
    by_cases h1 : i = j
    · subst h1
      by_cases h2 : i < hws.length
      · rw [if_neg (by omega), if_pos rfl, if_pos h2, if_pos (by omega)]
      · rw [if_neg (by omega), if_pos rfl, if_neg h2, if_neg (by omega)]
        exact (List.getElem?_eq_none (by omega)).symm
    · rw [if_neg h1]
      by_cases h3 : i ≤ j ∧ j < i + (n + 1) ∧ j < hws.length
      · rw [if_pos h3, if_pos (by omega)]
      · rw [if_neg h3, if_neg (by omega)]

/-! ## Theorems: reset controller -/

/-- C1: for every offset below 2^16 and every bit below 32, the identifier
returned by `hisi_reset_of_xlate` is non-negative and the decode at the top of
`hisi_reset_assert` / `hisi_reset_deassert` gives back exactly (offset, bit). -/
theorem hisi_reset_xlate_roundtrip (offset bit : Nat) (ho : offset < 2 ^ 16) (hb : bit < 32) :
    0 ≤ hisi_reset_of_xlate offset bit ∧
    hisi_reset_id_offset (hisi_reset_of_xlate offset bit).toNat = offset ∧
    hisi_reset_id_bit (hisi_reset_of_xlate offset bit).toNat = bit := by
  rw [hisi_reset_of_xlate_eq, Int.toNat_ofNat, hisi_reset_id_offset_eq, hisi_reset_id_bit_eq]
  refine ⟨Int.ofNat_nonneg _, ?_, ?_⟩ <;> omega

/-- The round trip of reset identifiers at offset 0x1234 and bit 17. -/
theorem hisi_reset_xlate_roundtrip_witness :
    (0x1234 : Nat) < 2 ^ 16 ∧ (17 : Nat) < 32 ∧
    hisi_reset_id_offset (hisi_reset_of_xlate 0x1234 17).toNat = 0x1234 ∧
    hisi_reset_id_bit (hisi_reset_of_xlate 0x1234 17).toNat = 17 :=
  ⟨by decide, by decide,
    (hisi_reset_xlate_roundtrip 0x1234 17 (by decide) (by decide)).2⟩

/-- C2: with the register space a map from offset to 32-bit value, for every
identifier and every memory state `hisi_reset_assert` leaves the register at
the decoded offset equal to `old | (1 << bit)`, `hisi_reset_deassert` leaves it
equal to `old & ~(1 << bit)`, every other register keeps its value, and both
return 0. -/
theorem hisi_reset_assert_deassert_effect (m : Mem) (id : Nat) :
    (readl (hisi_reset_assert m id).1 (hisi_reset_id_offset id)
        = readl m (hisi_reset_id_offset id) ||| (1 <<< hisi_reset_id_bit id)
      ∧ (∀ a, a ≠ hisi_reset_id_offset id → (hisi_reset_assert m id).1 a = m a)
      ∧ (hisi_reset_assert m id).2 = 0)
    ∧ (readl (hisi_reset_deassert m id).1 (hisi_reset_id_offset id)
        = readl m (hisi_reset_id_offset id) &&& not32 (1 <<< hisi_reset_id_bit id)
      ∧ (∀ a, a ≠ hisi_reset_id_offset id → (hisi_reset_deassert m id).1 a = m a)
      ∧ (hisi_reset_deassert m id).2 = 0) := by
  have hb := hisi_reset_id_bit_lt id
  refine ⟨⟨?_, fun a ha => writel_other _ _ _ _ ha, rfl⟩,
    ⟨?_, fun a ha => writel_other _ _ _ _ ha, rfl⟩⟩
  · show readl (writel _ _ m) _ = _
    rw [readl_writel_same, BIT_eq_of_lt _ hb, Nat.shiftLeft_eq, Nat.one_mul]
    exact Nat.mod_eq_of_lt (Nat.or_lt_two_pow (readl_lt m _) (two_pow_lt_of_lt_32 _ hb))
  · show readl (writel _ _ m) _ = _
    rw [readl_writel_same]
    exact and_not_ulong_bit _ _ (readl_lt m _) hb

/-! ## Theorems: PLL rate synthesis -/

/-- C3: for every target rate `hi3559av100_calc_pll` outputs postdiv1 = 2,
postdiv2 = 1 and refdiv = 1, so these outputs do not depend on the rate. -/
theorem hi3559av100_calc_pll_fixed_dividers (rate : Nat) :
    (hi3559av100_calc_pll rate).postdiv1_val = 2 ∧
    (hi3559av100_calc_pll rate).postdiv2_val = 1 ∧
    (hi3559av100_calc_pll rate).refdiv_val = 1 :=
  ⟨rfl, rfl, rfl⟩

/-- C4: for every target rate with 2 * rate below 2^64, `hi3559av100_calc_pll`
outputs fbdiv = floor(M / 24) truncated to 32 bits and
frac = floor((M mod 24) * 2^24 / 24), where M = floor(2 * rate / 1000000). -/
theorem hi3559av100_calc_pll_fbdiv_frac (rate : Nat) (h : 2 * rate < 2 ^ 64) :
    (hi3559av100_calc_pll rate).fbdiv_val = (2 * rate / 1000000 / 24) % 2 ^ 32 ∧
    (hi3559av100_calc_pll rate).frac_val = (2 * rate / 1000000 % 24) * 2 ^ 24 / 24 :=
  calc_pll_closed_form rate h

/-- The worked example of the feedback and fractional values: the rate 792,000,000
gives the scaled rate 1,584,000,000, M = 1584, fbdiv = 66 and frac = 0. -/
theorem hi3559av100_calc_pll_fbdiv_frac_witness :
    2 * 792000000 < 2 ^ 64 ∧ 2 * 792000000 = 1584000000 ∧ 1584000000 / 1000000 = 1584 ∧
    (hi3559av100_calc_pll 792000000).fbdiv_val = 66 ∧
    (hi3559av100_calc_pll 792000000).frac_val = 0 :=
  ⟨by decide, by decide, by decide,
    (hi3559av100_calc_pll_fbdiv_frac 792000000 (by decide)).1.trans (by decide),
    (hi3559av100_calc_pll_fbdiv_frac 792000000 (by decide)).2.trans (by decide)⟩


/-- C5: for a PLL handle built from a row of `hi3559av100_pll_clks`, any initial
register contents and every target rate that is a multiple of 1,500,000 Hz
below 49,152,000,000 Hz, `clk_pll_recalc_rate` applied to the register state
left by `clk_pll_set_rate` returns exactly the target rate. -/
theorem clk_pll_set_rate_recalc_roundtrip (apll gpll base : Nat) (c : hi3559av100_pll_clock)
    (hc : c ∈ hi3559av100_pll_clks apll gpll) (m : Mem) (rate pr pr2 : Nat)
    (hmul : 1500000 ∣ rate) (hlt : rate < 49152000000) :
    clk_pll_recalc_rate (pll_clk_of_desc base c) pr2
      (clk_pll_set_rate (pll_clk_of_desc base c) rate pr m).1 = some rate := by
  have hr : rate % 2 ^ BITS_PER_LONG = rate := by
    unfold BITS_PER_LONG; omega
  have hfr := calc_pll_frac_lt rate
  have hfb := calc_pll_fbdiv_lt rate hlt
  have key : clk_pll_recalc_rate (pll_clk_of_desc base c) pr2
      (clk_pll_set_rate (pll_clk_of_desc base c) rate pr m).1
      = some ((24000000 * (hi3559av100_calc_pll rate).fbdiv_val
          + 24000000 * (hi3559av100_calc_pll rate).frac_val / 2 ^ 24) / 2) := by
    simp only [hi3559av100_pll_clks, List.mem_cons, List.mem_singleton, List.not_mem_nil,
      or_false] at hc
    have H := fun c => clk_pll_recalc_after_set (pll_clk_of_desc base c) rate pr pr2 m
    simp only [hr] at H
    rcases hc with rfl | rfl <;> apply H <;> simp only [pll_clk_of_desc] <;>
      omega
  rw [key]
  obtain ⟨k, rfl⟩ := hmul
  have e := calc_pll_closed_form (1500000 * k) (by omega)
  rw [e.1, e.2]
  congr 1
  omega

/-- The PLL round trip for the `apll` handle at base 0x1000, all register bits
set beforehand, at the rate 792,000,000 = 528 * 1,500,000. -/
theorem clk_pll_set_rate_recalc_roundtrip_witness :
    clk_pll_recalc_rate (pll_clk_of_desc 0x1000 ⟨250, "apll", none, 0x0, 0, 24, 24, 3, 28, 3, 0x4, 0, 12, 12, 6⟩) 24000000
      (clk_pll_set_rate (pll_clk_of_desc 0x1000 ⟨250, "apll", none, 0x0, 0, 24, 24, 3, 28, 3, 0x4, 0, 12, 12, 6⟩)
        792000000 24000000 (fun _ => 0xffffffff)).1 = some 792000000 :=
  clk_pll_set_rate_recalc_roundtrip 250 251 0x1000 _ (List.mem_cons_self _ _) _ 792000000 _ _
    ⟨528, by decide⟩ (by decide)

/-- C6, as stated, fails on the code. (1) On the `apll` layout with
postdiv1 = 2, postdiv2 = 1, fbdiv = 66, refdiv = 1, frac = 0 and parent rate
48 MHz the code returns 792,000,000 while the model with `R` = 48 MHz gives
1,584,000,000. (2) On a layout whose fractional field is 16 bits wide, with
frac = 0x8000 and parent rate 24 MHz, the code returns 792,023,437 while the
model with `F` = 16 gives 798,000,000. (3) With two overlapping 17-bit
post-divider fields both reading 0x10000, the 32-bit product is zero and the
code divides by zero. -/
theorem clk_pll_recalc_rate_model_counterexample :
    (pll_field (two_regs 0 0x12000000 4 0x1042) 4 12 6 ≠ 0 ∧
      pll_field (two_regs 0 0x12000000 4 0x1042) 0 24 3 ≠ 0 ∧
      pll_field (two_regs 0 0x12000000 4 0x1042) 0 28 3 ≠ 0 ∧
      clk_pll_recalc_rate ⟨0, 0, 0, 24, 24, 3, 28, 3, 4, 0, 12, 12, 6⟩ 48000000
        (two_regs 0 0x12000000 4 0x1042) = some 792000000 ∧
      pll_model_rate 48000000 24
        (pll_field (two_regs 0 0x12000000 4 0x1042) 4 0 12)
        (pll_field (two_regs 0 0x12000000 4 0x1042) 0 0 24)
        (pll_field (two_regs 0 0x12000000 4 0x1042) 4 12 6)
        (pll_field (two_regs 0 0x12000000 4 0x1042) 0 24 3)
        (pll_field (two_regs 0 0x12000000 4 0x1042) 0 28 3) = 1584000000 ∧
      clk_pll_recalc_rate ⟨0, 0, 0, 24, 24, 3, 28, 3, 4, 0, 12, 12, 6⟩ 48000000
          (two_regs 0 0x12000000 4 0x1042)
        ≠ some (pll_model_rate 48000000 24
          (pll_field (two_regs 0 0x12000000 4 0x1042) 4 0 12)
          (pll_field (two_regs 0 0x12000000 4 0x1042) 0 0 24)
          (pll_field (two_regs 0 0x12000000 4 0x1042) 4 12 6)
          (pll_field (two_regs 0 0x12000000 4 0x1042) 0 24 3)
          (pll_field (two_regs 0 0x12000000 4 0x1042) 0 28 3))) ∧
    (pll_field (two_regs 0 0x12008000 4 0x1042) 4 12 6 ≠ 0 ∧
      pll_field (two_regs 0 0x12008000 4 0x1042) 0 24 3 ≠ 0 ∧
      pll_field (two_regs 0 0x12008000 4 0x1042) 0 28 3 ≠ 0 ∧
      clk_pll_recalc_rate ⟨0, 0, 0, 16, 24, 3, 28, 3, 4, 0, 12, 12, 6⟩ 24000000
        (two_regs 0 0x12008000 4 0x1042) = some 792023437 ∧
      pll_model_rate 24000000 16
        (pll_field (two_regs 0 0x12008000 4 0x1042) 4 0 12)
        (pll_field (two_regs 0 0x12008000 4 0x1042) 0 0 16)
        (pll_field (two_regs 0 0x12008000 4 0x1042) 4 12 6)
        (pll_field (two_regs 0 0x12008000 4 0x1042) 0 24 3)
        (pll_field (two_regs 0 0x12008000 4 0x1042) 0 28 3) = 798000000 ∧
      clk_pll_recalc_rate ⟨0, 0, 0, 16, 24, 3, 28, 3, 4, 0, 12, 12, 6⟩ 24000000
          (two_regs 0 0x12008000 4 0x1042)
        ≠ some (pll_model_rate 24000000 16
          (pll_field (two_regs 0 0x12008000 4 0x1042) 4 0 12)
          (pll_field (two_regs 0 0x12008000 4 0x1042) 0 0 16)
          (pll_field (two_regs 0 0x12008000 4 0x1042) 4 12 6)
          (pll_field (two_regs 0 0x12008000 4 0x1042) 0 24 3)
          (pll_field (two_regs 0 0x12008000 4 0x1042) 0 28 3))) ∧
    (pll_field (two_regs 0 0x10000 4 0x1042) 4 12 6 ≠ 0 ∧
      pll_field (two_regs 0 0x10000 4 0x1042) 0 0 17 ≠ 0 ∧
      pll_field (two_regs 0 0x10000 4 0x1042) 0 0 17 ≠ 0 ∧
      clk_pll_recalc_rate ⟨0, 0, 0, 24, 0, 17, 0, 17, 4, 0, 12, 12, 6⟩ 24000000
        (two_regs 0 0x10000 4 0x1042) = none ∧
      clk_pll_recalc_rate ⟨0, 0, 0, 24, 0, 17, 0, 17, 4, 0, 12, 12, 6⟩ 24000000
          (two_regs 0 0x10000 4 0x1042)
        ≠ some (pll_model_rate 24000000 24
          (pll_field (two_regs 0 0x10000 4 0x1042) 4 0 12)
          (pll_field (two_regs 0 0x10000 4 0x1042) 0 0 24)
          (pll_field (two_regs 0 0x10000 4 0x1042) 4 12 6)
          (pll_field (two_regs 0 0x10000 4 0x1042) 0 0 17)
          (pll_field (two_regs 0 0x10000 4 0x1042) 0 0 17))) := by
  decide

/-- C6 (amended): `clk_pll_recalc_rate` does not use the parent rate or the
handle's `frac_width` in its formula. For every parent rate, every field
layout with shifts and widths below 32 and every register contents whose
refdiv, postdiv1 and postdiv2 fields are non-zero with postdiv1 * postdiv2
below 2^32, it returns the model rate for the reference rate 24,000,000 Hz
and F = 24:
floor(floor((24000000*fbdiv + floor(24000000*frac / 2^24)) / refdiv) / (postdiv1*postdiv2)). -/
theorem clk_pll_recalc_rate_model (clk : hi3559av100_clk_pll) (R : Nat) (m : Mem)
    (_hdef : pll_shifts_defined clk)
    (hre : pll_field m clk.ctrl_reg2 clk.refdiv_shift clk.refdiv_width ≠ 0)
    (hp1 : pll_field m clk.ctrl_reg1 clk.postdiv1_shift clk.postdiv1_width ≠ 0)
    (hp2 : pll_field m clk.ctrl_reg1 clk.postdiv2_shift clk.postdiv2_width ≠ 0)
    (hprod : pll_field m clk.ctrl_reg1 clk.postdiv1_shift clk.postdiv1_width
      * pll_field m clk.ctrl_reg1 clk.postdiv2_shift clk.postdiv2_width < 2 ^ 32) :
    clk_pll_recalc_rate clk R m = some (pll_model_rate 24000000 24
      (pll_field m clk.ctrl_reg2 clk.fbdiv_shift clk.fbdiv_width)
      (pll_field m clk.ctrl_reg1 clk.frac_shift clk.frac_width)
      (pll_field m clk.ctrl_reg2 clk.refdiv_shift clk.refdiv_width)
      (pll_field m clk.ctrl_reg1 clk.postdiv1_shift clk.postdiv1_width)
      (pll_field m clk.ctrl_reg1 clk.postdiv2_shift clk.postdiv2_width)) := by
  rw [clk_pll_recalc_rate_eq, if_neg hre, Nat.mod_eq_of_lt hprod,
    if_neg (Nat.mul_ne_zero hp1 hp2)]
  rfl

/-- The rate read back on a layout with a 16-bit fractional field and parent
rate 48 MHz is the 24 MHz, 2^24 model value 792,023,437. -/
theorem clk_pll_recalc_rate_model_witness :
    clk_pll_recalc_rate ⟨0, 0, 0, 16, 24, 3, 28, 3, 4, 0, 12, 12, 6⟩ 48000000
      (two_regs 0 0x12008000 4 0x1042) = some 792023437 :=
  clk_pll_recalc_rate_model ⟨0, 0, 0, 16, 24, 3, 28, 3, 4, 0, 12, 12, 6⟩ 48000000
    (two_regs 0 0x12008000 4 0x1042) (by decide) (by decide) (by decide) (by decide) (by decide)

/-! ## Theorems: registry and leaf registration -/

/-- C7 (the code at a failing input): a batch of two fixed-rate descriptors
with ids 0 and 1 on a registry whose two slots are deferred, the constructor
failing at index 1. The call returns `-ENOMEM` and unregisters the handle
`1000` registered for index 0, but slot 0 still holds that handle and not the
deferred sentinel. `hisi_clk_register_fixed_factor` does the same. -/
theorem hisi_clk_register_leaf_stale_slot :
    ((hisi_clk_register_fixed_rate env_fail_at_1 fixed_rate2 2 deferred2 []).ret = -ENOMEM ∧
      (hisi_clk_register_fixed_rate env_fail_at_1 fixed_rate2 2 deferred2 []).log =
        [Event.clk_hw_register_fixed_rate "osc" none 0 24000000,
         Event.clk_hw_register_fixed_rate "ref" none 0 50000000,
         Event.clk_hw_unregister_fixed_rate 1000] ∧
      (hisi_clk_register_fixed_rate env_fail_at_1 fixed_rate2 2 deferred2 []).data.get_hw 0
        = 1000 ∧
      (hisi_clk_register_fixed_rate env_fail_at_1 fixed_rate2 2 deferred2 []).data.get_hw 0
        ≠ ERR_PTR (-EPROBE_DEFER)) ∧
    ((hisi_clk_register_fixed_factor env_fail_at_1 fixed_factor2 2 deferred2 []).ret = -ENOMEM ∧
      (hisi_clk_register_fixed_factor env_fail_at_1 fixed_factor2 2 deferred2 []).data.get_hw 0
        = 1000 ∧
      (hisi_clk_register_fixed_factor env_fail_at_1 fixed_factor2 2 deferred2 []).data.get_hw 0
        ≠ ERR_PTR (-EPROBE_DEFER)) := by
  decide

/-- C9 (the code at a failing input): `hisi_clk_early_init` on a table of two
fixed-rate descriptors, the constructor failing at index 1. The handle `1000`
registered for index 0 is unregistered twice, first by the rollback of
`hisi_clk_register_fixed_rate` and then by `hisi_clk_free`, which finds it
still stored in slot 0. The registry is released, the node keeps its `data`
and `-ENOMEM` is returned. -/
theorem hisi_clk_early_init_double_unregister :
    (hisi_clk_early_init env_fail_at_1 ⟨none⟩ clocks_fixed_rate2 []).log =
      [Event.of_iomap, Event.kmalloc, Event.kzalloc 2, Event.of_clk_add_hw_provider,
       Event.clk_hw_register_fixed_rate "osc" none 0 24000000,
       Event.clk_hw_register_fixed_rate "ref" none 0 50000000,
       Event.clk_hw_unregister_fixed_rate 1000,
       Event.clk_hw_unregister_fixed_rate 1000,
       Event.of_clk_del_provider, Event.kfree_clk_data, Event.kfree_data] ∧
    (hisi_clk_early_init env_fail_at_1 ⟨none⟩ clocks_fixed_rate2 []).log.count
      (Event.clk_hw_unregister_fixed_rate 1000) = 2 ∧
    (hisi_clk_early_init env_fail_at_1 ⟨none⟩ clocks_fixed_rate2 []).np = ⟨none⟩ ∧
    (hisi_clk_early_init env_fail_at_1 ⟨none⟩ clocks_fixed_rate2 []).ret = -ENOMEM := by
  decide

/-- C8: when `hisi_clk_register_fixed_rate` is given a batch with pairwise
distinct ids and the constructor fails at index `k`, the call returns the error
code of the failing constructor; it calls the constructor for the indices
0..k only, in order, and then unregisters exactly the handles constructed for
the indices k-1 down to 0, each once; and every slot whose id is not in the
batch keeps its content. -/
theorem hisi_clk_register_fixed_rate_rollback (env : Env)
    (clks : List hisi_fixed_rate_clock) (num k : Nat) (data : hisi_clock_data)
    (log : List Event)
    (_hnum : num ≤ clks.length) (_hint : num ≤ INT_MAX) (hk : k < num)
    (hdist : ∀ a, a < num → ∀ b, b < num →
      (clks.getD a default).id = (clks.getD b default).id → a = b)
    (hbound : ∀ a, a < num → (clks.getD a default).id < data.clk_data.hws.length)
    (hok : ∀ j, j < k → IS_ERR (env.clk_hw_register_fixed_rate j) = false)
    (hfail : IS_ERR (env.clk_hw_register_fixed_rate k) = true) :
    (hisi_clk_register_fixed_rate env clks num data log).ret
        = PTR_ERR (env.clk_hw_register_fixed_rate k) ∧
    (hisi_clk_register_fixed_rate env clks num data log).log
        = log ++ (List.range (k + 1)).map (fun j =>
            Event.clk_hw_register_fixed_rate (clks.getD j default).name
              (clks.getD j default).parent_name (clks.getD j default).flags
              (clks.getD j default).fixed_rate)
          ++ (List.range k).reverse.map (fun j =>
            Event.clk_hw_unregister_fixed_rate (env.clk_hw_register_fixed_rate j)) ∧
    (∀ id, (∀ a, a < num → (clks.getD a default).id ≠ id) →
      (hisi_clk_register_fixed_rate env clks num data log).data.get_hw id = data.get_hw id) := by
  have hloop := hisi_clk_register_fixed_rate_loop_fail env clks num 0 k data log
    (Nat.zero_le k) (by omega) (fun j _ h => hok j h) hfail
  simp only [Nat.sub_zero, ← List.range_eq_range'] at hloop
  simp only [hisi_clk_register_fixed_rate, hloop, hisi_clk_register_fixed_rate_err_eq]
  refine ⟨trivial, ?_, ?_⟩
  · congr 1
    apply List.map_congr_left
    intro j hj
    have hjk : j < k := List.mem_range.mp (List.mem_reverse.mp hj)
    rw [foldl_set_hw_same (fun j => (clks.getD j default).id) env.clk_hw_register_fixed_rate
      (List.range k) data
      (fun a ha b hb => hdist a (by have := List.mem_range.mp ha; omega) b
        (by have := List.mem_range.mp hb; omega))
      (List.nodup_range k)
      (fun a ha => hbound a (by have := List.mem_range.mp ha; omega)) j
      (List.mem_range.mpr hjk)]
  · intro id hid
    exact foldl_set_hw_other _ _ _ _ _ (fun j hj => hid j (by have := List.mem_range.mp hj; omega))

/-- The rollback of a batch of two descriptors whose second constructor fails. -/
theorem hisi_clk_register_fixed_rate_rollback_witness :
    (hisi_clk_register_fixed_rate env_fail_at_1 fixed_rate2 2 deferred2 []).ret = -ENOMEM ∧
    (hisi_clk_register_fixed_rate env_fail_at_1 fixed_rate2 2 deferred2 []).log
      = [Event.clk_hw_register_fixed_rate "osc" none 0 24000000,
         Event.clk_hw_register_fixed_rate "ref" none 0 50000000,
         Event.clk_hw_unregister_fixed_rate 1000] :=
  ⟨(hisi_clk_register_fixed_rate_rollback env_fail_at_1 fixed_rate2 2 1 deferred2 []
      (by decide) (by decide) (by decide) (by decide) (by decide) (by decide) (by decide)).1,
    (hisi_clk_register_fixed_rate_rollback env_fail_at_1 fixed_rate2 2 1 deferred2 []
      (by decide) (by decide) (by decide) (by decide) (by decide) (by decide) (by decide)).2.1⟩

/-- C10: when `hisi_clk_init` succeeds with node count `nr` (the mapping,
both allocations and the provider registration succeed), the registry
returned records the mapped base, has `num = nr`, has no descriptor table
(`clks = NULL`) and every slot `i < nr` holds `ERR_PTR(-EPROBE_DEFER)`; when
the mapping, either allocation or the provider registration fails, it returns
`NULL`. -/
theorem hisi_clk_init_result (env : Env) (nr : Nat) (log : List Event)
    (_hint : nr ≤ INT_MAX) :
    (env.of_iomap ≠ 0 → env.kmalloc = true → env.kzalloc = true →
      env.of_clk_add_hw_provider = 0 →
      ∃ data, (hisi_clk_init env nr log).1 = some data ∧
        data.base = env.of_iomap ∧ data.clk_data.num = nr ∧ data.clks = none ∧
        data.clk_data.hws.length = nr ∧
        ∀ i, i < nr → data.clk_data.hws[i]? = some (ERR_PTR (-EPROBE_DEFER))) ∧
    ((env.of_iomap = 0 ∨ env.kmalloc = false ∨ env.kzalloc = false ∨
        env.of_clk_add_hw_provider ≠ 0) →
      (hisi_clk_init env nr log).1 = none) := by
  constructor
  · intro h1 h2 h3 h4
    refine ⟨{ base := env.of_iomap, clks := none,
              clk_data := { num := nr,
                            hws := hisi_clk_init_loop nr 0 (List.replicate nr 0) } },
      ?_, rfl, rfl, rfl, ?_, ?_⟩
    · simp [hisi_clk_init, h1, h2, h3, h4]
    · simp [hisi_clk_init_loop_length]
    · intro i hi
      show (hisi_clk_init_loop nr 0 (List.replicate nr 0))[i]? = _
      rw [hisi_clk_init_loop_getElem?, if_pos]
      simp only [List.length_replicate]
      omega
  · intro h
    simp only [hisi_clk_init]
    by_cases h1 : env.of_iomap = 0
    · simp [h1]
    · by_cases h2 : env.kmalloc = false
      · simp [h1, h2]
      · by_cases h3 : env.kzalloc = false
        · simp [h1, h2, h3]
        · have h4 : env.of_clk_add_hw_provider ≠ 0 := by
            rcases h with h | h | h | h
            · exact absurd h h1
            · exact absurd h h2
            · exact absurd h h3
            · exact h
          simp [h1, h2, h3, h4]

/-- A successful `hisi_clk_init` with two slots. -/
theorem hisi_clk_init_result_witness :
    ∃ data, (hisi_clk_init env_fail_at_1 2 []).1 = some data ∧
      data.base = 0x1000 ∧ data.clk_data.num = 2 ∧ data.clks = none ∧
      data.clk_data.hws.length = 2 ∧
      ∀ i, i < 2 → data.clk_data.hws[i]? = some (ERR_PTR (-EPROBE_DEFER)) :=
  (hisi_clk_init_result env_fail_at_1 2 [] (by decide)).1
    (by decide) (by decide) (by decide) (by decide)

/-! ## Lemmas: PLL accuracy -/

/-- The rate recomputed from the values of `hi3559av100_calc_pll` lies at most
half a megahertz and one hertz below the target. -/
theorem calc_pll_rate_bounds (rate : Nat) (hlt : rate < 49152000000) :
    (24000000 * (hi3559av100_calc_pll rate).fbdiv_val
        + 24000000 * (hi3559av100_calc_pll rate).frac_val / 2 ^ 24) / 2 ≤ rate ∧
    rate < (24000000 * (hi3559av100_calc_pll rate).fbdiv_val
        + 24000000 * (hi3559av100_calc_pll rate).frac_val / 2 ^ 24) / 2 + 1000000 := by
  have e := calc_pll_closed_form rate (by omega)
  rw [e.1, e.2]
  have hM1 : 1000000 * (2 * rate / 1000000) ≤ 2 * rate := Nat.mul_div_le _ _
  have hM2 : 2 * rate < 1000000 * (2 * rate / 1000000) + 1000000 := by
    have := Nat.lt_mul_div_succ (2 * rate) (by decide : 0 < 1000000)
    omega
  generalize 2 * rate / 1000000 = M at hM1 hM2 ⊢
  have hq : M = 24 * (M / 24) + M % 24 := (Nat.div_add_mod M 24).symm
  have hr : M % 24 < 24 := Nat.mod_lt _ (by decide)
  have hq32 : M / 24 % 2 ^ 32 = M / 24 := by omega
  rw [hq32]
  generalize M / 24 = q at hq
  generalize M % 24 = r at hq hr
  subst hq
  interval_cases r <;> omega

/-! ## Theorems: PLL accuracy and register fields -/

/-- C19: for a PLL handle built from a row of `hi3559av100_pll_clks`, any
initial register contents and every target rate below 49,152,000,000 Hz, the
rate `R` returned by `clk_pll_recalc_rate` after `clk_pll_set_rate` never
exceeds the target and is less than 1 MHz below it:
rate - 1,000,000 < R <= rate. -/
theorem clk_pll_set_rate_recalc_bounds (apll gpll base : Nat) (c : hi3559av100_pll_clock)
    (hc : c ∈ hi3559av100_pll_clks apll gpll) (m : Mem) (rate pr pr2 : Nat)
    (hlt : rate < 49152000000) :
    ∃ R, clk_pll_recalc_rate (pll_clk_of_desc base c) pr2
        (clk_pll_set_rate (pll_clk_of_desc base c) rate pr m).1 = some R ∧
      R ≤ rate ∧ (rate : Int) - 1000000 < R := by
  have hr : rate % 2 ^ BITS_PER_LONG = rate := by
    unfold BITS_PER_LONG; omega
  have hfr := calc_pll_frac_lt rate
  have hfb := calc_pll_fbdiv_lt rate hlt
  have key : clk_pll_recalc_rate (pll_clk_of_desc base c) pr2
      (clk_pll_set_rate (pll_clk_of_desc base c) rate pr m).1
      = some ((24000000 * (hi3559av100_calc_pll rate).fbdiv_val
          + 24000000 * (hi3559av100_calc_pll rate).frac_val / 2 ^ 24) / 2) := by
    simp only [hi3559av100_pll_clks, List.mem_cons, List.mem_singleton, List.not_mem_nil,
      or_false] at hc
    have H := fun c => clk_pll_recalc_after_set (pll_clk_of_desc base c) rate pr pr2 m
    simp only [hr] at H
    rcases hc with rfl | rfl <;> apply H <;> simp only [pll_clk_of_desc] <;> omega
  have b := calc_pll_rate_bounds rate hlt
  exact ⟨_, key, b.1, by omega⟩

/-- The bound on the rate read back at the target 100,000,001 Hz on the `apll`
handle: the rate returned is 100,000,000 Hz. -/
theorem clk_pll_set_rate_recalc_bounds_witness :
    ∃ R, clk_pll_recalc_rate
        (pll_clk_of_desc 0x1000
          ⟨250, "apll", none, 0x0, 0, 24, 24, 3, 28, 3, 0x4, 0, 12, 12, 6⟩) 24000000
        (clk_pll_set_rate
          (pll_clk_of_desc 0x1000
            ⟨250, "apll", none, 0x0, 0, 24, 24, 3, 28, 3, 0x4, 0, 12, 12, 6⟩)
          100000001 24000000 (fun _ => 0)).1 = some R ∧
      R ≤ 100000001 ∧ ((100000001 : Nat) : Int) - 1000000 < R :=
  clk_pll_set_rate_recalc_bounds 250 251 0x1000 _ (List.mem_cons_self _ _) _ 100000001 _ _
    (by decide)

/-- C20: for a PLL handle built from a row of `hi3559av100_pll_clks` and every
target rate below 49,152,000,000 Hz, after `clk_pll_set_rate` the five fields
read as `clk_pll_recalc_rate` reads them are: in control register 1 the
computed frac, postdiv1 = 2 and postdiv2 = 1, in control register 2 the
computed fbdiv and refdiv = 1, whatever the registers held before; and the
call returns 0. -/
theorem clk_pll_set_rate_writes_fields (apll gpll base : Nat) (c : hi3559av100_pll_clock)
    (hc : c ∈ hi3559av100_pll_clks apll gpll) (m : Mem) (rate pr : Nat)
    (hlt : rate < 49152000000) :
    (pll_field (clk_pll_set_rate (pll_clk_of_desc base c) rate pr m).1
        (pll_clk_of_desc base c).ctrl_reg1 (pll_clk_of_desc base c).frac_shift
        (pll_clk_of_desc base c).frac_width = (hi3559av100_calc_pll rate).frac_val ∧
      pll_field (clk_pll_set_rate (pll_clk_of_desc base c) rate pr m).1
        (pll_clk_of_desc base c).ctrl_reg1 (pll_clk_of_desc base c).postdiv1_shift
        (pll_clk_of_desc base c).postdiv1_width = 2 ∧
      pll_field (clk_pll_set_rate (pll_clk_of_desc base c) rate pr m).1
        (pll_clk_of_desc base c).ctrl_reg1 (pll_clk_of_desc base c).postdiv2_shift
        (pll_clk_of_desc base c).postdiv2_width = 1 ∧
      pll_field (clk_pll_set_rate (pll_clk_of_desc base c) rate pr m).1
        (pll_clk_of_desc base c).ctrl_reg2 (pll_clk_of_desc base c).fbdiv_shift
        (pll_clk_of_desc base c).fbdiv_width = (hi3559av100_calc_pll rate).fbdiv_val ∧
      pll_field (clk_pll_set_rate (pll_clk_of_desc base c) rate pr m).1
        (pll_clk_of_desc base c).ctrl_reg2 (pll_clk_of_desc base c).refdiv_shift
        (pll_clk_of_desc base c).refdiv_width = 1) ∧
    (clk_pll_set_rate (pll_clk_of_desc base c) rate pr m).2 = 0 := by
  have hr : rate % 2 ^ BITS_PER_LONG = rate := by
    unfold BITS_PER_LONG; omega
  have hfr := calc_pll_frac_lt rate
  have hfb := calc_pll_fbdiv_lt rate hlt
  have H := fun c => clk_pll_set_rate_fields (pll_clk_of_desc base c) rate pr m
  simp only [hr] at H
  simp only [hi3559av100_pll_clks, List.mem_cons, List.mem_singleton, List.not_mem_nil,
    or_false] at hc
  refine ⟨?_, rfl⟩
  rcases hc with rfl | rfl <;> apply H <;> simp only [pll_clk_of_desc] <;> omega

/-- The fields written for the target 792,000,000 Hz on the `gpll` handle, all
register bits set beforehand: frac = 0, postdiv1 = 2, postdiv2 = 1, fbdiv = 66,
refdiv = 1. -/
theorem clk_pll_set_rate_writes_fields_witness :
    pll_field (clk_pll_set_rate (pll_clk_of_desc 0x1000
        ⟨251, "gpll", none, 0x20, 0, 24, 24, 3, 28, 3, 0x24, 0, 12, 12, 6⟩)
        792000000 24000000 (fun _ => 0xffffffff)).1 0x1020 0 24 = 0 ∧
    pll_field (clk_pll_set_rate (pll_clk_of_desc 0x1000
        ⟨251, "gpll", none, 0x20, 0, 24, 24, 3, 28, 3, 0x24, 0, 12, 12, 6⟩)
        792000000 24000000 (fun _ => 0xffffffff)).1 0x1024 0 12 = 66 :=
  ⟨(clk_pll_set_rate_writes_fields 250 251 0x1000 _
      (List.mem_cons_of_mem _ (List.mem_cons_self _ _)) (fun _ => 0xffffffff) 792000000
      24000000 (by decide)).1.1,
   (clk_pll_set_rate_writes_fields 250 251 0x1000 _
      (List.mem_cons_of_mem _ (List.mem_cons_self _ _)) (fun _ => 0xffffffff) 792000000
      24000000 (by decide)).1.2.2.2.1⟩

/-! ## Lemmas: multiplexer tables -/

theorem mux_mask_eq (w : Nat) (hw : w < 32) : (BIT w - 1) % 2 ^ 32 = (1 <<< w) - 1 := by
  have h1 : BIT w = 1 <<< w := by
    rw [BIT_eq_of_lt w hw, Nat.shiftLeft_eq, Nat.one_mul]
  have h2 : 2 ^ w < 2 ^ 32 := two_pow_lt_of_lt_32 w hw
  rw [h1, Nat.shiftLeft_eq, Nat.one_mul]
  exact Nat.mod_eq_of_lt (by omega)

/-- A value stored in a register field and read back from it. -/
theorem mux_field_roundtrip (v x s w : Nat) (hsw : s + w ≤ 32) (hw : w < 32)
    (hx : x < 2 ^ w) :
    ((((v &&& not32 (((BIT w - 1) % 2 ^ 32) <<< s)) ||| (x <<< s) % 2 ^ 32) % 2 ^ 32) >>> s)
      &&& ((BIT w - 1) % 2 ^ 32) = x := by
  have h2 : 2 ^ w < 2 ^ 32 := two_pow_lt_of_lt_32 w hw
  have hm2 : (BIT w - 1) % 2 ^ 32 = ((1 <<< w) - 1) % 2 ^ 32 := by
    rw [mux_mask_eq w hw]
    rw [Nat.shiftLeft_eq, Nat.one_mul]
    exact (Nat.mod_eq_of_lt (by omega)).symm
  have hlt : (v &&& not32 (((1 <<< w) - 1) <<< s)) ||| (x <<< s) % 2 ^ 32 < 2 ^ 32 :=
    Nat.or_lt_two_pow (Nat.and_lt_two_pow _ (not32_lt _)) (Nat.mod_lt _ (by decide))
  rw [show ((BIT w - 1) % 2 ^ 32) <<< s = ((1 <<< w) - 1) <<< s by rw [mux_mask_eq w hw],
    hm2, Nat.mod_eq_of_lt hlt]
  apply extract_field _ _ _ _ hw hx
  intro j hj
  rw [Nat.testBit_or, testBit_clear_field, testBit_put_field]
  have a1 : s + j < 32 := by omega
  have a2 : s ≤ s + j := by omega
  have a3 : s + j - s = j := by omega
  simp [a1, a2, a3, hj]

/-- The inverse lookup finds the index `k` when `k` is the first index whose
entry is `val`. -/
theorem mux_val_to_index_loop_eq (table : List Nat) (val : Nat) (n i k : Nat)
    (hik : i ≤ k) (hkn : k < i + n) (hk : table[k]? = some val)
    (hfirst : ∀ j, i ≤ j → j < k → table[j]? ≠ some val) :
    mux_val_to_index_loop table val n i = some k := by
  induction n generalizing i with
  | zero => omega
  | succ n ih =>
    rw [mux_val_to_index_loop]
    by_cases h : i = k
    · subst h
      rw [if_pos hk]
    · rw [if_neg (hfirst i (Nat.le_refl i) (by omega))]
      exact ih (i + 1) (by omega) (by omega) (fun j h1 h2 => hfirst j (by omega) h2)

/-- Write of parent index `k` followed by a read gives `k`, for a descriptor
whose table has the entry `val` at `k` and at no smaller index. -/
theorem mux_set_get_parent (base : Nat) (c : hisi_mux_clock) (table : List Nat)
    (k val : Nat) (m : Mem) (ht : c.table = some table) (hk : table[k]? = some val)
    (hkn : k < c.num_parents) (hsw : c.shift + c.width ≤ 32) (hw : c.width < 32)
    (hval : val < 2 ^ c.width) (hfirst : ∀ j, j < k → table[j]? ≠ some val) :
    ∃ m2, mux_set_parent base c k m = some m2 ∧ mux_get_parent base c m2 = some k := by
  simp only [mux_set_parent, ht, hk]
  refine ⟨_, rfl, ?_⟩
  simp only [mux_get_parent, ht, readl_writel_same]
  rw [mux_field_roundtrip _ _ _ _ hsw hw hval]
  exact mux_val_to_index_loop_eq table val c.num_parents 0 k (Nat.zero_le k) (by omega) hk
    (fun j _ h => hfirst j h)

/-! ## Theorems: multiplexer tables -/

/-- C18: for every multiplexer descriptor of `hi3559av100_mux_clks_crg` and of
`hi3559av100_shub_mux_clks`, the translation table has exactly `num_parents`
entries, no two of them equal, and for every parent index `k < num_parents`
the entry `table[k]` fits in the bit width of the descriptor and writing
parent index `k` then reading back yields `k`, whatever the register held. -/
theorem hi3559av100_mux_table_bijection (ID : String → Nat) (CLK_SET_RATE_PARENT : Nat)
    (c : hisi_mux_clock)
    (hc : c ∈ hi3559av100_mux_clks_crg ID CLK_SET_RATE_PARENT ++ hi3559av100_shub_mux_clks ID) :
    ∃ table, c.table = some table ∧ table.length = c.num_parents ∧ table.Nodup ∧
      ∀ k, k < c.num_parents →
        ∃ val, table[k]? = some val ∧ val < 2 ^ c.width ∧
          ∀ (base : Nat) (m : Mem), ∃ m2,
            mux_set_parent base c k m = some m2 ∧ mux_get_parent base c m2 = some k := by
  have main : ∀ (c : hisi_mux_clock) (table : List Nat), c.table = some table →
      table.length = c.num_parents → table.Nodup → c.shift + c.width ≤ 32 → c.width < 32 →
      (∀ k, k < table.length → table.getD k 0 < 2 ^ c.width) →
      ∃ table, c.table = some table ∧ table.length = c.num_parents ∧ table.Nodup ∧
        ∀ k, k < c.num_parents →
          ∃ val, table[k]? = some val ∧ val < 2 ^ c.width ∧
            ∀ (base : Nat) (m : Mem), ∃ m2,
              mux_set_parent base c k m = some m2 ∧ mux_get_parent base c m2 = some k := by
    intro c table ht hlen hnd hsw hw hfit
    refine ⟨table, ht, hlen, hnd, ?_⟩
    intro k hk
    have hkl : k < table.length := by omega
    have hget : table[k]? = some table[k] := List.getElem?_eq_getElem hkl
    have hfitk : table[k] < 2 ^ c.width := by
      have := hfit k hkl
      rwa [List.getD_eq_getElem?_getD, hget, Option.getD_some] at this
    refine ⟨table[k], hget, hfitk, ?_⟩
    intro base m
    apply mux_set_get_parent base c table k table[k] m ht hget hk hsw hw hfitk
    intro j hj hcontra
    have hjl : j < table.length := by omega
    rw [List.getElem?_eq_getElem hjl, Option.some.injEq] at hcontra
    have := (List.Nodup.getElem_inj_iff hnd).mp hcontra
    omega
  simp only [hi3559av100_mux_clks_crg, hi3559av100_shub_mux_clks, List.cons_append,
    List.nil_append, List.mem_cons, List.mem_singleton, List.not_mem_nil, or_false] at hc
  rcases hc with rfl | rfl | rfl | rfl | rfl | rfl | rfl | rfl | rfl | rfl | rfl
  all_goals
    apply main _ _ rfl rfl (by decide) (by dsimp only; decide) (by dsimp only; decide)
      (by dsimp only; decide)

/-- The multiplexer round trip on `uart_mux` (field of 2 bits at bit 28 of the
register at 0x198) for parent index 2, all register bits set beforehand. -/
theorem hi3559av100_mux_table_bijection_witness :
    ∃ table, (some uart_mux_table : Option (List Nat)) = some table ∧
      table.length = 3 ∧ table.Nodup ∧
      ∀ k, k < 3 →
        ∃ val, table[k]? = some val ∧ val < 2 ^ 2 ∧
          ∀ (base : Nat) (m : Mem), ∃ m2,
            mux_set_parent base
              { id := 7, name := "uart_mux", parent_names := uart_mux_p,
                num_parents := uart_mux_p.length, flags := 4, offset := 0x198,
                shift := 28, width := 2, mux_flags := 0, table := some uart_mux_table }
              k m = some m2 ∧
            mux_get_parent base
              { id := 7, name := "uart_mux", parent_names := uart_mux_p,
                num_parents := uart_mux_p.length, flags := 4, offset := 0x198,
                shift := 28, width := 2, mux_flags := 0, table := some uart_mux_table }
              m2 = some k :=
  hi3559av100_mux_table_bijection (fun _ => 7) 4 _
    (List.mem_append_left _ (List.mem_cons_of_mem _ (List.mem_cons_of_mem _
      (List.mem_cons_of_mem _ (List.mem_cons_of_mem _ (List.mem_cons_of_mem _
      (List.mem_cons_of_mem _ (List.mem_cons_of_mem _ (List.mem_cons_self _ _)))))))))

/-! ## Lemmas: the registry across the leaf registration loops -/

theorem IS_ERR_ne_zero (p : Int) (h : IS_ERR p = true) : PTR_ERR p ≠ 0 := by
  unfold IS_ERR at h
  unfold PTR_ERR
  have := of_decide_eq_true h
  omega

/-- Along a batch, either every constructor succeeds or there is a first
index at which one fails. -/
theorem exists_first_fail (f : Nat → Int) (n : Nat) :
    (∀ j, j < n → IS_ERR (f j) = false) ∨
    ∃ k, k < n ∧ IS_ERR (f k) = true ∧ ∀ j, j < k → IS_ERR (f j) = false := by
  induction n with
  | zero => exact Or.inl (fun j hj => absurd hj (Nat.not_lt_zero j))
  | succ n ih =>
    rcases ih with h | ⟨k, hk, hf, hb⟩
    · cases hn : IS_ERR (f n) with
      | false =>
        refine Or.inl (fun j hj => ?_)
        rcases Nat.lt_succ_iff_lt_or_eq.mp hj with h1 | h1
        · exact h j h1
        · rw [h1]; exact hn
      | true => exact Or.inr ⟨n, Nat.lt_succ_self n, hn, h⟩
    · exact Or.inr ⟨k, Nat.lt_succ_of_lt hk, hf, hb⟩

theorem same_shape_refl (d : hisi_clock_data) : same_shape d d := ⟨rfl, rfl, rfl, rfl⟩

theorem same_shape_trans {a b c : hisi_clock_data} (h1 : same_shape a b)
    (h2 : same_shape b c) : same_shape a c :=
  ⟨h2.1.trans h1.1, h2.2.1.trans h1.2.1, h2.2.2.1.trans h1.2.2.1, h2.2.2.2.trans h1.2.2.2⟩

theorem same_shape_set_hw (d : hisi_clock_data) (id : Nat) (clk : Int) :
    same_shape d (d.set_hw id clk) :=
  ⟨rfl, rfl, rfl, length_set_hw d id clk⟩

theorem same_shape_foldl (idf : Nat → Nat) (val : Nat → Int) (xs : List Nat)
    (data : hisi_clock_data) :
    same_shape data (xs.foldl (fun d j => d.set_hw (idf j) (val j)) data) := by
  induction xs generalizing data with
  | nil => exact same_shape_refl data
  | cons x xs ih =>
    rw [List.foldl_cons]
    exact same_shape_trans (same_shape_set_hw data _ _) (ih _)

theorem hisi_clk_register_fixed_rate_loop_shape (env : Env)
    (clks : List hisi_fixed_rate_clock) (n i : Nat) (data : hisi_clock_data)
    (log : List Event) :
    same_shape data (hisi_clk_register_fixed_rate_loop env clks n i data log).data := by
  induction n generalizing i data log with
  | zero => exact same_shape_refl data
  | succ n ih =>
    rw [hisi_clk_register_fixed_rate_loop]
    split
    · exact same_shape_refl data
    · exact same_shape_trans (same_shape_set_hw data _ _) (ih _ _ _)

theorem hisi_clk_register_fixed_rate_shape (env : Env) (clks : List hisi_fixed_rate_clock)
    (num : Nat) (data : hisi_clock_data) (log : List Event) :
    same_shape data (hisi_clk_register_fixed_rate env clks num data log).data := by
  have h := hisi_clk_register_fixed_rate_loop_shape env clks num 0 data log
  unfold hisi_clk_register_fixed_rate
  dsimp only
  split <;> exact h

theorem hisi_clk_register_fixed_factor_loop_shape (env : Env)
    (clks : List hisi_fixed_factor_clock) (n i : Nat) (data : hisi_clock_data)
    (log : List Event) :
    same_shape data (hisi_clk_register_fixed_factor_loop env clks n i data log).data := by
  induction n generalizing i data log with
  | zero => exact same_shape_refl data
  | succ n ih =>
    rw [hisi_clk_register_fixed_factor_loop]
    split
    · exact same_shape_refl data
    · exact same_shape_trans (same_shape_set_hw data _ _) (ih _ _ _)

theorem hisi_clk_register_fixed_factor_shape (env : Env)
    (clks : List hisi_fixed_factor_clock) (num : Nat) (data : hisi_clock_data)
    (log : List Event) :
    same_shape data (hisi_clk_register_fixed_factor env clks num data log).data := by
  have h := hisi_clk_register_fixed_factor_loop_shape env clks num 0 data log
  unfold hisi_clk_register_fixed_factor
  dsimp only
  split <;> exact h

/-- The registration loop of `hisi_clk_register_fixed_factor` when every
constructor succeeds. -/
theorem hisi_clk_register_fixed_factor_loop_ok (env : Env)
    (clks : List hisi_fixed_factor_clock) (n i : Nat) (data : hisi_clock_data)
    (log : List Event)
    (hok : ∀ j, i ≤ j → j < i + n → IS_ERR (env.clk_hw_register_fixed_factor j) = false) :
    hisi_clk_register_fixed_factor_loop env clks n i data log =
      { failed := none,
        data := (List.range' i n).foldl
          (fun d j => d.set_hw (clks.getD j default).id (env.clk_hw_register_fixed_factor j))
          data,
        log := log ++ (List.range' i n).map (fun j =>
          Event.clk_hw_register_fixed_factor (clks.getD j default).name
            (clks.getD j default).parent_name (clks.getD j default).flags
            (clks.getD j default).mult (clks.getD j default).div) } := by
  induction n generalizing i data log with
  | zero => simp [hisi_clk_register_fixed_factor_loop]
  | succ n ih =>
    rw [hisi_clk_register_fixed_factor_loop]
    simp only [hok i (Nat.le_refl i) (by omega), Bool.false_eq_true, if_false]
    rw [ih (i + 1) _ _ (fun j h1 h2 => hok j (by omega) (by omega)),
      List.range'_succ, List.foldl_cons, List.map_cons,
      List.append_assoc, List.singleton_append]

/-- `hisi_clk_register_fixed_rate` when every constructor succeeds. -/
theorem hisi_clk_register_fixed_rate_ok (env : Env) (clks : List hisi_fixed_rate_clock)
    (num : Nat) (data : hisi_clock_data) (log : List Event)
    (hok : ∀ j, j < num → IS_ERR (env.clk_hw_register_fixed_rate j) = false) :
    (hisi_clk_register_fixed_rate env clks num data log).ret = 0 ∧
    (hisi_clk_register_fixed_rate env clks num data log).data =
      (List.range num).foldl
        (fun d j => d.set_hw (clks.getD j default).id (env.clk_hw_register_fixed_rate j)) data ∧
    (hisi_clk_register_fixed_rate env clks num data log).log =
      log ++ (List.range num).map (fun j =>
        Event.clk_hw_register_fixed_rate (clks.getD j default).name
          (clks.getD j default).parent_name (clks.getD j default).flags
          (clks.getD j default).fixed_rate) := by
  have h := hisi_clk_register_fixed_rate_loop_ok env clks num 0 data log
    (fun j _ h2 => hok j (by omega))
  simp only [hisi_clk_register_fixed_rate, h, ← List.range_eq_range']
  exact ⟨trivial, trivial, trivial⟩

/-- `hisi_clk_register_fixed_factor` when every constructor succeeds. -/
theorem hisi_clk_register_fixed_factor_ok (env : Env) (clks : List hisi_fixed_factor_clock)
    (num : Nat) (data : hisi_clock_data) (log : List Event)
    (hok : ∀ j, j < num → IS_ERR (env.clk_hw_register_fixed_factor j) = false) :
    (hisi_clk_register_fixed_factor env clks num data log).ret = 0 ∧
    (hisi_clk_register_fixed_factor env clks num data log).data =
      (List.range num).foldl
        (fun d j => d.set_hw (clks.getD j default).id (env.clk_hw_register_fixed_factor j))
        data ∧
    (hisi_clk_register_fixed_factor env clks num data log).log =
      log ++ (List.range num).map (fun j =>
        Event.clk_hw_register_fixed_factor (clks.getD j default).name
          (clks.getD j default).parent_name (clks.getD j default).flags
          (clks.getD j default).mult (clks.getD j default).div) := by
  have h := hisi_clk_register_fixed_factor_loop_ok env clks num 0 data log
    (fun j _ h2 => hok j (by omega))
  simp only [hisi_clk_register_fixed_factor, h, ← List.range_eq_range']
  exact ⟨trivial, trivial, trivial⟩

/-- `hisi_clk_init` when the mapping, both allocations and the provider
registration succeed. -/
theorem hisi_clk_init_ok (env : Env) (nr : Nat) (log : List Event)
    (h1 : env.of_iomap ≠ 0) (h2 : env.kmalloc = true) (h3 : env.kzalloc = true)
    (h4 : env.of_clk_add_hw_provider = 0) :
    hisi_clk_init env nr log =
      (some { base := env.of_iomap, clks := none,
              clk_data := { num := nr,
                            hws := hisi_clk_init_loop nr 0 (List.replicate nr 0) } },
        log ++ [Event.of_iomap, Event.kmalloc, Event.kzalloc nr,
          Event.of_clk_add_hw_provider]) := by
  simp [hisi_clk_init, h1, h2, h3, h4]

/-- `hisi_clk_early_init` when the registry is set up and every leaf
constructor succeeds: the value returned, the node and the log. -/
theorem hisi_clk_early_init_ok (env : Env) (np : device_node) (clks : hisi_clocks)
    (log : List Event)
    (h1 : env.of_iomap ≠ 0) (h2 : env.kmalloc = true) (h3 : env.kzalloc = true)
    (h4 : env.of_clk_add_hw_provider = 0)
    (hfr : ∀ i, i < clks.fixed_rate_clks_num →
      IS_ERR (env.clk_hw_register_fixed_rate i) = false)
    (hff : ∀ i, i < clks.fixed_factor_clks_num →
      IS_ERR (env.clk_hw_register_fixed_factor i) = false) :
    (hisi_clk_early_init env np clks log).ret = 0 ∧
    (hisi_clk_early_init env np clks log).np.data = some
      ((List.range clks.fixed_factor_clks_num).foldl
        (fun d j => d.set_hw (clks.fixed_factor_clks.getD j default).id
          (env.clk_hw_register_fixed_factor j))
        ((List.range clks.fixed_rate_clks_num).foldl
          (fun d j => d.set_hw (clks.fixed_rate_clks.getD j default).id
            (env.clk_hw_register_fixed_rate j))
          { base := env.of_iomap, clks := some clks,
            clk_data := { num := hisi_clocks_get_nr clks,
                          hws := hisi_clk_init_loop (hisi_clocks_get_nr clks) 0
                            (List.replicate (hisi_clocks_get_nr clks) 0) } })) ∧
    (hisi_clk_early_init env np clks log).log =
      log ++ [Event.of_iomap, Event.kmalloc, Event.kzalloc (hisi_clocks_get_nr clks),
          Event.of_clk_add_hw_provider]
        ++ (List.range clks.fixed_rate_clks_num).map (fun j =>
          Event.clk_hw_register_fixed_rate (clks.fixed_rate_clks.getD j default).name
            (clks.fixed_rate_clks.getD j default).parent_name
            (clks.fixed_rate_clks.getD j default).flags
            (clks.fixed_rate_clks.getD j default).fixed_rate)
        ++ (List.range clks.fixed_factor_clks_num).map (fun j =>
          Event.clk_hw_register_fixed_factor (clks.fixed_factor_clks.getD j default).name
            (clks.fixed_factor_clks.getD j default).parent_name
            (clks.fixed_factor_clks.getD j default).flags
            (clks.fixed_factor_clks.getD j default).mult
            (clks.fixed_factor_clks.getD j default).div) := by
  simp only [hisi_clk_early_init, hisi_clk_init_ok env _ log h1 h2 h3 h4]
  obtain ⟨a1, a2, a3⟩ := hisi_clk_register_fixed_rate_ok env clks.fixed_rate_clks
    clks.fixed_rate_clks_num
    { base := env.of_iomap, clks := some clks,
      clk_data := { num := hisi_clocks_get_nr clks,
                    hws := hisi_clk_init_loop (hisi_clocks_get_nr clks) 0
                      (List.replicate (hisi_clocks_get_nr clks) 0) } }
    (log ++ [Event.of_iomap, Event.kmalloc, Event.kzalloc (hisi_clocks_get_nr clks),
          Event.of_clk_add_hw_provider]) hfr
  rw [a1, a2, a3]
  simp only [ne_eq, not_true_eq_false, if_false]
  obtain ⟨b1, b2, b3⟩ := hisi_clk_register_fixed_factor_ok env clks.fixed_factor_clks
    clks.fixed_factor_clks_num
    ((List.range clks.fixed_rate_clks_num).foldl
          (fun d j => d.set_hw (clks.fixed_rate_clks.getD j default).id
            (env.clk_hw_register_fixed_rate j))
          { base := env.of_iomap, clks := some clks,
            clk_data := { num := hisi_clocks_get_nr clks,
                          hws := hisi_clk_init_loop (hisi_clocks_get_nr clks) 0
                            (List.replicate (hisi_clocks_get_nr clks) 0) } })
    (log ++ [Event.of_iomap, Event.kmalloc, Event.kzalloc (hisi_clocks_get_nr clks),
          Event.of_clk_add_hw_provider]
        ++ (List.range clks.fixed_rate_clks_num).map (fun j =>
          Event.clk_hw_register_fixed_rate (clks.fixed_rate_clks.getD j default).name
            (clks.fixed_rate_clks.getD j default).parent_name
            (clks.fixed_rate_clks.getD j default).flags
            (clks.fixed_rate_clks.getD j default).fixed_rate)) hff
  rw [b1, b2, b3]
  simp only [ne_eq, not_true_eq_false, if_false]
  exact ⟨trivial, trivial, trivial⟩

/-! ## Lemmas: what each routine adds to the log -/

theorem log_adds_refl (P : Event → Prop) (log : List Event) : log_adds P log log :=
  ⟨[], (List.append_nil log).symm, fun _ h => absurd h (List.not_mem_nil _)⟩

theorem log_adds_trans {P : Event → Prop} {a b c : List Event} (h1 : log_adds P a b)
    (h2 : log_adds P b c) : log_adds P a c := by
  obtain ⟨l1, e1, p1⟩ := h1
  obtain ⟨l2, e2, p2⟩ := h2
  refine ⟨l1 ++ l2, by rw [e2, e1, List.append_assoc], ?_⟩
  intro e he
  rcases List.mem_append.mp he with h | h
  · exact p1 e h
  · exact p2 e h

theorem log_adds_one {P : Event → Prop} (log : List Event) (e : Event) (h : P e) :
    log_adds P log (log ++ [e]) :=
  ⟨[e], rfl, fun x hx => by rw [List.mem_singleton.mp hx]; exact h⟩

theorem log_adds_mono {P Q : Event → Prop} {a b : List Event} (h : log_adds P a b)
    (hpq : ∀ e, P e → Q e) : log_adds Q a b := by
  obtain ⟨l, e, p⟩ := h
  exact ⟨l, e, fun x hx => hpq x (p x hx)⟩

theorem hisi_clk_register_fixed_rate_loop_adds (P : Event → Prop)
    (hP : ∀ a b c d, P (Event.clk_hw_register_fixed_rate a b c d)) (env : Env)
    (clks : List hisi_fixed_rate_clock) (n i : Nat) (data : hisi_clock_data)
    (log : List Event) :
    log_adds P log (hisi_clk_register_fixed_rate_loop env clks n i data log).log := by
  induction n generalizing i data log with
  | zero => exact log_adds_refl P log
  | succ n ih =>
    rw [hisi_clk_register_fixed_rate_loop]
    split
    · exact log_adds_one log _ (hP _ _ _ _)
    · exact log_adds_trans (log_adds_one log _ (hP _ _ _ _)) (ih _ _ _)

theorem hisi_clk_register_fixed_rate_err_adds (P : Event → Prop)
    (hP : ∀ h, P (Event.clk_hw_unregister_fixed_rate h))
    (clks : List hisi_fixed_rate_clock) (data : hisi_clock_data) (i : Nat)
    (log : List Event) :
    log_adds P log (hisi_clk_register_fixed_rate_err clks data i log) := by
  induction i generalizing log with
  | zero => exact log_adds_refl P log
  | succ i ih =>
    rw [hisi_clk_register_fixed_rate_err]
    exact log_adds_trans (log_adds_one log _ (hP _)) (ih _)

theorem hisi_clk_register_fixed_rate_adds (P : Event → Prop)
    (hP1 : ∀ a b c d, P (Event.clk_hw_register_fixed_rate a b c d))
    (hP2 : ∀ h, P (Event.clk_hw_unregister_fixed_rate h)) (env : Env)
    (clks : List hisi_fixed_rate_clock) (num : Nat) (data : hisi_clock_data)
    (log : List Event) :
    log_adds P log (hisi_clk_register_fixed_rate env clks num data log).log := by
  have h := hisi_clk_register_fixed_rate_loop_adds P hP1 env clks num 0 data log
  unfold hisi_clk_register_fixed_rate
  dsimp only
  split
  · exact h
  · exact log_adds_trans h (hisi_clk_register_fixed_rate_err_adds P hP2 _ _ _ _)

theorem hisi_clk_register_fixed_factor_loop_adds (P : Event → Prop)
    (hP : ∀ a b c d e, P (Event.clk_hw_register_fixed_factor a b c d e)) (env : Env)
    (clks : List hisi_fixed_factor_clock) (n i : Nat) (data : hisi_clock_data)
    (log : List Event) :
    log_adds P log (hisi_clk_register_fixed_factor_loop env clks n i data log).log := by
  induction n generalizing i data log with
  | zero => exact log_adds_refl P log
  | succ n ih =>
    rw [hisi_clk_register_fixed_factor_loop]
    split
    · exact log_adds_one log _ (hP _ _ _ _ _)
    · exact log_adds_trans (log_adds_one log _ (hP _ _ _ _ _)) (ih _ _ _)

theorem hisi_clk_register_fixed_factor_err_adds (P : Event → Prop)
    (hP : ∀ h, P (Event.clk_hw_unregister_fixed_rate h))
    (clks : List hisi_fixed_factor_clock) (data : hisi_clock_data) (i : Nat)
    (log : List Event) :
    log_adds P log (hisi_clk_register_fixed_factor_err clks data i log) := by
  induction i generalizing log with
  | zero => exact log_adds_refl P log
  | succ i ih =>
    rw [hisi_clk_register_fixed_factor_err]
    exact log_adds_trans (log_adds_one log _ (hP _)) (ih _)

theorem hisi_clk_register_fixed_factor_adds (P : Event → Prop)
    (hP1 : ∀ a b c d e, P (Event.clk_hw_register_fixed_factor a b c d e))
    (hP2 : ∀ h, P (Event.clk_hw_unregister_fixed_rate h)) (env : Env)
    (clks : List hisi_fixed_factor_clock) (num : Nat) (data : hisi_clock_data)
    (log : List Event) :
    log_adds P log (hisi_clk_register_fixed_factor env clks num data log).log := by
  have h := hisi_clk_register_fixed_factor_loop_adds P hP1 env clks num 0 data log
  unfold hisi_clk_register_fixed_factor
  dsimp only
  split
  · exact h
  · exact log_adds_trans h (hisi_clk_register_fixed_factor_err_adds P hP2 _ _ _ _)

theorem hisi_clk_unregister_fixed_rate_loop_adds (P : Event → Prop)
    (hP : ∀ h, P (Event.clk_hw_unregister_fixed_rate h)) (data : hisi_clock_data)
    (clks : List hisi_fixed_rate_clock) (n i : Nat) (log : List Event) :
    log_adds P log (hisi_clk_unregister_fixed_rate_loop data clks n i log) := by
  induction n generalizing i log with
  | zero => exact log_adds_refl P log
  | succ n ih =>
    rw [hisi_clk_unregister_fixed_rate_loop]
    split
    · exact log_adds_trans (log_adds_one log _ (hP _)) (ih _ _)
    · exact ih _ _

theorem hisi_clk_unregister_fixed_factor_loop_adds (P : Event → Prop)
    (hP : ∀ h, P (Event.clk_hw_unregister_fixed_factor h)) (data : hisi_clock_data)
    (clks : List hisi_fixed_factor_clock) (n i : Nat) (log : List Event) :
    log_adds P log (hisi_clk_unregister_fixed_factor_loop data clks n i log) := by
  induction n generalizing i log with
  | zero => exact log_adds_refl P log
  | succ n ih =>
    rw [hisi_clk_unregister_fixed_factor_loop]
    split
    · exact log_adds_trans (log_adds_one log _ (hP _)) (ih _ _)
    · exact ih _ _

theorem hisi_clk_free_adds (P : Event → Prop)
    (hP1 : ∀ h, P (Event.clk_hw_unregister_fixed_rate h))
    (hP2 : ∀ h, P (Event.clk_hw_unregister_fixed_factor h))
    (hP3 : P Event.of_clk_del_provider) (hP4 : P Event.kfree_clk_data)
    (hP5 : P Event.kfree_data) (data : hisi_clock_data) (log : List Event) :
    log_adds P log (hisi_clk_free data log) := by
  have tail : ∀ l : List Event, log_adds P l
      (l ++ [Event.of_clk_del_provider, Event.kfree_clk_data, Event.kfree_data]) := by
    intro l
    refine ⟨_, rfl, ?_⟩
    intro e he
    simp only [List.mem_cons, List.mem_singleton, List.not_mem_nil, or_false] at he
    rcases he with rfl | rfl | rfl
    · exact hP3
    · exact hP4
    · exact hP5
  unfold hisi_clk_free
  dsimp only
  refine log_adds_trans ?_ (tail _)
  split
  · rename_i clks _
    have a : ∀ l, log_adds P l
        (if clks.fixed_rate_clks_num ≠ 0 then hisi_clk_unregister_fixed_rate data clks l
          else l) := by
      intro l
      split
      · exact hisi_clk_unregister_fixed_rate_loop_adds P hP1 _ _ _ _ _
      · exact log_adds_refl P l
    have b : ∀ l, log_adds P l
        (if clks.fixed_factor_clks_num ≠ 0 then hisi_clk_unregister_fixed_factor data clks l
          else l) := by
      intro l
      split
      · exact hisi_clk_unregister_fixed_factor_loop_adds P hP2 _ _ _ _ _
      · exact log_adds_refl P l
    exact log_adds_trans (a log) (b _)
  · exact log_adds_refl P log

theorem hisi_clk_init_adds (P : Event → Prop) (hP1 : P Event.of_iomap)
    (hP2 : P Event.kmalloc) (hP3 : ∀ n, P (Event.kzalloc n))
    (hP4 : P Event.of_clk_add_hw_provider) (hP5 : P Event.kfree_clk_data)
    (hP6 : P Event.kfree_data) (env : Env) (nr : Nat) (log : List Event) :
    log_adds P log (hisi_clk_init env nr log).2 := by
  have one : ∀ (l : List Event) (e : Event), P e → log_adds P l (l ++ [e]) :=
    fun l e h => log_adds_one l e h
  unfold hisi_clk_init
  dsimp only
  split
  · exact one _ _ hP1
  · split
    · exact log_adds_trans (one _ _ hP1) (one _ _ hP2)
    · split
      · exact log_adds_trans (log_adds_trans (log_adds_trans (one _ _ hP1) (one _ _ hP2))
          (one _ _ (hP3 nr))) (one _ _ hP6)
      · split
        · refine log_adds_trans (log_adds_trans (log_adds_trans (log_adds_trans (one _ _ hP1)
            (one _ _ hP2)) (one _ _ (hP3 nr))) (one _ _ hP4)) ⟨_, rfl, ?_⟩
          intro e he
          simp only [List.mem_cons, List.mem_singleton, List.not_mem_nil, or_false] at he
          rcases he with rfl | rfl
          · exact hP5
          · exact hP6
        · exact log_adds_trans (log_adds_trans (log_adds_trans (one _ _ hP1)
            (one _ _ hP2)) (one _ _ (hP3 nr))) (one _ _ hP4)

/-- When the mapping and the allocation of `data` succeed, the log of
`hisi_clk_init` starts with the mapping, `kmalloc` and the `kzalloc` of `nr`
slots. -/
theorem hisi_clk_init_prefix (env : Env) (nr : Nat) (log : List Event)
    (h1 : env.of_iomap ≠ 0) (h2 : env.kmalloc = true) :
    ∃ l, (hisi_clk_init env nr log).2 =
      log ++ [Event.of_iomap, Event.kmalloc, Event.kzalloc nr] ++ l := by
  unfold hisi_clk_init
  dsimp only
  rw [if_neg h1, if_neg (by simp [h2])]
  split
  · exact ⟨[Event.kfree_data], by simp⟩
  · split
    · exact ⟨[Event.of_clk_add_hw_provider, Event.kfree_clk_data, Event.kfree_data], by simp⟩
    · exact ⟨[Event.of_clk_add_hw_provider], by simp⟩

/-- The registry returned by `hisi_clk_init` has `num = nr`, `nr` slots, the
mapped base and no table. -/
theorem hisi_clk_init_some (env : Env) (nr : Nat) (log : List Event)
    (data : hisi_clock_data) (h : (hisi_clk_init env nr log).1 = some data) :
    data.clk_data.num = nr ∧ data.clk_data.hws.length = nr ∧ data.base = env.of_iomap ∧
      data.clks = none := by
  unfold hisi_clk_init at h
  dsimp only at h
  split at h
  · cases h
  · split at h
    · cases h
    · split at h
      · cases h
      · split at h
        · cases h
        · simp only [Option.some.injEq] at h
          subst h
          simp [hisi_clk_init_loop_length]

/-- Everything `hisi_clk_early_init` adds to the log comes after what
`hisi_clk_init` added. -/
theorem hisi_clk_early_init_after_init (env : Env) (np : device_node) (clks : hisi_clocks)
    (log : List Event) :
    log_adds (fun _ => True) (hisi_clk_init env (hisi_clocks_get_nr clks) log).2
      (hisi_clk_early_init env np clks log).log := by
  have T1 := fun (c : List hisi_fixed_rate_clock) n d l =>
    hisi_clk_register_fixed_rate_adds (fun _ => True) (fun _ _ _ _ => trivial)
      (fun _ => trivial) env c n d l
  have T2 := fun (c : List hisi_fixed_factor_clock) n d l =>
    hisi_clk_register_fixed_factor_adds (fun _ => True) (fun _ _ _ _ _ => trivial)
      (fun _ => trivial) env c n d l
  have T3 := fun d l => hisi_clk_free_adds (fun _ => True) (fun _ => trivial)
    (fun _ => trivial) trivial trivial trivial d l
  unfold hisi_clk_early_init
  split
  · rename_i h
    rw [h]
    exact log_adds_refl _ _
  · rename_i data log1 h
    rw [h]
    dsimp only
    split
    · exact log_adds_trans (T1 _ _ _ _) (T3 _ _)
    · split
      · exact log_adds_trans (log_adds_trans (T1 _ _ _ _) (T2 _ _ _ _)) (T3 _ _)
      · exact log_adds_trans (T1 _ _ _ _) (T2 _ _ _ _)

/-- When `hisi_clk_early_init` returns 0 the node holds a registry that has
the shape of the registry `hisi_clk_init` made, with the table attached. -/
theorem hisi_clk_early_init_ret_zero (env : Env) (np : device_node) (clks : hisi_clocks)
    (log : List Event) (h : (hisi_clk_early_init env np clks log).ret = 0) :
    ∃ data, (hisi_clk_early_init env np clks log).np.data = some data ∧
      data.clks = some clks ∧ data.base = env.of_iomap ∧
      data.clk_data.num = hisi_clocks_get_nr clks ∧
      data.clk_data.hws.length = hisi_clocks_get_nr clks := by
  unfold hisi_clk_early_init at h ⊢
  split at h
  · simp [ENOMEM] at h
  · rename_i data log1 hinit
    have hd := hisi_clk_init_some env _ log data (by rw [hinit])
    dsimp only at h ⊢
    split at h
    · rename_i hne
      exact absurd h hne
    · split at h
      · rename_i hne
        exact absurd h hne
      · rename_i hz1 hz2
        rw [if_neg hz1, if_neg hz2]
        refine ⟨_, rfl, ?_⟩
        have s1 := hisi_clk_register_fixed_rate_shape env clks.fixed_rate_clks
          clks.fixed_rate_clks_num { data with clks := some clks } log1
        have s2 := hisi_clk_register_fixed_factor_shape env clks.fixed_factor_clks
          clks.fixed_factor_clks_num
          (hisi_clk_register_fixed_rate env clks.fixed_rate_clks
            clks.fixed_rate_clks_num { data with clks := some clks } log1).data
          (hisi_clk_register_fixed_rate env clks.fixed_rate_clks
            clks.fixed_rate_clks_num { data with clks := some clks } log1).log
        have s := same_shape_trans s1 s2
        exact ⟨s.2.1, s.1.trans hd.2.2.1, s.2.2.1.trans hd.1, s.2.2.2.trans hd.2.1⟩

/-! ## Theorems: early initialisation -/

/-- C11: when the registry is set up and every leaf constructor succeeds,
`hisi_clk_early_init` returns 0 and attaches to the node (`np->data`) the new
registry with the descriptor table recorded in it; it has run the fixed-rate
constructors, in order, before the fixed-factor constructors; and, for ids that
are pairwise distinct and below the node count, the slot of every fixed-rate
and fixed-factor descriptor holds the handle made for that descriptor while
every other slot is still `ERR_PTR(-EPROBE_DEFER)`. -/
theorem hisi_clk_early_init_success (env : Env) (np : device_node) (clks : hisi_clocks)
    (log : List Event)
    (_hint : hisi_clocks_get_nr clks ≤ INT_MAX ∧ clks.fixed_rate_clks_num ≤ INT_MAX ∧
      clks.fixed_factor_clks_num ≤ INT_MAX)
    (_hlen : clks.fixed_rate_clks_num ≤ clks.fixed_rate_clks.length ∧
      clks.fixed_factor_clks_num ≤ clks.fixed_factor_clks.length)
    (h1 : env.of_iomap ≠ 0) (h2 : env.kmalloc = true) (h3 : env.kzalloc = true)
    (h4 : env.of_clk_add_hw_provider = 0)
    (hfr : ∀ i, i < clks.fixed_rate_clks_num →
      IS_ERR (env.clk_hw_register_fixed_rate i) = false)
    (hff : ∀ i, i < clks.fixed_factor_clks_num →
      IS_ERR (env.clk_hw_register_fixed_factor i) = false)
    (hdfr : ∀ a, a < clks.fixed_rate_clks_num → ∀ b, b < clks.fixed_rate_clks_num →
      (clks.fixed_rate_clks.getD a default).id = (clks.fixed_rate_clks.getD b default).id →
      a = b)
    (hdff : ∀ a, a < clks.fixed_factor_clks_num → ∀ b, b < clks.fixed_factor_clks_num →
      (clks.fixed_factor_clks.getD a default).id
        = (clks.fixed_factor_clks.getD b default).id → a = b)
    (hdx : ∀ a, a < clks.fixed_rate_clks_num → ∀ b, b < clks.fixed_factor_clks_num →
      (clks.fixed_rate_clks.getD a default).id ≠ (clks.fixed_factor_clks.getD b default).id)
    (hbfr : ∀ a, a < clks.fixed_rate_clks_num →
      (clks.fixed_rate_clks.getD a default).id < hisi_clocks_get_nr clks)
    (hbff : ∀ b, b < clks.fixed_factor_clks_num →
      (clks.fixed_factor_clks.getD b default).id < hisi_clocks_get_nr clks) :
    (hisi_clk_early_init env np clks log).ret = 0 ∧
    ∃ data, (hisi_clk_early_init env np clks log).np.data = some data ∧
      data.clks = some clks ∧ data.base = env.of_iomap ∧
      data.clk_data.num = hisi_clocks_get_nr clks ∧
      (hisi_clk_early_init env np clks log).log =
        log ++ [Event.of_iomap, Event.kmalloc, Event.kzalloc (hisi_clocks_get_nr clks),
            Event.of_clk_add_hw_provider]
          ++ (List.range clks.fixed_rate_clks_num).map (fun j =>
            Event.clk_hw_register_fixed_rate (clks.fixed_rate_clks.getD j default).name
              (clks.fixed_rate_clks.getD j default).parent_name
              (clks.fixed_rate_clks.getD j default).flags
              (clks.fixed_rate_clks.getD j default).fixed_rate)
          ++ (List.range clks.fixed_factor_clks_num).map (fun j =>
            Event.clk_hw_register_fixed_factor (clks.fixed_factor_clks.getD j default).name
              (clks.fixed_factor_clks.getD j default).parent_name
              (clks.fixed_factor_clks.getD j default).flags
              (clks.fixed_factor_clks.getD j default).mult
              (clks.fixed_factor_clks.getD j default).div) ∧
      (∀ a, a < clks.fixed_rate_clks_num →
        data.get_hw (clks.fixed_rate_clks.getD a default).id
          = env.clk_hw_register_fixed_rate a) ∧
      (∀ b, b < clks.fixed_factor_clks_num →
        data.get_hw (clks.fixed_factor_clks.getD b default).id
          = env.clk_hw_register_fixed_factor b) ∧
      (∀ id, id < hisi_clocks_get_nr clks →
        (∀ a, a < clks.fixed_rate_clks_num →
          (clks.fixed_rate_clks.getD a default).id ≠ id) →
        (∀ b, b < clks.fixed_factor_clks_num →
          (clks.fixed_factor_clks.getD b default).id ≠ id) →
        data.get_hw id = ERR_PTR (-EPROBE_DEFER)) := by
  obtain ⟨r1, r2, r3⟩ := hisi_clk_early_init_ok env np clks log h1 h2 h3 h4 hfr hff
  refine ⟨r1, _, r2, ?_, ?_, ?_, r3, ?_, ?_, ?_⟩
  · exact ((same_shape_trans (same_shape_foldl _ _ _ _) (same_shape_foldl _ _ _ _)).2.1)
  · exact ((same_shape_trans (same_shape_foldl _ _ _ _) (same_shape_foldl _ _ _ _)).1)
  · exact ((same_shape_trans (same_shape_foldl _ _ _ _) (same_shape_foldl _ _ _ _)).2.2.1)
  · intro a ha
    rw [foldl_set_hw_other _ _ _ _ _
      (fun j hj => Ne.symm (hdx a ha j (List.mem_range.mp hj)))]
    apply foldl_set_hw_same (fun j => (clks.fixed_rate_clks.getD j default).id)
      env.clk_hw_register_fixed_rate (List.range clks.fixed_rate_clks_num) _
      (fun x hx y hy => hdfr x (List.mem_range.mp hx) y (List.mem_range.mp hy))
      (List.nodup_range _) _ a (List.mem_range.mpr ha)
    intro x hx
    simp only [hisi_clk_init_loop_length, List.length_replicate]
    exact hbfr x (List.mem_range.mp hx)
  · intro b hb
    apply foldl_set_hw_same (fun j => (clks.fixed_factor_clks.getD j default).id)
      env.clk_hw_register_fixed_factor (List.range clks.fixed_factor_clks_num) _
      (fun x hx y hy => hdff x (List.mem_range.mp hx) y (List.mem_range.mp hy))
      (List.nodup_range _) _ b (List.mem_range.mpr hb)
    intro x hx
    rw [(same_shape_foldl _ _ _ _).2.2.2]
    simp only [hisi_clk_init_loop_length, List.length_replicate]
    exact hbff x (List.mem_range.mp hx)
  · intro id hid hnfr hnff
    rw [foldl_set_hw_other _ _ _ _ _ (fun j hj => hnff j (List.mem_range.mp hj)),
      foldl_set_hw_other _ _ _ _ _ (fun j hj => hnfr j (List.mem_range.mp hj))]
    simp only [hisi_clock_data.get_hw, List.getD_eq_getElem?_getD]
    rw [hisi_clk_init_loop_getElem?, if_pos (by simp; omega)]
    rfl

/-- A successful `hisi_clk_early_init` on the table `clocks_leaf3`: the value
returned and the three slots. -/
theorem hisi_clk_early_init_success_witness :
    (hisi_clk_early_init env_ok ⟨none⟩ clocks_leaf3 []).ret = 0 ∧
    ∃ data, (hisi_clk_early_init env_ok ⟨none⟩ clocks_leaf3 []).np.data = some data ∧
      data.clks = some clocks_leaf3 ∧ data.clk_data.hws = [1000, 1001, 2000] := by
  obtain ⟨h0, data, hd, hc, _, _, _, hfr, hff, _⟩ :=
    hisi_clk_early_init_success env_ok ⟨none⟩ clocks_leaf3 []
      (by decide) (by decide) (by decide) (by decide) (by decide) (by decide)
      (by decide) (by decide) (by decide) (by decide) (by decide) (by decide) (by decide)
  refine ⟨h0, data, hd, hc, ?_⟩
  have e : (hisi_clk_early_init env_ok ⟨none⟩ clocks_leaf3 []).np.data
      = some { base := 0x1000, clks := some clocks_leaf3,
               clk_data := { num := 3, hws := [1000, 1001, 2000] } } := by decide
  rw [e, Option.some.injEq] at hd
  rw [← hd]

/-- C17: `hisi_clocks_get_nr` returns the override `nr` when it is non-zero and
otherwise the sum of the eight descriptor counts (a `size_t` sum); and
`hisi_clk_early_init` allocates the registry with exactly that many slots:
the `kzalloc` it issues asks for that many, and the registry it attaches on
success has `num` equal to it and that many slots. -/
theorem hisi_clocks_get_nr_slots (env : Env) (np : device_node) (clks : hisi_clocks)
    (log : List Event) :
    (clks.nr ≠ 0 → hisi_clocks_get_nr clks = clks.nr) ∧
    (clks.nr = 0 →
      clks.fixed_rate_clks_num + clks.fixed_factor_clks_num + clks.mux_clks_num +
        clks.phase_clks_num + clks.divider_clks_num + clks.gate_clks_num +
        clks.gate_sep_clks_num + clks.customized_clks_num < 2 ^ BITS_PER_LONG →
      hisi_clocks_get_nr clks =
        clks.fixed_rate_clks_num + clks.fixed_factor_clks_num + clks.mux_clks_num +
        clks.phase_clks_num + clks.divider_clks_num + clks.gate_clks_num +
        clks.gate_sep_clks_num + clks.customized_clks_num) ∧
    (env.of_iomap ≠ 0 → env.kmalloc = true →
      ∃ l, (hisi_clk_early_init env np clks log).log =
        log ++ [Event.of_iomap, Event.kmalloc, Event.kzalloc (hisi_clocks_get_nr clks)]
          ++ l) ∧
    ((hisi_clk_early_init env np clks log).ret = 0 →
      ∃ data, (hisi_clk_early_init env np clks log).np.data = some data ∧
        data.clk_data.num = hisi_clocks_get_nr clks ∧
        data.clk_data.hws.length = hisi_clocks_get_nr clks) := by
  refine ⟨?_, ?_, ?_, ?_⟩
  · intro h
    simp [hisi_clocks_get_nr, h]
  · intro h hs
    simp only [hisi_clocks_get_nr, h, ne_eq, not_true_eq_false, if_false]
    exact Nat.mod_eq_of_lt hs
  · intro h1 h2
    obtain ⟨l1, e1⟩ := hisi_clk_init_prefix env (hisi_clocks_get_nr clks) log h1 h2
    obtain ⟨l2, e2, _⟩ := hisi_clk_early_init_after_init env np clks log
    exact ⟨l1 ++ l2, by rw [e2, e1, List.append_assoc]⟩
  · intro h
    obtain ⟨data, hd, _, _, hn, hl⟩ := hisi_clk_early_init_ret_zero env np clks log h
    exact ⟨data, hd, hn, hl⟩

/-- On the table `clocks_leaf3`, whose override is zero and whose counts are 2
and 1, the node count is 3 and `kzalloc` is asked for 3 slots. -/
theorem hisi_clocks_get_nr_slots_witness :
    hisi_clocks_get_nr clocks_leaf3 = 3 ∧
    ∃ l, (hisi_clk_early_init env_ok ⟨none⟩ clocks_leaf3 []).log =
      [] ++ [Event.of_iomap, Event.kmalloc, Event.kzalloc (hisi_clocks_get_nr clocks_leaf3)]
        ++ l :=
  ⟨((hisi_clocks_get_nr_slots env_ok ⟨none⟩ clocks_leaf3 []).2.1 (by decide)
      (by decide)).trans (by decide),
    (hisi_clocks_get_nr_slots env_ok ⟨none⟩ clocks_leaf3 []).2.2.1 (by decide) (by decide)⟩

/-! ## Lemmas: release of the registry -/

theorem slot_present_iff (clk : Int) :
    (clk ≠ 0 ∧ IS_ERR clk = false) ↔ slot_present clk = true := by
  unfold slot_present
  cases h : IS_ERR clk <;> simp

theorem hisi_clk_unregister_fixed_rate_loop_eq (data : hisi_clock_data)
    (clks : List hisi_fixed_rate_clock) (n i : Nat) (log : List Event) :
    hisi_clk_unregister_fixed_rate_loop data clks n i log =
      log ++ ((List.range' i n).filter
          (fun j => slot_present (data.get_hw (clks.getD j default).id))).map
        (fun j => Event.clk_hw_unregister_fixed_rate
          (data.get_hw (clks.getD j default).id)) := by
  induction n generalizing i log with
  | zero => simp [hisi_clk_unregister_fixed_rate_loop]
  | succ n ih =>
    rw [hisi_clk_unregister_fixed_rate_loop, List.range'_succ]
    by_cases h : slot_present (data.get_hw (clks.getD i default).id) = true
    · rw [if_pos ((slot_present_iff _).mpr h), ih,
        List.filter_cons_of_pos
          (p := fun j => slot_present (data.get_hw (clks.getD j default).id)) h,
        List.map_cons, List.append_assoc, List.singleton_append]
    · rw [if_neg (fun hc => h ((slot_present_iff _).mp hc)), ih,
        List.filter_cons_of_neg
          (p := fun j => slot_present (data.get_hw (clks.getD j default).id)) h]

theorem hisi_clk_unregister_fixed_factor_loop_eq (data : hisi_clock_data)
    (clks : List hisi_fixed_factor_clock) (n i : Nat) (log : List Event) :
    hisi_clk_unregister_fixed_factor_loop data clks n i log =
      log ++ ((List.range' i n).filter
          (fun j => slot_present (data.get_hw (clks.getD j default).id))).map
        (fun j => Event.clk_hw_unregister_fixed_factor
          (data.get_hw (clks.getD j default).id)) := by
  induction n generalizing i log with
  | zero => simp [hisi_clk_unregister_fixed_factor_loop]
  | succ n ih =>
    rw [hisi_clk_unregister_fixed_factor_loop, List.range'_succ]
    by_cases h : slot_present (data.get_hw (clks.getD i default).id) = true
    · rw [if_pos ((slot_present_iff _).mpr h), ih,
        List.filter_cons_of_pos
          (p := fun j => slot_present (data.get_hw (clks.getD j default).id)) h,
        List.map_cons, List.append_assoc, List.singleton_append]
    · rw [if_neg (fun hc => h ((slot_present_iff _).mp hc)), ih,
        List.filter_cons_of_neg
          (p := fun j => slot_present (data.get_hw (clks.getD j default).id)) h]

/-- The log of `hisi_clk_free` on a registry with the table `clks`. -/
theorem hisi_clk_free_eq (data : hisi_clock_data) (clks : hisi_clocks) (log : List Event)
    (hc : data.clks = some clks) :
    hisi_clk_free data log =
      log ++ leaf_unregister_events data clks
        ++ [Event.of_clk_del_provider, Event.kfree_clk_data, Event.kfree_data] := by
  have e1 : ∀ l, (if clks.fixed_rate_clks_num ≠ 0
        then hisi_clk_unregister_fixed_rate data clks l else l) =
      l ++ ((List.range clks.fixed_rate_clks_num).filter
          (fun j => slot_present
            (data.get_hw (clks.fixed_rate_clks.getD j default).id))).map
        (fun j => Event.clk_hw_unregister_fixed_rate
          (data.get_hw (clks.fixed_rate_clks.getD j default).id)) := by
    intro l
    split
    · rw [hisi_clk_unregister_fixed_rate, hisi_clk_unregister_fixed_rate_loop_eq,
        ← List.range_eq_range']
    · rename_i h
      have : clks.fixed_rate_clks_num = 0 := by omega
      simp [this]
  have e2 : ∀ l, (if clks.fixed_factor_clks_num ≠ 0
        then hisi_clk_unregister_fixed_factor data clks l else l) =
      l ++ ((List.range clks.fixed_factor_clks_num).filter
          (fun j => slot_present
            (data.get_hw (clks.fixed_factor_clks.getD j default).id))).map
        (fun j => Event.clk_hw_unregister_fixed_factor
          (data.get_hw (clks.fixed_factor_clks.getD j default).id)) := by
    intro l
    split
    · rw [hisi_clk_unregister_fixed_factor, hisi_clk_unregister_fixed_factor_loop_eq,
        ← List.range_eq_range']
    · rename_i h
      have : clks.fixed_factor_clks_num = 0 := by omega
      simp [this]
  unfold hisi_clk_free
  simp only [hc, e1, e2, leaf_unregister_events, List.append_assoc]

theorem slot_present_lt (data : hisi_clock_data) (id : Nat)
    (h : slot_present (data.get_hw id) = true) : id < data.clk_data.hws.length := by
  by_contra hge
  have : data.get_hw id = 0 := by
    simp only [hisi_clock_data.get_hw, List.getD_eq_getElem?_getD]
    rw [List.getElem?_eq_none (by omega)]
    rfl
  rw [this] at h
  exact absurd h (by decide)

/-! ## Theorems: release of the registry -/

/-- C16: on a registry whose table has pairwise distinct leaf ids,
`hisi_clk_free` unregisters exactly the handles found present (neither `NULL`
nor an error pointer) in the slots of the fixed-rate and fixed-factor
descriptors of the table, in table order, and then releases the table. When
distinct slots hold distinct handles, no handle is unregistered twice, and
the present handle of a slot whose id is not the id of a leaf descriptor
(as are the ids of the mux, phase, divider, gate, gate-sep and custom
descriptors when ids are pairwise distinct across kinds) is never
unregistered. -/
theorem hisi_clk_free_unregisters_leaves (data : hisi_clock_data) (clks : hisi_clocks)
    (log : List Event) (hc : data.clks = some clks)
    (_hint : clks.fixed_rate_clks_num ≤ INT_MAX ∧ clks.fixed_factor_clks_num ≤ INT_MAX)
    (hdfr : ∀ a, a < clks.fixed_rate_clks_num → ∀ b, b < clks.fixed_rate_clks_num →
      (clks.fixed_rate_clks.getD a default).id = (clks.fixed_rate_clks.getD b default).id →
      a = b)
    (hdff : ∀ a, a < clks.fixed_factor_clks_num → ∀ b, b < clks.fixed_factor_clks_num →
      (clks.fixed_factor_clks.getD a default).id
        = (clks.fixed_factor_clks.getD b default).id → a = b)
    (hinj : ∀ id1, id1 < data.clk_data.hws.length → ∀ id2, id2 < data.clk_data.hws.length →
      id1 ≠ id2 → slot_present (data.get_hw id1) = true →
      data.get_hw id1 ≠ data.get_hw id2) :
    hisi_clk_free data log =
      log ++ leaf_unregister_events data clks
        ++ [Event.of_clk_del_provider, Event.kfree_clk_data, Event.kfree_data] ∧
    (leaf_unregister_events data clks).Nodup ∧
    (∀ id, (∀ a, a < clks.fixed_rate_clks_num →
        (clks.fixed_rate_clks.getD a default).id ≠ id) →
      (∀ b, b < clks.fixed_factor_clks_num →
        (clks.fixed_factor_clks.getD b default).id ≠ id) →
      slot_present (data.get_hw id) = true →
      Event.clk_hw_unregister_fixed_rate (data.get_hw id) ∉ leaf_unregister_events data clks ∧
      Event.clk_hw_unregister_fixed_factor (data.get_hw id)
        ∉ leaf_unregister_events data clks) := by
  have key : ∀ id1 id2, id1 ≠ id2 → slot_present (data.get_hw id1) = true →
      data.get_hw id1 ≠ data.get_hw id2 := by
    intro id1 id2 hne hp heq
    have h1 := slot_present_lt data id1 hp
    have h2 := slot_present_lt data id2 (heq ▸ hp)
    exact hinj id1 h1 id2 h2 hne hp heq
  refine ⟨hisi_clk_free_eq data clks log hc, ?_, ?_⟩
  · unfold leaf_unregister_events
    rw [List.nodup_append]
    refine ⟨?_, ?_, ?_⟩
    · apply List.Nodup.map_on _ ((List.nodup_range _).filter _)
      intro x hx y hy hxy
      have hx1 := List.mem_range.mp (List.mem_filter.mp hx).1
      have hy1 := List.mem_range.mp (List.mem_filter.mp hy).1
      have hxp := (List.mem_filter.mp hx).2
      simp only [Event.clk_hw_unregister_fixed_rate.injEq] at hxy
      by_contra hne
      exact key _ _ (fun hid => hne (hdfr x hx1 y hy1 hid)) hxp hxy
    · apply List.Nodup.map_on _ ((List.nodup_range _).filter _)
      intro x hx y hy hxy
      have hx1 := List.mem_range.mp (List.mem_filter.mp hx).1
      have hy1 := List.mem_range.mp (List.mem_filter.mp hy).1
      have hxp := (List.mem_filter.mp hx).2
      simp only [Event.clk_hw_unregister_fixed_factor.injEq] at hxy
      by_contra hne
      exact key _ _ (fun hid => hne (hdff x hx1 y hy1 hid)) hxp hxy
    · intro e h1 h2
      obtain ⟨x, _, rfl⟩ := List.mem_map.mp h1
      obtain ⟨y, _, hy⟩ := List.mem_map.mp h2
      cases hy
  · intro id hnfr hnff hp
    unfold leaf_unregister_events
    constructor
    · intro hmem
      rcases List.mem_append.mp hmem with h | h
      · obtain ⟨x, hx, hxe⟩ := List.mem_map.mp h
        have hx1 := List.mem_range.mp (List.mem_filter.mp hx).1
        simp only [Event.clk_hw_unregister_fixed_rate.injEq] at hxe
        exact key id _ (Ne.symm (hnfr x hx1)) hp hxe.symm
      · obtain ⟨x, _, hxe⟩ := List.mem_map.mp h
        cases hxe
    · intro hmem
      rcases List.mem_append.mp hmem with h | h
      · obtain ⟨x, _, hxe⟩ := List.mem_map.mp h
        cases hxe
      · obtain ⟨x, hx, hxe⟩ := List.mem_map.mp h
        have hx1 := List.mem_range.mp (List.mem_filter.mp hx).1
        simp only [Event.clk_hw_unregister_fixed_factor.injEq] at hxe
        exact key id _ (Ne.symm (hnff x hx1)) hp hxe.symm

/-- The release of the registry `registry4`: the handles 1000 and 2000 of the
fixed-rate slot 0 and the fixed-factor slot 2 are unregistered, the deferred
slot 1 is skipped and the mux handle 3000 of slot 3 is left alone. -/
theorem hisi_clk_free_unregisters_leaves_witness :
    hisi_clk_free registry4 [] =
      [Event.clk_hw_unregister_fixed_rate 1000, Event.clk_hw_unregister_fixed_factor 2000,
        Event.of_clk_del_provider, Event.kfree_clk_data, Event.kfree_data] ∧
    Event.clk_hw_unregister_fixed_rate 3000 ∉ leaf_unregister_events registry4 clocks_mixed :=
  ⟨(hisi_clk_free_unregisters_leaves registry4 clocks_mixed [] rfl (by decide) (by decide)
      (by decide) (by decide)).1.trans (by decide),
    ((hisi_clk_free_unregisters_leaves registry4 clocks_mixed [] rfl (by decide) (by decide)
      (by decide) (by decide)).2.2 3 (by decide) (by decide) (by decide)).1⟩

/-! ## Lemmas: generic node registration -/

/-- A loop made by `hisi_clk_register_fn` up to the first failing constructor,
at index `k`. -/
theorem hisi_clk_register_fn_loop_fail {α : Type} [Inhabited α] (ctor : Nat → Int)
    (call : Nat → α → Event) (id : α → Nat) (alias_of : α → Option String)
    (clks : List α) (base : Nat) (n i k : Nat) (data : hisi_clock_data) (log : List Event)
    (hik : i ≤ k) (hkn : k < i + n)
    (hok : ∀ j, i ≤ j → j < k → IS_ERR (ctor j) = false)
    (hfail : IS_ERR (ctor k) = true) :
    hisi_clk_register_fn_loop ctor call id alias_of clks base n i data log =
      { ret := PTR_ERR (ctor k),
        data := (List.range' i (k - i)).foldl
          (fun d j => d.set_hw (id (clks.getD j default)) (ctor j)) data,
        log := log ++ (List.range' i (k - i)).flatMap
            (register_fn_events ctor call alias_of clks base)
          ++ [call base (clks.getD k default)] } := by
  induction n generalizing i data log with
  | zero => omega
  | succ n ih =>
    rw [hisi_clk_register_fn_loop]
    by_cases hi : i = k
    · subst hi
      simp only [hfail, if_true, Nat.sub_self, List.range', List.foldl_nil,
        List.flatMap_nil, List.append_nil]
    · have hlt : i < k := by omega
      have e1 : k - i = (k - (i + 1)) + 1 := by omega
      simp only [hok i (Nat.le_refl i) hlt, Bool.false_eq_true, if_false]
      rw [ih (i + 1) _ _ (by omega) (by omega) (fun j h1 h2 => hok j (by omega) h2),
        e1, List.range'_succ, List.foldl_cons, List.flatMap_cons]
      have e2 : (match alias_of (clks.getD i default) with
          | some a => log ++ [call base (clks.getD i default)]
              ++ [Event.clk_hw_register_clkdev (ctor i) a]
          | none => log ++ [call base (clks.getD i default)])
          = log ++ register_fn_events ctor call alias_of clks base i := by
        unfold register_fn_events
        cases alias_of (clks.getD i default) <;> simp
      rw [e2]
      simp only [List.append_assoc]

/-- A loop made by `hisi_clk_register_fn` when every constructor succeeds. -/
theorem hisi_clk_register_fn_loop_ok {α : Type} [Inhabited α] (ctor : Nat → Int)
    (call : Nat → α → Event) (id : α → Nat) (alias_of : α → Option String)
    (clks : List α) (base : Nat) (n i : Nat) (data : hisi_clock_data) (log : List Event)
    (hok : ∀ j, i ≤ j → j < i + n → IS_ERR (ctor j) = false) :
    hisi_clk_register_fn_loop ctor call id alias_of clks base n i data log =
      { ret := 0,
        data := (List.range' i n).foldl
          (fun d j => d.set_hw (id (clks.getD j default)) (ctor j)) data,
        log := log ++ (List.range' i n).flatMap
            (register_fn_events ctor call alias_of clks base) } := by
  induction n generalizing i data log with
  | zero => simp [hisi_clk_register_fn_loop]
  | succ n ih =>
    rw [hisi_clk_register_fn_loop]
    simp only [hok i (Nat.le_refl i) (by omega), Bool.false_eq_true, if_false]
    rw [ih (i + 1) _ _ (fun j h1 h2 => hok j (by omega) (by omega)),
      List.range'_succ, List.foldl_cons, List.flatMap_cons]
    have e2 : (match alias_of (clks.getD i default) with
        | some a => log ++ [call base (clks.getD i default)]
            ++ [Event.clk_hw_register_clkdev (ctor i) a]
        | none => log ++ [call base (clks.getD i default)])
        = log ++ register_fn_events ctor call alias_of clks base i := by
      unfold register_fn_events
      cases alias_of (clks.getD i default) <;> simp
    rw [e2]
    simp only [List.append_assoc]

/-- The loop of `hisi_clk_register_phase` is the loop of `hisi_clk_register_fn`
for descriptors without alias. -/
theorem hisi_clk_register_phase_loop_eq (env : Env) (clks : List hisi_phase_clock)
    (base n i : Nat) (data : hisi_clock_data) (log : List Event) :
    hisi_clk_register_phase_loop env clks base n i data log =
      hisi_clk_register_fn_loop env.devm_clk_hw_register_hisi_phase call_register_phase
        (fun p_clk => p_clk.id) (fun _ => none) clks base n i data log := by
  induction n generalizing i data log with
  | zero => rfl
  | succ n ih =>
    rw [hisi_clk_register_phase_loop, hisi_clk_register_fn_loop]
    simp only [ih]
    rfl

/-- Every function made by `hisi_clk_register_fn` meets the contract of a
generic registration routine. -/
theorem hisi_clk_register_fn_spec {α : Type} [Inhabited α] (ctor : Nat → Int)
    (call : Nat → α → Event) (id : α → Nat) (alias_of : α → Option String) :
    register_routine_spec (hisi_clk_register_fn ctor call id alias_of) ctor call id
      alias_of := by
  intro clks num data log _ _ hdist hbound
  constructor
  · intro k hk hok hfail
    have hloop := hisi_clk_register_fn_loop_fail ctor call id alias_of clks data.base num 0 k
      data log (Nat.zero_le k) (by omega) (fun j _ h => hok j h) hfail
    simp only [Nat.sub_zero, ← List.range_eq_range'] at hloop
    simp only [hisi_clk_register_fn, hloop]
    refine ⟨trivial, trivial, ?_⟩
    intro i hi
    exact foldl_set_hw_same (fun j => id (clks.getD j default)) ctor (List.range k) data
      (fun a ha b hb => hdist a (by have := List.mem_range.mp ha; omega) b
        (by have := List.mem_range.mp hb; omega))
      (List.nodup_range k)
      (fun a ha => hbound a (by have := List.mem_range.mp ha; omega)) i
      (List.mem_range.mpr hi)
  · intro hok
    have hloop := hisi_clk_register_fn_loop_ok ctor call id alias_of clks data.base num 0
      data log (fun j _ h => hok j (by omega))
    simp only [← List.range_eq_range'] at hloop
    simp only [hisi_clk_register_fn, hloop]
    refine ⟨trivial, trivial, ?_⟩
    intro i hi
    exact foldl_set_hw_same (fun j => id (clks.getD j default)) ctor (List.range num) data
      (fun a ha b hb => hdist a (List.mem_range.mp ha) b (List.mem_range.mp hb))
      (List.nodup_range num)
      (fun a ha => hbound a (List.mem_range.mp ha)) i (List.mem_range.mpr hi)

theorem hisi_clk_register_phase_eq (env : Env) (clks : List hisi_phase_clock) (num : Nat)
    (data : hisi_clock_data) (log : List Event) :
    hisi_clk_register_phase env clks num data log =
      hisi_clk_register_fn env.devm_clk_hw_register_hisi_phase call_register_phase
        (fun p_clk => p_clk.id) (fun _ => none) clks num data log := by
  unfold hisi_clk_register_phase hisi_clk_register_fn
  exact hisi_clk_register_phase_loop_eq env clks data.base num 0 data log

/-! ## Theorems: generic node registration -/

/-- C12: each generic registration routine (`hisi_clk_register_mux`, `_phase`,
`_divider`, `_gate`, `_gate_sep`, `hi6220_clk_register_divider`) meets the
contract `register_routine_spec`: if the constructor fails for the descriptor
at index `k`, the routine returns that constructor's error at once, attempts
no descriptor after `k`, unregisters nothing, and the slots of the descriptors
before `k` hold the handles constructed for them; if no constructor fails it
returns 0 and every descriptor's slot holds its handle. -/
theorem hisi_clk_register_generic (env : Env) :
    register_routine_spec (hisi_clk_register_mux env) env.devm_clk_hw_register_mux
      call_register_mux (fun p_clk => p_clk.id) (fun p_clk => p_clk.alias_name) ∧
    register_routine_spec (hisi_clk_register_phase env) env.devm_clk_hw_register_hisi_phase
      call_register_phase (fun p_clk => p_clk.id) (fun _ => none) ∧
    register_routine_spec (hisi_clk_register_divider env)
      env.devm_clk_hw_register_divider_table call_register_divider (fun p_clk => p_clk.id)
      (fun p_clk => p_clk.alias_name) ∧
    register_routine_spec (hisi_clk_register_gate env) env.devm_clk_hw_register_gate
      call_register_gate (fun p_clk => p_clk.id) (fun p_clk => p_clk.alias_name) ∧
    register_routine_spec (hisi_clk_register_gate_sep env)
      env.devm_clk_hw_register_hisi_gate_sep call_register_gate_sep (fun p_clk => p_clk.id)
      (fun p_clk => p_clk.alias_name) ∧
    register_routine_spec (hi6220_clk_register_divider env)
      env.devm_clk_hw_register_hi6220_divider call_register_hi6220_divider
      (fun p_clk => p_clk.id) (fun p_clk => p_clk.alias_name) := by
  refine ⟨hisi_clk_register_fn_spec _ _ _ _, ?_, hisi_clk_register_fn_spec _ _ _ _,
    hisi_clk_register_fn_spec _ _ _ _, hisi_clk_register_fn_spec _ _ _ _,
    hisi_clk_register_fn_spec _ _ _ _⟩
  have h := hisi_clk_register_fn_spec env.devm_clk_hw_register_hisi_phase call_register_phase
    (fun p_clk => p_clk.id) (fun _ => none)
  intro clks num data log
  rw [hisi_clk_register_phase_eq]
  exact h clks num data log

/-- The multiplexer routine on the two descriptors of `mux2` when the second
constructor fails: `-ENOMEM` is returned, the log has the first constructor
call, the alias registration of its handle and the failing call, and slot 3
holds the first handle. -/
theorem hisi_clk_register_generic_witness :
    (hisi_clk_register_mux env_mux_fail_at_1 mux2 2 deferred5 []).ret = -ENOMEM ∧
    (hisi_clk_register_mux env_mux_fail_at_1 mux2 2 deferred5 []).log =
      [Event.devm_clk_hw_register_mux "sel" 0x1010 0 1,
       Event.clk_hw_register_clkdev 3000 "sel_alias",
       Event.devm_clk_hw_register_mux "sel2" 0x1010 1 1] ∧
    (hisi_clk_register_mux env_mux_fail_at_1 mux2 2 deferred5 []).data.get_hw 3 = 3000 :=
  ⟨(((hisi_clk_register_generic env_mux_fail_at_1).1 mux2 2 deferred5 [] (by decide)
      (by decide) (by decide) (by decide)).1 1 (by decide) (by decide) (by decide)).1,
   (((hisi_clk_register_generic env_mux_fail_at_1).1 mux2 2 deferred5 [] (by decide)
      (by decide) (by decide) (by decide)).1 1 (by decide) (by decide) (by decide)).2.1.trans
      (by decide),
   (((hisi_clk_register_generic env_mux_fail_at_1).1 mux2 2 deferred5 [] (by decide)
      (by decide) (by decide) (by decide)).1 1 (by decide) (by decide) (by decide)).2.2 0
      (by decide)⟩

/-! ## Lemmas: the platform driver helpers -/

/-- `hisi_clk_register` is the run of the enabled kinds in the fixed order. -/
theorem hisi_clk_register_eq_run_batches (env : Env) (clks : hisi_clocks)
    (data : hisi_clock_data) (log : List Event) :
    hisi_clk_register env clks data log =
      run_batches env clks (register_order.filter (batch_enabled clks)) data log := by
  unfold hisi_clk_register register_order
  by_cases h1 : clks.mux_clks_num = 0 <;> by_cases h2 : clks.phase_clks_num = 0 <;>
    by_cases h3 : clks.divider_clks_num = 0 <;> by_cases h4 : clks.gate_clks_num = 0 <;>
    by_cases h5 : clks.gate_sep_clks_num = 0 <;>
    by_cases h6 : clks.clk_register_customized = true <;>
    by_cases h7 : clks.customized_clks_num = 0 <;>
    simp [List.filter, batch_enabled, run_batches, run_batch, h1, h2, h3, h4, h5, h6, h7]

theorem hisi_clk_register_fn_loop_adds {α : Type} [Inhabited α] (P : Event → Prop)
    (ctor : Nat → Int) (call : Nat → α → Event) (id : α → Nat)
    (alias_of : α → Option String) (hP1 : ∀ b p, P (call b p))
    (hP2 : ∀ h a, P (Event.clk_hw_register_clkdev h a))
    (clks : List α) (base : Nat) (n i : Nat) (data : hisi_clock_data) (log : List Event) :
    log_adds P log (hisi_clk_register_fn_loop ctor call id alias_of clks base n i data log).log := by
  induction n generalizing i data log with
  | zero => exact log_adds_refl P log
  | succ n ih =>
    rw [hisi_clk_register_fn_loop]
    dsimp only
    split
    · exact log_adds_one log _ (hP1 _ _)
    · refine log_adds_trans ?_ (ih _ _ _)
      split
      · exact log_adds_trans (log_adds_one log _ (hP1 _ _)) (log_adds_one _ _ (hP2 _ _))
      · exact log_adds_one log _ (hP1 _ _)

theorem run_batch_adds (env : Env) (clks : hisi_clocks) (k : clk_kind)
    (data : hisi_clock_data) (log : List Event) :
    log_adds is_nonleaf_register log (run_batch env clks k data log).log := by
  cases k
  · exact hisi_clk_register_fn_loop_adds _ _ _ _ _ (fun _ _ => trivial) (fun _ _ => trivial)
      _ _ _ _ _ _
  · show log_adds is_nonleaf_register log
      (hisi_clk_register_phase env clks.phase_clks clks.phase_clks_num data log).log
    rw [hisi_clk_register_phase_eq]
    exact hisi_clk_register_fn_loop_adds _ _ _ _ _ (fun _ _ => trivial) (fun _ _ => trivial)
      _ _ _ _ _ _
  · exact hisi_clk_register_fn_loop_adds _ _ _ _ _ (fun _ _ => trivial) (fun _ _ => trivial)
      _ _ _ _ _ _
  · exact hisi_clk_register_fn_loop_adds _ _ _ _ _ (fun _ _ => trivial) (fun _ _ => trivial)
      _ _ _ _ _ _
  · exact hisi_clk_register_fn_loop_adds _ _ _ _ _ (fun _ _ => trivial) (fun _ _ => trivial)
      _ _ _ _ _ _
  · exact log_adds_one log _ trivial

theorem run_batches_adds (env : Env) (clks : hisi_clocks) (ks : List clk_kind)
    (data : hisi_clock_data) (log : List Event) :
    log_adds is_nonleaf_register log (run_batches env clks ks data log).log := by
  induction ks generalizing data log with
  | nil => exact log_adds_refl _ log
  | cons k ks ih =>
    rw [run_batches]
    split
    · exact run_batch_adds env clks k data log
    · exact log_adds_trans (run_batch_adds env clks k data log) (ih _ _)

theorem hisi_clk_register_adds (env : Env) (clks : hisi_clocks) (data : hisi_clock_data)
    (log : List Event) :
    log_adds is_nonleaf_register log (hisi_clk_register env clks data log).log := by
  rw [hisi_clk_register_eq_run_batches]
  exact run_batches_adds env clks _ data log

theorem call_prologue_adds (P : Event → Prop) (hP : P Event.prologue) (env : Env)
    (clks : hisi_clocks) (data : hisi_clock_data) (log : List Event) :
    log_adds P log (call_prologue env clks data log).log := by
  unfold call_prologue
  split
  · exact log_adds_one log _ hP
  · exact log_adds_refl P log

theorem probe_failing_step_adds (P : Event → Prop) (hP1 : P Event.prologue)
    (hP2 : ∀ e, is_nonleaf_register e → P e) (env : Env) (clks : hisi_clocks)
    (data : hisi_clock_data) (log : List Event) :
    log_adds P log (probe_failing_step env clks data log).log := by
  unfold probe_failing_step
  split
  · exact call_prologue_adds P hP1 env clks data log
  · exact log_adds_trans (call_prologue_adds P hP1 env clks data log)
      (log_adds_mono (hisi_clk_register_adds env clks _ _) hP2)

/-- The body of `hisi_clk_probe` when it fails: it returns the error of the
failing step, runs `hisi_clk_free` on the registry as that step left it, and
leaves the device as it was. -/
theorem hisi_clk_probe_claimed_fail (env : Env) (clks : hisi_clocks)
    (pdev : platform_device) (data : hisi_clock_data) (log : List Event)
    (h : (hisi_clk_probe_claimed env clks pdev data log).ret ≠ 0) :
    (probe_failing_step env clks data log).ret ≠ 0 ∧
    (hisi_clk_probe_claimed env clks pdev data log).ret
      = (probe_failing_step env clks data log).ret ∧
    (hisi_clk_probe_claimed env clks pdev data log).log
      = hisi_clk_free (probe_failing_step env clks data log).data
          (probe_failing_step env clks data log).log ∧
    (hisi_clk_probe_claimed env clks pdev data log).pdev = pdev := by
  unfold hisi_clk_probe_claimed at h ⊢
  unfold probe_failing_step
  dsimp only at h ⊢
  by_cases h1 : (call_prologue env clks data log).ret ≠ 0
  · rw [if_pos h1]
    rw [if_pos h1]
    exact ⟨h1, rfl, rfl, rfl⟩
  · rw [if_neg h1] at h ⊢
    rw [if_neg h1]
    by_cases h2 : (hisi_clk_register env clks (call_prologue env clks data log).data
        (call_prologue env clks data log).log).ret ≠ 0
    · rw [if_pos h2]
      exact ⟨h2, rfl, rfl, rfl⟩
    · rw [if_neg h2] at h
      exact absurd rfl h

/-- The body of `hisi_clk_probe` never touches the node. -/
theorem hisi_clk_probe_claimed_of_node (env : Env) (clks : hisi_clocks)
    (pdev : platform_device) (data : hisi_clock_data) (log : List Event) :
    (hisi_clk_probe_claimed env clks pdev data log).pdev.of_node = pdev.of_node := by
  unfold hisi_clk_probe_claimed
  dsimp only
  split
  · rfl
  · split <;> rfl

/-- The body of `hisi_clk_probe` calls no leaf constructor. -/
theorem hisi_clk_probe_claimed_adds (env : Env) (clks : hisi_clocks)
    (pdev : platform_device) (data : hisi_clock_data) (log : List Event) :
    log_adds (fun e => is_leaf_register e = false) log
      (hisi_clk_probe_claimed env clks pdev data log).log := by
  have hn : ∀ e, is_nonleaf_register e → is_leaf_register e = false := by
    intro e he
    cases e <;> first | rfl | exact absurd he (by simp [is_nonleaf_register])
  have F := fun d l => hisi_clk_free_adds (fun e => is_leaf_register e = false)
    (fun _ => rfl) (fun _ => rfl) rfl rfl rfl d l
  have A := call_prologue_adds (fun e => is_leaf_register e = false) rfl env clks data log
  have B := fun d l => log_adds_mono (hisi_clk_register_adds env clks d l) hn
  unfold hisi_clk_probe_claimed
  dsimp only
  split
  · exact log_adds_trans A (F _ _)
  · split
    · exact log_adds_trans (log_adds_trans A (B _ _)) (F _ _)
    · exact log_adds_trans (log_adds_trans A (B _ _)) (log_adds_one _ _ rfl)

/-! ## Theorems: order of the non-leaf registration -/

/-- C13: for every descriptor table, `hisi_clk_register` registers the batches
in the fixed order multiplexers, phase nodes, dividers, gates, separate-edge
gates, custom nodes: what it does is the run, in that order, of the kinds with
a non-zero count (the custom kind also needing its callback), stopped at the
first batch that returns an error, whose error it returns. -/
theorem hisi_clk_register_order (env : Env) (clks : hisi_clocks) (data : hisi_clock_data)
    (log : List Event) :
    hisi_clk_register env clks data log =
      run_batches env clks (register_order.filter (batch_enabled clks)) data log :=
  hisi_clk_register_eq_run_batches env clks data log

/-! ## Theorems: probe -/

/-- C14: `hisi_clk_probe` claims the registry exactly once. If a registry is
attached to the node it is used as is, and the probe calls no leaf constructor.
If none is attached, `hisi_clk_early_init` is run inline with the matched
table: when it fails its error is returned and nothing more is done, when it
succeeds the probe goes on with the registry it attached. In every case where
a registry was obtained, `np->data` is `NULL` when the probe returns, whether
it succeeds or fails. -/
theorem hisi_clk_probe_claims_once (env : Env) (pdev : platform_device) (log : List Event)
    (clks : hisi_clocks) (hm : env.of_device_get_match_data = some clks) :
    (∀ data, pdev.of_node.data = some data →
      hisi_clk_probe env pdev log =
        hisi_clk_probe_claimed env clks { pdev with of_node := { data := none } } data log ∧
      log_adds (fun e => is_leaf_register e = false) log (hisi_clk_probe env pdev log).log ∧
      (hisi_clk_probe env pdev log).pdev.of_node.data = none) ∧
    (pdev.of_node.data = none →
      ((hisi_clk_early_init env pdev.of_node clks log).ret ≠ 0 →
        (hisi_clk_probe env pdev log).ret = (hisi_clk_early_init env pdev.of_node clks log).ret ∧
        (hisi_clk_probe env pdev log).log
          = (hisi_clk_early_init env pdev.of_node clks log).log) ∧
      ((hisi_clk_early_init env pdev.of_node clks log).ret = 0 →
        ∃ data, (hisi_clk_early_init env pdev.of_node clks log).np.data = some data ∧
          hisi_clk_probe env pdev log =
            hisi_clk_probe_claimed env clks { pdev with of_node := { data := none } } data
              (hisi_clk_early_init env pdev.of_node clks log).log ∧
          (hisi_clk_probe env pdev log).pdev.of_node.data = none)) := by
  constructor
  · intro data hd
    have e : hisi_clk_probe env pdev log =
        hisi_clk_probe_claimed env clks { pdev with of_node := { data := none } } data log := by
      unfold hisi_clk_probe
      simp only [hm, hd]
    refine ⟨e, ?_, ?_⟩
    · rw [e]
      exact hisi_clk_probe_claimed_adds env clks _ data log
    · rw [e, hisi_clk_probe_claimed_of_node]
  · intro hn
    constructor
    · intro hne
      unfold hisi_clk_probe
      simp only [hm, hn]
      rw [if_pos hne]
      exact ⟨rfl, rfl⟩
    · intro hz
      obtain ⟨data, hd, _⟩ := hisi_clk_early_init_ret_zero env pdev.of_node clks log hz
      have e : hisi_clk_probe env pdev log =
          hisi_clk_probe_claimed env clks { pdev with of_node := { data := none } } data
            (hisi_clk_early_init env pdev.of_node clks log).log := by
        unfold hisi_clk_probe
        simp only [hm, hn, hz, hd, ne_eq, not_true_eq_false, if_false]
      refine ⟨data, hd, e, ?_⟩
      rw [e, hisi_clk_probe_claimed_of_node]

/-- A probe of the device `pdev_attached`, whose node holds `registry4`: the
node is left without registry and the registry becomes the driver data. -/
theorem hisi_clk_probe_claims_once_witness :
    (hisi_clk_probe env_mixed_ok pdev_attached []).pdev.of_node.data = none ∧
    (hisi_clk_probe env_mixed_ok pdev_attached []).ret = 0 ∧
    (hisi_clk_probe env_mixed_ok pdev_attached []).log =
      [Event.devm_clk_hw_register_mux "sel" 0x1010 0 1,
       Event.clk_hw_register_clkdev 3000 "sel_alias",
       Event.devm_clk_hw_register_gate "gate" 0x1014 0,
       Event.platform_set_drvdata] :=
  ⟨((hisi_clk_probe_claims_once env_mixed_ok pdev_attached [] clocks_mixed rfl).1
      registry4 rfl).2.2, by decide, by decide⟩

/-- A bit below 32 that lies outside a field is untouched by the clearing of
the field, and the value put into the field does not reach it. -/
theorem field_frame (x s w i : Nat) (hx : x < 2 ^ w) (ho : i < s ∨ s + w ≤ i) :
    (decide (s ≤ i) && decide (i - s < w)) = false ∧
    (decide (s ≤ i) && x.testBit (i - s)) = false := by
  rcases ho with h | h
  · have : ¬ s ≤ i := by omega
    simp [this]
  · have h1 : ¬ i - s < w := by omega
    have h2 : x.testBit (i - s) = false := testBit_eq_false_of_lt_two_pow x w _ hx (by omega)
    simp [h1, h2]

/-- Bits outside three fields that were cleared and set keep their value. -/
theorem set3_frame (v x1 x2 x3 s1 w1 s2 w2 s3 w3 i : Nat) (hi : i < 32)
    (hx1 : x1 < 2 ^ w1) (hx2 : x2 < 2 ^ w2) (hx3 : x3 < 2 ^ w3)
    (o1 : i < s1 ∨ s1 + w1 ≤ i) (o2 : i < s2 ∨ s2 + w2 ≤ i) (o3 : i < s3 ∨ s3 + w3 ≤ i) :
    ((((((v &&& not32 (((1 <<< w1) - 1) <<< s1))
        &&& not32 (((1 <<< w2) - 1) <<< s2))
        &&& not32 (((1 <<< w3) - 1) <<< s3))
        ||| (x1 <<< s1) % 2 ^ 32) ||| (x2 <<< s2) % 2 ^ 32) ||| (x3 <<< s3) % 2 ^ 32).testBit i
      = v.testBit i := by
  obtain ⟨a1, b1⟩ := field_frame x1 s1 w1 i hx1 o1
  obtain ⟨a2, b2⟩ := field_frame x2 s2 w2 i hx2 o2
  obtain ⟨a3, b3⟩ := field_frame x3 s3 w3 i hx3 o3
  simp only [Nat.testBit_or, testBit_clear_field, testBit_put_field, a1, a2, a3, b1, b2, b3]
  simp [hi]

/-- Bits outside two fields that were cleared and set keep their value. -/
theorem set2_frame (v x1 x2 s1 w1 s2 w2 i : Nat) (hi : i < 32)
    (hx1 : x1 < 2 ^ w1) (hx2 : x2 < 2 ^ w2)
    (o1 : i < s1 ∨ s1 + w1 ≤ i) (o2 : i < s2 ∨ s2 + w2 ≤ i) :
    ((((v &&& not32 (((1 <<< w1) - 1) <<< s1))
        &&& not32 (((1 <<< w2) - 1) <<< s2))
        ||| (x1 <<< s1) % 2 ^ 32) ||| (x2 <<< s2) % 2 ^ 32).testBit i
      = v.testBit i := by
  obtain ⟨a1, b1⟩ := field_frame x1 s1 w1 i hx1 o1
  obtain ⟨a2, b2⟩ := field_frame x2 s2 w2 i hx2 o2
  simp only [Nat.testBit_or, testBit_clear_field, testBit_put_field, a1, a2, b1, b2]
  simp [hi]

/-- Frame of `clk_pll_set_rate` for a handle whose computed values fit their
fields: the bits of the two control registers outside the five fields keep
their value and no other register changes. -/
theorem clk_pll_set_rate_frame (clk : hi3559av100_clk_pll) (rate pr : Nat) (m : Mem)
    (hreg : clk.ctrl_reg1 ≠ clk.ctrl_reg2)
    (hx1 : (hi3559av100_calc_pll (rate % 2 ^ BITS_PER_LONG)).frac_val < 2 ^ clk.frac_width)
    (hx2 : 2 < 2 ^ clk.postdiv1_width) (hx3 : 1 < 2 ^ clk.postdiv2_width)
    (hx4 : (hi3559av100_calc_pll (rate % 2 ^ BITS_PER_LONG)).fbdiv_val < 2 ^ clk.fbdiv_width)
    (hx5 : 1 < 2 ^ clk.refdiv_width) :
    (∀ i, (i < clk.frac_shift ∨ clk.frac_shift + clk.frac_width ≤ i) →
        (i < clk.postdiv1_shift ∨ clk.postdiv1_shift + clk.postdiv1_width ≤ i) →
        (i < clk.postdiv2_shift ∨ clk.postdiv2_shift + clk.postdiv2_width ≤ i) →
        (readl (clk_pll_set_rate clk rate pr m).1 clk.ctrl_reg1).testBit i
          = (readl m clk.ctrl_reg1).testBit i) ∧
    (∀ i, (i < clk.fbdiv_shift ∨ clk.fbdiv_shift + clk.fbdiv_width ≤ i) →
        (i < clk.refdiv_shift ∨ clk.refdiv_shift + clk.refdiv_width ≤ i) →
        (readl (clk_pll_set_rate clk rate pr m).1 clk.ctrl_reg2).testBit i
          = (readl m clk.ctrl_reg2).testBit i) ∧
    (∀ a, a ≠ clk.ctrl_reg1 → a ≠ clk.ctrl_reg2 →
        (clk_pll_set_rate clk rate pr m).1 a = m a) := by
  have hne : clk.ctrl_reg2 ≠ clk.ctrl_reg1 := fun h => hreg h.symm
  have hbig : ∀ (x i : Nat), x < 2 ^ 32 → ¬ i < 32 → x.testBit i = false := fun x i hx hi =>
    testBit_eq_false_of_lt_two_pow x 32 i hx (by omega)
  have c1 : (hi3559av100_calc_pll (rate % 2 ^ BITS_PER_LONG)).postdiv1_val = 2 := rfl
  have c2 : (hi3559av100_calc_pll (rate % 2 ^ BITS_PER_LONG)).postdiv2_val = 1 := rfl
  have c3 : (hi3559av100_calc_pll (rate % 2 ^ BITS_PER_LONG)).refdiv_val = 1 := rfl
  refine ⟨?_, ?_, ?_⟩
  · intro i o1 o2 o3
    by_cases hi : i < 32
    · simp only [clk_pll_set_rate]
      rw [readl_writel_other _ _ _ _ hreg, readl_writel_same, Nat.testBit_mod_two_pow, c1, c2,
        set3_frame _ _ _ _ _ _ _ _ _ _ i hi hx1 hx2 hx3 o1 o2 o3]
      simp [hi]
    · rw [hbig _ i (readl_lt _ _) hi, hbig _ i (readl_lt _ _) hi]
  · intro i o1 o2
    by_cases hi : i < 32
    · simp only [clk_pll_set_rate]
      rw [readl_writel_same, readl_writel_other _ _ _ _ hne, Nat.testBit_mod_two_pow, c3,
        set2_frame _ _ _ _ _ _ _ i hi hx4 hx5 o1 o2]
      simp [hi]
    · rw [hbig _ i (readl_lt _ _) hi, hbig _ i (readl_lt _ _) hi]
  · intro a h1 h2
    simp only [clk_pll_set_rate]
    rw [writel_other _ _ _ _ h2, writel_other _ _ _ _ h1]

/-- A field read as `clk_pll_recalc_rate` reads it is the register value
divided by `2^shift`, modulo `2^width`. -/
theorem pll_field_eq (m : Mem) (reg shift width : Nat) (hw : width < 32) :
    pll_field m reg shift width = readl m reg / 2 ^ shift % 2 ^ width := by
  unfold pll_field
  have hlt : 2 ^ width < 2 ^ 32 := Nat.pow_lt_pow_right (by decide) hw
  have hpos : 0 < 2 ^ width := Nat.two_pow_pos width
  have e : ((1 <<< width) - 1) % 2 ^ 32 = 2 ^ width - 1 := by
    rw [Nat.shiftLeft_eq, Nat.one_mul]
    exact Nat.mod_eq_of_lt (by omega)
  rw [e, Nat.and_pow_two_sub_one_eq_mod, Nat.shiftRight_eq_div_pow]

/-! ## Theorems: frame and definedness of the PLL operations -/

/-- C21: frame of `clk_pll_set_rate`. For a PLL handle built from a row of
`hi3559av100_pll_clks` and every target rate below 49,152,000,000 Hz, bits 27
and 31 of control register 1 (the bits outside the frac, postdiv1 and postdiv2
fields) and bits 18 and above of control register 2 (the bits outside the
fbdiv and refdiv fields) keep their previous value, and every register other
than the two control registers of the handle keeps its content. -/
theorem clk_pll_set_rate_frame_hi3559av100 (apll gpll base : Nat)
    (c : hi3559av100_pll_clock) (hc : c ∈ hi3559av100_pll_clks apll gpll) (m : Mem)
    (rate pr : Nat) (hlt : rate < 49152000000) :
    (∀ i, i = 27 ∨ i = 31 →
      (readl (clk_pll_set_rate (pll_clk_of_desc base c) rate pr m).1
          (base + c.ctrl_reg1)).testBit i = (readl m (base + c.ctrl_reg1)).testBit i) ∧
    (∀ i, 18 ≤ i →
      (readl (clk_pll_set_rate (pll_clk_of_desc base c) rate pr m).1
          (base + c.ctrl_reg2)).testBit i = (readl m (base + c.ctrl_reg2)).testBit i) ∧
    (∀ a, a ≠ base + c.ctrl_reg1 → a ≠ base + c.ctrl_reg2 →
      (clk_pll_set_rate (pll_clk_of_desc base c) rate pr m).1 a = m a) := by
  have hr : rate % 2 ^ BITS_PER_LONG = rate := by
    unfold BITS_PER_LONG; omega
  have hfr := calc_pll_frac_lt rate
  have hfb := calc_pll_fbdiv_lt rate hlt
  have H := fun c => clk_pll_set_rate_frame (pll_clk_of_desc base c) rate pr m
  simp only [hr] at H
  simp only [hi3559av100_pll_clks, List.mem_cons, List.mem_singleton, List.not_mem_nil,
    or_false] at hc
  have F : ∀ c : hi3559av100_pll_clock,
      (pll_clk_of_desc base c).ctrl_reg1 ≠ (pll_clk_of_desc base c).ctrl_reg2 →
      (hi3559av100_calc_pll rate).frac_val < 2 ^ (pll_clk_of_desc base c).frac_width →
      2 < 2 ^ (pll_clk_of_desc base c).postdiv1_width →
      1 < 2 ^ (pll_clk_of_desc base c).postdiv2_width →
      (hi3559av100_calc_pll rate).fbdiv_val < 2 ^ (pll_clk_of_desc base c).fbdiv_width →
      1 < 2 ^ (pll_clk_of_desc base c).refdiv_width →
      c.frac_shift = 0 ∧ c.frac_width = 24 ∧ c.postdiv1_shift = 24 ∧ c.postdiv1_width = 3 ∧
        c.postdiv2_shift = 28 ∧ c.postdiv2_width = 3 ∧ c.fbdiv_shift = 0 ∧
        c.fbdiv_width = 12 ∧ c.refdiv_shift = 12 ∧ c.refdiv_width = 6 →
      (∀ i, i = 27 ∨ i = 31 →
        (readl (clk_pll_set_rate (pll_clk_of_desc base c) rate pr m).1
            (base + c.ctrl_reg1)).testBit i = (readl m (base + c.ctrl_reg1)).testBit i) ∧
      (∀ i, 18 ≤ i →
        (readl (clk_pll_set_rate (pll_clk_of_desc base c) rate pr m).1
            (base + c.ctrl_reg2)).testBit i = (readl m (base + c.ctrl_reg2)).testBit i) ∧
      (∀ a, a ≠ base + c.ctrl_reg1 → a ≠ base + c.ctrl_reg2 →
        (clk_pll_set_rate (pll_clk_of_desc base c) rate pr m).1 a = m a) := by
    intro c h0 h1 h2 h3 h4 h5 ⟨l1, l2, l3, l4, l5, l6, l7, l8, l9, l10⟩
    obtain ⟨f1, f2, f3⟩ := H c h0 h1 h2 h3 h4 h5
    refine ⟨fun i hi => f1 i ?_ ?_ ?_, fun i hi => f2 i ?_ ?_, f3⟩ <;>
      simp only [pll_clk_of_desc, l1, l2, l3, l4, l5, l6, l7, l8, l9, l10] <;> omega
  rcases hc with rfl | rfl
  · exact F _ (by simp only [pll_clk_of_desc]; omega) hfr (by simp only [pll_clk_of_desc]; decide)
      (by simp only [pll_clk_of_desc]; decide) hfb (by simp only [pll_clk_of_desc]; decide)
      ⟨rfl, rfl, rfl, rfl, rfl, rfl, rfl, rfl, rfl, rfl⟩
  · exact F _ (by simp only [pll_clk_of_desc]; omega) hfr (by simp only [pll_clk_of_desc]; decide)
      (by simp only [pll_clk_of_desc]; decide) hfb (by simp only [pll_clk_of_desc]; decide)
      ⟨rfl, rfl, rfl, rfl, rfl, rfl, rfl, rfl, rfl, rfl⟩

/-- The frame of `clk_pll_set_rate` on the `apll` handle at base 0x1000 with all
register bits set beforehand, at the rate 792,000,000: bit 27 of control
register 1 and bit 18 of control register 2 are still set and the register at
0x1008 still holds 0xffffffff. -/
theorem clk_pll_set_rate_frame_hi3559av100_witness :
    (readl (clk_pll_set_rate (pll_clk_of_desc 0x1000
        ⟨250, "apll", none, 0x0, 0, 24, 24, 3, 28, 3, 0x4, 0, 12, 12, 6⟩)
        792000000 24000000 (fun _ => 0xffffffff)).1 (0x1000 + 0x0)).testBit 27 = true ∧
    (readl (clk_pll_set_rate (pll_clk_of_desc 0x1000
        ⟨250, "apll", none, 0x0, 0, 24, 24, 3, 28, 3, 0x4, 0, 12, 12, 6⟩)
        792000000 24000000 (fun _ => 0xffffffff)).1 (0x1000 + 0x4)).testBit 18 = true ∧
    (clk_pll_set_rate (pll_clk_of_desc 0x1000
        ⟨250, "apll", none, 0x0, 0, 24, 24, 3, 28, 3, 0x4, 0, 12, 12, 6⟩)
        792000000 24000000 (fun _ => 0xffffffff)).1 0x1008 = 0xffffffff :=
  ⟨((clk_pll_set_rate_frame_hi3559av100 250 251 0x1000 _ (List.mem_cons_self _ _)
      (fun _ => 0xffffffff) 792000000 24000000 (by decide)).1 27 (Or.inl rfl)).trans
      (by decide),
   ((clk_pll_set_rate_frame_hi3559av100 250 251 0x1000 _ (List.mem_cons_self _ _)
      (fun _ => 0xffffffff) 792000000 24000000 (by decide)).2.1 18 (by decide)).trans
      (by decide),
   (clk_pll_set_rate_frame_hi3559av100 250 251 0x1000 _ (List.mem_cons_self _ _)
      (fun _ => 0xffffffff) 792000000 24000000 (by decide)).2.2 0x1008 (by decide) (by decide)⟩

/-- C22: with the reference fixed at 24,000,000 Hz and the layout of a row of
`hi3559av100_pll_clks`, for every content `v1`, `v2` of the two control
registers (32-bit values) whose refdiv, postdiv1 and postdiv2 fields are
non-zero, the 64-bit computation of `clk_pll_recalc_rate` does not wrap: with
frac = v1 mod 2^24, postdiv1 = (v1 / 2^24) mod 8, postdiv2 = (v1 / 2^28) mod 8,
fbdiv = v2 mod 2^12 and refdiv = (v2 / 2^12) mod 64, the value returned is
floor(floor((24000000*fbdiv + floor(24000000*frac / 2^24)) / refdiv) / (postdiv1*postdiv2))
computed in unbounded natural numbers, the fractional contribution being
added before either division; the sum stays below 2^64 and the product of the
post-dividers below 2^32. -/
theorem clk_pll_recalc_rate_no_wrap (apll gpll base : Nat) (c : hi3559av100_pll_clock)
    (hc : c ∈ hi3559av100_pll_clks apll gpll) (m : Mem) (pr : Nat)
    (hre : readl m (base + c.ctrl_reg2) / 2 ^ 12 % 2 ^ 6 ≠ 0)
    (hp1 : readl m (base + c.ctrl_reg1) / 2 ^ 24 % 2 ^ 3 ≠ 0)
    (hp2 : readl m (base + c.ctrl_reg1) / 2 ^ 28 % 2 ^ 3 ≠ 0) :
    clk_pll_recalc_rate (pll_clk_of_desc base c) pr m =
      some ((24000000 * (readl m (base + c.ctrl_reg2) % 2 ^ 12)
          + 24000000 * (readl m (base + c.ctrl_reg1) % 2 ^ 24) / 2 ^ 24)
        / (readl m (base + c.ctrl_reg2) / 2 ^ 12 % 2 ^ 6)
        / ((readl m (base + c.ctrl_reg1) / 2 ^ 24 % 2 ^ 3)
            * (readl m (base + c.ctrl_reg1) / 2 ^ 28 % 2 ^ 3))) ∧
    24000000 * (readl m (base + c.ctrl_reg2) % 2 ^ 12)
        + 24000000 * (readl m (base + c.ctrl_reg1) % 2 ^ 24) / 2 ^ 24 < 2 ^ 64 ∧
    (readl m (base + c.ctrl_reg1) / 2 ^ 24 % 2 ^ 3)
        * (readl m (base + c.ctrl_reg1) / 2 ^ 28 % 2 ^ 3) < 2 ^ 32 := by
  have hprod : (readl m (base + c.ctrl_reg1) / 2 ^ 24 % 2 ^ 3)
      * (readl m (base + c.ctrl_reg1) / 2 ^ 28 % 2 ^ 3) < 2 ^ 32 := by
    have a : readl m (base + c.ctrl_reg1) / 2 ^ 24 % 2 ^ 3 ≤ 7 := by omega
    have b : readl m (base + c.ctrl_reg1) / 2 ^ 28 % 2 ^ 3 ≤ 7 := by omega
    calc _ ≤ 7 * 7 := Nat.mul_le_mul a b
      _ < 2 ^ 32 := by decide
  refine ⟨?_, by omega, hprod⟩
  have key : ∀ c : hi3559av100_pll_clock,
      c.frac_shift = 0 ∧ c.frac_width = 24 ∧ c.postdiv1_shift = 24 ∧ c.postdiv1_width = 3 ∧
        c.postdiv2_shift = 28 ∧ c.postdiv2_width = 3 ∧ c.fbdiv_shift = 0 ∧
        c.fbdiv_width = 12 ∧ c.refdiv_shift = 12 ∧ c.refdiv_width = 6 →
      clk_pll_recalc_rate (pll_clk_of_desc base c) pr m =
        if readl m (base + c.ctrl_reg2) / 2 ^ 12 % 2 ^ 6 = 0 then none
        else if ((readl m (base + c.ctrl_reg1) / 2 ^ 24 % 2 ^ 3)
            * (readl m (base + c.ctrl_reg1) / 2 ^ 28 % 2 ^ 3)) % 2 ^ 32 = 0 then none
        else some ((24000000 * (readl m (base + c.ctrl_reg2) % 2 ^ 12)
            + 24000000 * (readl m (base + c.ctrl_reg1) % 2 ^ 24) / 2 ^ 24)
          / (readl m (base + c.ctrl_reg2) / 2 ^ 12 % 2 ^ 6)
          / (((readl m (base + c.ctrl_reg1) / 2 ^ 24 % 2 ^ 3)
              * (readl m (base + c.ctrl_reg1) / 2 ^ 28 % 2 ^ 3)) % 2 ^ 32)) := by
    intro c ⟨l1, l2, l3, l4, l5, l6, l7, l8, l9, l10⟩
    rw [clk_pll_recalc_rate_eq]
    simp only [pll_clk_of_desc, l1, l2, l3, l4, l5, l6, l7, l8, l9, l10]
    rw [pll_field_eq _ _ _ _ (by decide : 6 < 32), pll_field_eq _ _ _ _ (by decide : 3 < 32),
      pll_field_eq _ _ _ _ (by decide : 12 < 32), pll_field_eq _ _ _ _ (by decide : 24 < 32),
      pll_field_eq _ _ 28 3 (by decide : 3 < 32)]
    simp only [Nat.pow_zero, Nat.div_one]
  simp only [hi3559av100_pll_clks, List.mem_cons, List.mem_singleton, List.not_mem_nil,
    or_false] at hc
  have e := key c (by rcases hc with rfl | rfl <;> exact ⟨rfl, rfl, rfl, rfl, rfl, rfl, rfl, rfl, rfl, rfl⟩)
  rw [e, if_neg hre, Nat.mod_eq_of_lt hprod, if_neg (Nat.mul_ne_zero hp1 hp2)]

/-- The rate read on the `apll` layout at base 0 from the register contents
0x12000000 and 0x1042 (postdiv1 = 2, postdiv2 = 1, frac = 0, fbdiv = 66,
refdiv = 1) is 792,000,000. -/
theorem clk_pll_recalc_rate_no_wrap_witness :
    clk_pll_recalc_rate (pll_clk_of_desc 0
        ⟨250, "apll", none, 0x0, 0, 24, 24, 3, 28, 3, 0x4, 0, 12, 12, 6⟩) 24000000
      (two_regs 0 0x12000000 4 0x1042) = some 792000000 :=
  (clk_pll_recalc_rate_no_wrap 250 251 0 _ (List.mem_cons_self _ _)
    (two_regs 0 0x12000000 4 0x1042) 24000000 (by decide) (by decide) (by decide)).1.trans
    (by decide)

/-- The product of the two post-divider fields is below 2^32 for every handle
whose two post-divider widths sum to at most 32, whatever the registers hold. -/
theorem pll_postdiv_product_lt (clk : hi3559av100_clk_pll) (m : Mem)
    (hw : clk.postdiv1_width + clk.postdiv2_width ≤ 32) :
    pll_field m clk.ctrl_reg1 clk.postdiv1_shift clk.postdiv1_width
      * pll_field m clk.ctrl_reg1 clk.postdiv2_shift clk.postdiv2_width < 2 ^ 32 := by
  have zero : ∀ reg s, pll_field m reg s 0 = 0 := by
    intro reg s
    simp [pll_field]
  by_cases h1 : clk.postdiv1_width < 32
  · by_cases h2 : clk.postdiv2_width < 32
    · have b1 : pll_field m clk.ctrl_reg1 clk.postdiv1_shift clk.postdiv1_width
          < 2 ^ clk.postdiv1_width := by
        rw [pll_field_eq _ _ _ _ h1]
        exact Nat.mod_lt _ (Nat.two_pow_pos _)
      have b2 : pll_field m clk.ctrl_reg1 clk.postdiv2_shift clk.postdiv2_width
          < 2 ^ clk.postdiv2_width := by
        rw [pll_field_eq _ _ _ _ h2]
        exact Nat.mod_lt _ (Nat.two_pow_pos _)
      calc _ < 2 ^ clk.postdiv1_width * 2 ^ clk.postdiv2_width :=
            Nat.mul_lt_mul'' b1 b2
        _ = 2 ^ (clk.postdiv1_width + clk.postdiv2_width) := (Nat.pow_add _ _ _).symm
        _ ≤ 2 ^ 32 := Nat.pow_le_pow_right (by decide) hw
    · have e : clk.postdiv1_width = 0 := by omega
      rw [e, zero, Nat.zero_mul]
      decide
  · have e : clk.postdiv2_width = 0 := by omega
    rw [e, zero, Nat.mul_zero]
    decide

/-- C28, as stated, fails on the code: on a handle whose two post-divider
fields are both the 17-bit field at shift 0 of control register 1, with the
register contents 0x10000 and 0x1042, the refdiv, postdiv1 and postdiv2 fields
are 1, 0x10000 and 0x10000, all non-zero, but the 32-bit product
postdiv1 * postdiv2 is 2^32 mod 2^32 = 0 and the second `div_u64` of
`clk_pll_recalc_rate` divides by zero. -/
theorem clk_pll_recalc_rate_defined_counterexample :
    pll_field (two_regs 0 0x10000 4 0x1042) 4 12 6 = 1 ∧
    pll_field (two_regs 0 0x10000 4 0x1042) 0 0 17 = 0x10000 ∧
    (0x10000 * 0x10000) % 2 ^ 32 = 0 ∧
    (clk_pll_recalc_rate ⟨0, 0, 0, 24, 0, 17, 0, 17, 4, 0, 12, 12, 6⟩ 24000000
      (two_regs 0 0x10000 4 0x1042)).isSome = false := by
  decide

/-- C28 (amended): for every PLL handle and every register contents,
`clk_pll_recalc_rate` does not divide by zero (it returns a rate) whenever the
refdiv, postdiv1 and postdiv2 fields are all non-zero and the product
postdiv1 * postdiv2 is below 2^32; that bound on the product holds for every
handle whose two post-divider widths sum to at most 32, in particular for the
handles built from the rows of `hi3559av100_pll_clks`. In the register state
left by `clk_pll_set_rate` on such a handle for a target rate below
49,152,000,000 Hz the three fields are 1, 2 and 1, whatever the registers
held before, so that recalc after set_rate returns a rate. -/
theorem clk_pll_recalc_rate_defined :
    (∀ (clk : hi3559av100_clk_pll) (pr : Nat) (m : Mem),
      pll_field m clk.ctrl_reg2 clk.refdiv_shift clk.refdiv_width ≠ 0 →
      pll_field m clk.ctrl_reg1 clk.postdiv1_shift clk.postdiv1_width ≠ 0 →
      pll_field m clk.ctrl_reg1 clk.postdiv2_shift clk.postdiv2_width ≠ 0 →
      pll_field m clk.ctrl_reg1 clk.postdiv1_shift clk.postdiv1_width
        * pll_field m clk.ctrl_reg1 clk.postdiv2_shift clk.postdiv2_width < 2 ^ 32 →
      (clk_pll_recalc_rate clk pr m).isSome = true) ∧
    (∀ (clk : hi3559av100_clk_pll) (m : Mem),
      clk.postdiv1_width + clk.postdiv2_width ≤ 32 →
      pll_field m clk.ctrl_reg1 clk.postdiv1_shift clk.postdiv1_width
        * pll_field m clk.ctrl_reg1 clk.postdiv2_shift clk.postdiv2_width < 2 ^ 32) ∧
    (∀ (apll gpll base : Nat) (c : hi3559av100_pll_clock),
      c ∈ hi3559av100_pll_clks apll gpll →
      (pll_clk_of_desc base c).postdiv1_width + (pll_clk_of_desc base c).postdiv2_width ≤ 32 ∧
      ∀ (m : Mem) (rate pr pr2 : Nat), rate < 49152000000 →
        pll_field (clk_pll_set_rate (pll_clk_of_desc base c) rate pr2 m).1
          (pll_clk_of_desc base c).ctrl_reg2 (pll_clk_of_desc base c).refdiv_shift
          (pll_clk_of_desc base c).refdiv_width = 1 ∧
        pll_field (clk_pll_set_rate (pll_clk_of_desc base c) rate pr2 m).1
          (pll_clk_of_desc base c).ctrl_reg1 (pll_clk_of_desc base c).postdiv1_shift
          (pll_clk_of_desc base c).postdiv1_width = 2 ∧
        pll_field (clk_pll_set_rate (pll_clk_of_desc base c) rate pr2 m).1
          (pll_clk_of_desc base c).ctrl_reg1 (pll_clk_of_desc base c).postdiv2_shift
          (pll_clk_of_desc base c).postdiv2_width = 1 ∧
        (clk_pll_recalc_rate (pll_clk_of_desc base c) pr
          (clk_pll_set_rate (pll_clk_of_desc base c) rate pr2 m).1).isSome = true) := by
  have A : ∀ (clk : hi3559av100_clk_pll) (pr : Nat) (m : Mem),
      pll_field m clk.ctrl_reg2 clk.refdiv_shift clk.refdiv_width ≠ 0 →
      pll_field m clk.ctrl_reg1 clk.postdiv1_shift clk.postdiv1_width ≠ 0 →
      pll_field m clk.ctrl_reg1 clk.postdiv2_shift clk.postdiv2_width ≠ 0 →
      pll_field m clk.ctrl_reg1 clk.postdiv1_shift clk.postdiv1_width
        * pll_field m clk.ctrl_reg1 clk.postdiv2_shift clk.postdiv2_width < 2 ^ 32 →
      (clk_pll_recalc_rate clk pr m).isSome = true := by
    intro clk pr m hre hp1 hp2 hprod
    rw [clk_pll_recalc_rate_eq, if_neg hre, Nat.mod_eq_of_lt hprod,
      if_neg (Nat.mul_ne_zero hp1 hp2)]
    rfl
  refine ⟨A, pll_postdiv_product_lt, ?_⟩
  intro apll gpll base c hc
  simp only [hi3559av100_pll_clks, List.mem_cons, List.mem_singleton, List.not_mem_nil,
    or_false] at hc
  have hw : (pll_clk_of_desc base c).postdiv1_width
      + (pll_clk_of_desc base c).postdiv2_width ≤ 32 := by
    rcases hc with rfl | rfl <;> simp only [pll_clk_of_desc] <;> omega
  refine ⟨hw, ?_⟩
  intro m rate pr pr2 hlt
  have hr : rate % 2 ^ BITS_PER_LONG = rate := by
    unfold BITS_PER_LONG; omega
  have hfr := calc_pll_frac_lt rate
  have hfb := calc_pll_fbdiv_lt rate hlt
  have H := fun c => clk_pll_set_rate_fields (pll_clk_of_desc base c) rate pr2 m
  simp only [hr] at H
  have F : (pll_field (clk_pll_set_rate (pll_clk_of_desc base c) rate pr2 m).1
        (pll_clk_of_desc base c).ctrl_reg1 (pll_clk_of_desc base c).frac_shift
        (pll_clk_of_desc base c).frac_width = (hi3559av100_calc_pll rate).frac_val) ∧
      (pll_field (clk_pll_set_rate (pll_clk_of_desc base c) rate pr2 m).1
        (pll_clk_of_desc base c).ctrl_reg1 (pll_clk_of_desc base c).postdiv1_shift
        (pll_clk_of_desc base c).postdiv1_width = 2) ∧
      (pll_field (clk_pll_set_rate (pll_clk_of_desc base c) rate pr2 m).1
        (pll_clk_of_desc base c).ctrl_reg1 (pll_clk_of_desc base c).postdiv2_shift
        (pll_clk_of_desc base c).postdiv2_width = 1) ∧
      (pll_field (clk_pll_set_rate (pll_clk_of_desc base c) rate pr2 m).1
        (pll_clk_of_desc base c).ctrl_reg2 (pll_clk_of_desc base c).fbdiv_shift
        (pll_clk_of_desc base c).fbdiv_width = (hi3559av100_calc_pll rate).fbdiv_val) ∧
      (pll_field (clk_pll_set_rate (pll_clk_of_desc base c) rate pr2 m).1
        (pll_clk_of_desc base c).ctrl_reg2 (pll_clk_of_desc base c).refdiv_shift
        (pll_clk_of_desc base c).refdiv_width = 1) := by
    rcases hc with rfl | rfl <;> apply H <;> simp only [pll_clk_of_desc] <;> omega
  obtain ⟨_, f2, f3, _, f5⟩ := F
  refine ⟨f5, f2, f3, A _ _ _ ?_ ?_ ?_ (pll_postdiv_product_lt _ _ hw)⟩
  · rw [f5]; decide
  · rw [f2]; decide
  · rw [f3]; decide

/-- On a handle that is not one of the shipped rows (16-bit fractional field,
3-bit post-dividers) `clk_pll_recalc_rate` returns a rate on the register
contents 0x12008000 and 0x1042, whose three divider fields are non-zero with a
product below 2^32; and on the `gpll` handle at base 0x1000 with all register
bits clear beforehand, `clk_pll_set_rate` at 100,000,000 Hz leaves refdiv = 1
and a state on which `clk_pll_recalc_rate` returns a rate. -/
theorem clk_pll_recalc_rate_defined_witness :
    (clk_pll_recalc_rate ⟨0, 0, 0, 16, 24, 3, 28, 3, 4, 0, 12, 12, 6⟩ 24000000
      (two_regs 0 0x12008000 4 0x1042)).isSome = true ∧
    pll_field (two_regs 0 0x12008000 4 0x1042) 0 24 3
      * pll_field (two_regs 0 0x12008000 4 0x1042) 0 28 3 < 2 ^ 32 ∧
    pll_field (clk_pll_set_rate (pll_clk_of_desc 0x1000
        ⟨251, "gpll", none, 0x20, 0, 24, 24, 3, 28, 3, 0x24, 0, 12, 12, 6⟩)
        100000000 24000000 (fun _ => 0)).1 0x1024 12 6 = 1 ∧
    (clk_pll_recalc_rate (pll_clk_of_desc 0x1000
        ⟨251, "gpll", none, 0x20, 0, 24, 24, 3, 28, 3, 0x24, 0, 12, 12, 6⟩) 24000000
      (clk_pll_set_rate (pll_clk_of_desc 0x1000
        ⟨251, "gpll", none, 0x20, 0, 24, 24, 3, 28, 3, 0x24, 0, 12, 12, 6⟩)
        100000000 24000000 (fun _ => 0)).1).isSome = true :=
  ⟨clk_pll_recalc_rate_defined.1 ⟨0, 0, 0, 16, 24, 3, 28, 3, 4, 0, 12, 12, 6⟩ 24000000
      (two_regs 0 0x12008000 4 0x1042) (by decide) (by decide) (by decide) (by decide),
   clk_pll_recalc_rate_defined.2.1 ⟨0, 0, 0, 16, 24, 3, 28, 3, 4, 0, 12, 12, 6⟩
      (two_regs 0 0x12008000 4 0x1042) (by decide),
   ((clk_pll_recalc_rate_defined.2.2 250 251 0x1000 _
      (List.mem_cons_of_mem _ (List.mem_cons_self _ _))).2 (fun _ => 0) 100000000
      24000000 24000000 (by decide)).1,
   ((clk_pll_recalc_rate_defined.2.2 250 251 0x1000 _
      (List.mem_cons_of_mem _ (List.mem_cons_self _ _))).2 (fun _ => 0) 100000000
      24000000 24000000 (by decide)).2.2.2⟩

/-- C29, as stated, fails on the code: at the rate 51,539,607,552,000,000 Hz
(12,000,000 * 2^32, a value of the `u64` argument) the quotient is 2^32, its
conversion to `u32` is 0, and so the computed fbdiv is below 2^12 although the
rate is not below 49,152,000,000 Hz. At the rate 2^63 the product by 2 wraps
to 0 in 64 bits, with the same outcome. -/
theorem hi3559av100_calc_pll_field_bounds_counterexample :
    (51539607552000000 < 2 ^ 64 ∧
      (hi3559av100_calc_pll 51539607552000000).fbdiv_val = 0 ∧
      ¬ ((hi3559av100_calc_pll 51539607552000000).fbdiv_val < 2 ^ 12
          ↔ 51539607552000000 < 49152000000)) ∧
    (2 ^ 63 < 2 ^ 64 ∧
      (hi3559av100_calc_pll (2 ^ 63)).fbdiv_val = 0 ∧
      ¬ ((hi3559av100_calc_pll (2 ^ 63)).fbdiv_val < 2 ^ 12 ↔ 2 ^ 63 < 49152000000)) := by
  decide

/-- C29 (amended): for every target rate the frac computed by
`hi3559av100_calc_pll` is below 2^24; and for every target rate below
51,539,607,552,000,000 Hz (12,000,000 * 2^32, below which neither the 64-bit
product nor the conversion of the quotient to `u32` wraps) the computed fbdiv
is below 2^12 if and only if the rate is below 49,152,000,000 Hz. -/
theorem hi3559av100_calc_pll_field_bounds (rate : Nat) :
    (hi3559av100_calc_pll rate).frac_val < 2 ^ 24 ∧
    (rate < 51539607552000000 →
      ((hi3559av100_calc_pll rate).fbdiv_val < 2 ^ 12 ↔ rate < 49152000000)) := by
  refine ⟨calc_pll_frac_lt rate, fun h => ?_⟩
  rw [(calc_pll_closed_form rate (by omega)).1]
  omega

/-- The two sides of the field bound at the threshold: 49,152,000,000 Hz gives
fbdiv = 4096 = 2^12, one hertz less gives fbdiv = 4095. -/
theorem hi3559av100_calc_pll_field_bounds_witness :
    (hi3559av100_calc_pll 49152000000).fbdiv_val = 4096 ∧
    ¬ (hi3559av100_calc_pll 49152000000).fbdiv_val < 2 ^ 12 ∧
    (hi3559av100_calc_pll 49151999999).fbdiv_val < 2 ^ 12 :=
  ⟨by decide,
   fun h => absurd (((hi3559av100_calc_pll_field_bounds 49152000000).2 (by decide)).1 h)
     (by decide),
   ((hi3559av100_calc_pll_field_bounds 49151999999).2 (by decide)).2 (by decide)⟩

/-! ## Theorems: bounds of the reset identifier -/

/-- C23: for every identifier the bit index decoded at the top of
`hisi_reset_assert` / `hisi_reset_deassert` is below 32 and the decoded offset
is at most 0xffff, so that `BIT(bit)` stays within 32 bits; and for every pair
of arguments the identifier made by `hisi_reset_of_xlate` is non-negative, has
bits 5..7 and bits 24 and above clear, and decodes to
(args[0] mod 2^16, args[1] mod 32). -/
theorem hisi_reset_id_bounds (id a0 a1 : Nat) :
    hisi_reset_id_bit id < 32 ∧
    hisi_reset_id_offset id ≤ 0xffff ∧
    BIT (hisi_reset_id_bit id) < 2 ^ 32 ∧
    0 ≤ hisi_reset_of_xlate a0 a1 ∧
    (∀ i, (5 ≤ i ∧ i ≤ 7) ∨ 24 ≤ i →
      (hisi_reset_of_xlate a0 a1).toNat.testBit i = false) ∧
    hisi_reset_id_offset (hisi_reset_of_xlate a0 a1).toNat = a0 % 2 ^ 16 ∧
    hisi_reset_id_bit (hisi_reset_of_xlate a0 a1).toNat = a1 % 32 := by
  have hb := hisi_reset_id_bit_lt id
  refine ⟨hb, ?_, ?_, ?_, ?_, ?_, ?_⟩
  · rw [hisi_reset_id_offset_eq]; omega
  · rw [BIT_eq_of_lt _ hb]; exact two_pow_lt_of_lt_32 _ hb
  · rw [hisi_reset_of_xlate_eq]; exact Int.ofNat_nonneg _
  · intro i hi
    rw [hisi_reset_of_xlate_eq, Int.toNat_ofNat]
    rcases hi with ⟨h5, h7⟩ | h24
    · rw [Nat.testBit_to_div_mod]
      have hi : i = 5 ∨ i = 6 ∨ i = 7 := by omega
      rcases hi with rfl | rfl | rfl <;> simp only [decide_eq_false_iff_not] <;> omega
    · exact testBit_eq_false_of_lt_two_pow _ 24 i (by omega) h24
  · rw [hisi_reset_of_xlate_eq, Int.toNat_ofNat, hisi_reset_id_offset_eq]; omega
  · rw [hisi_reset_of_xlate_eq, Int.toNat_ofNat, hisi_reset_id_bit_eq]; omega

/-- The bounds at the identifier 0xabcdef12 and the arguments (0x12345, 0x31):
the bit index is 18 and the offset 0xcdef; the identifier made from the
arguments is 0x234511, with bit 6 and bit 24 clear, and decodes to
(0x2345, 17). -/
theorem hisi_reset_id_bounds_witness :
    hisi_reset_id_bit 0xabcdef12 = 18 ∧ hisi_reset_id_offset 0xabcdef12 = 0xcdef ∧
    hisi_reset_of_xlate 0x12345 0x31 = 0x234511 ∧
    (hisi_reset_of_xlate 0x12345 0x31).toNat.testBit 6 = false ∧
    (hisi_reset_of_xlate 0x12345 0x31).toNat.testBit 24 = false ∧
    hisi_reset_id_offset (hisi_reset_of_xlate 0x12345 0x31).toNat = 0x2345 ∧
    hisi_reset_id_bit (hisi_reset_of_xlate 0x12345 0x31).toNat = 17 :=
  ⟨by decide, by decide, by decide,
   (hisi_reset_id_bounds 0xabcdef12 0x12345 0x31).2.2.2.2.1 6 (Or.inl ⟨by decide, by decide⟩),
   (hisi_reset_id_bounds 0xabcdef12 0x12345 0x31).2.2.2.2.1 24 (Or.inr (by decide)),
   (hisi_reset_id_bounds 0xabcdef12 0x12345 0x31).2.2.2.2.2.1.trans (by decide),
   (hisi_reset_id_bounds 0xabcdef12 0x12345 0x31).2.2.2.2.2.2.trans (by decide)⟩

/-! ## Theorems: rollback of the fixed-factor registration -/

/-- C27 (the code at a failing input): `hisi_clk_register_fixed_factor` on two
fixed-factor descriptors with ids 0 and 1, the constructor failing at index 1.
The rollback releases the fixed-factor handle `1000` registered for index 0
with `clk_hw_unregister_fixed_rate`; no `clk_hw_unregister_fixed_factor` is
called. `hisi_clk_free` on a registry holding the same handle for the same
descriptors releases it with `clk_hw_unregister_fixed_factor`. -/
theorem hisi_clk_register_fixed_factor_rollback_kind :
    (hisi_clk_register_fixed_factor env_fail_at_1 fixed_factor2 2 deferred2 []).log =
      [Event.clk_hw_register_fixed_factor "half" (some "osc") 0 1 2,
       Event.clk_hw_register_fixed_factor "quarter" (some "osc") 0 1 4,
       Event.clk_hw_unregister_fixed_rate 1000] ∧
    Event.clk_hw_unregister_fixed_factor 1000 ∉
      (hisi_clk_register_fixed_factor env_fail_at_1 fixed_factor2 2 deferred2 []).log ∧
    (hisi_clk_register_fixed_factor env_fail_at_1 fixed_factor2 2 deferred2 []).ret = -ENOMEM ∧
    hisi_clk_free
      { clk_data := { num := 2, hws := [1000, ERR_PTR (-EPROBE_DEFER)] }, base := 0x1000,
        clks := some { nr := 0, fixed_rate_clks := [], fixed_rate_clks_num := 0,
                       fixed_factor_clks := fixed_factor2, fixed_factor_clks_num := 2 } } [] =
      [Event.clk_hw_unregister_fixed_factor 1000, Event.of_clk_del_provider,
       Event.kfree_clk_data, Event.kfree_data] := by
  decide


/-! ## Theorems: the fixed-rate tables -/

/-- C30 (the code at the failing input): in `hi3559av100_fixed_rate_clks_crg`,
which has 45 rows, the rows whose rate is not the frequency that the name
denotes are exactly one, the row `148p5m`: its rate is 1,485,000,000 Hz while
the name denotes 148,500,000 Hz. Every other row, `187p5m` and `400k`
included, has the rate its name denotes. -/
theorem hi3559av100_fixed_rate_148p5m (ID : String → Nat) :
    (fixed_rate_rows (hi3559av100_fixed_rate_clks_crg ID)).length = 45 ∧
    (fixed_rate_rows (hi3559av100_fixed_rate_clks_crg ID)).filter
        (fun r => decide (name_frequency r.1 ≠ some r.2)) = [("148p5m", 1485000000)] ∧
    name_frequency "148p5m" = some 148500000 ∧
    name_frequency "187p5m" = some 187500000 ∧
    name_frequency "400k" = some 400000 := by
  simp only [fixed_rate_rows, hi3559av100_fixed_rate_clks_crg, List.map_cons, List.map_nil]
  decide

/-- C26 (the code on the hip04 table): `hip04_clks` holds the three fixed-rate
descriptors osc50m, clk50m and clk168m, but its fixed-rate count is 0 and the
length 3 of the fixed-rate array is stored in the fixed-factor count, whose
array is `NULL`. So `hisi_clk_register_fixed_rate`, called with this array
and this count, returns 0 without calling the constructor, and
`hisi_clk_early_init` never calls `clk_hw_register_fixed_rate` on this table,
whatever the environment; the fixed-factor batch is run for 3 descriptors of
an array that has none. -/
theorem hip04_clks_registers_no_fixed_rate (ID : String → Nat) (env : Env)
    (np : device_node) (data : hisi_clock_data) (log : List Event) :
    fixed_rate_rows (hip04_clks ID).fixed_rate_clks =
      [("osc50m", 50000000), ("clk50m", 50000000), ("clk168m", 168750000)] ∧
    (hip04_clks ID).fixed_rate_clks_num = 0 ∧
    (hip04_clks ID).fixed_factor_clks_num = 3 ∧
    (hip04_clks ID).fixed_factor_clks = [] ∧
    hisi_clocks_get_nr (hip04_clks ID) = 3 ∧
    hisi_clk_register_fixed_rate env (hip04_clks ID).fixed_rate_clks
        (hip04_clks ID).fixed_rate_clks_num data log
      = { ret := 0, data := data, log := log } ∧
    log_adds (fun e => is_fixed_rate_register e = false) log
      (hisi_clk_early_init env np (hip04_clks ID) log).log := by
  refine ⟨rfl, rfl, rfl, rfl, rfl, rfl, ?_⟩
  have I := hisi_clk_init_adds (fun e => is_fixed_rate_register e = false) rfl rfl
    (fun _ => rfl) rfl rfl rfl env (hisi_clocks_get_nr (hip04_clks ID)) log
  have T2 := fun (c : List hisi_fixed_factor_clock) n d l =>
    hisi_clk_register_fixed_factor_adds (fun e => is_fixed_rate_register e = false)
      (fun _ _ _ _ _ => rfl) (fun _ => rfl) env c n d l
  have T3 := fun d l => hisi_clk_free_adds (fun e => is_fixed_rate_register e = false)
    (fun _ => rfl) (fun _ => rfl) rfl rfl rfl d l
  have e : ∀ d l, hisi_clk_register_fixed_rate env (hip04_clks ID).fixed_rate_clks
      (hip04_clks ID).fixed_rate_clks_num d l = { ret := 0, data := d, log := l } :=
    fun _ _ => rfl
  unfold hisi_clk_early_init
  split
  · rename_i h
    rw [h] at I
    exact I
  · rename_i d log1 h
    rw [h] at I
    simp only [e, ne_eq, not_true_eq_false, if_false]
    split
    · exact log_adds_trans (log_adds_trans I (T2 _ _ _ _)) (T3 _ _)
    · exact log_adds_trans I (T2 _ _ _ _)

/-! ## Theorems: the SHUB prologue -/

/-- What `hi3559av100_shub_default_clk_set` does for a mapping that succeeded:
it returns 0, ORs `0x2 << 24` into the register at 0x20 and `0x1 << 28` into the
register at 0x1C, and changes no other register. -/
theorem hi3559av100_shub_default_clk_set_eq (crg_base : Nat) (m : Mem) (h : crg_base ≠ 0) :
    ∃ m2, hi3559av100_shub_default_clk_set crg_base m = some (m2, 0) ∧
      readl m2 (crg_base + 0x20) = readl m (crg_base + 0x20) ||| 0x2000000 ∧
      readl m2 (crg_base + 0x1C) = readl m (crg_base + 0x1C) ||| 0x10000000 ∧
      ∀ a, a ≠ crg_base + 0x20 → a ≠ crg_base + 0x1C → m2 a = m a := by
  have hne : crg_base + 0x1C ≠ crg_base + 0x20 := by omega
  have hne2 : crg_base + 0x20 ≠ crg_base + 0x1C := by omega
  have l1 : ∀ v, (readl m v ||| 0x2000000) % 2 ^ 32 = readl m v ||| 0x2000000 := fun v =>
    Nat.mod_eq_of_lt (Nat.or_lt_two_pow (readl_lt m v) (by decide))
  have l2 : ∀ v, (readl m v ||| 0x10000000) % 2 ^ 32 = readl m v ||| 0x10000000 := fun v =>
    Nat.mod_eq_of_lt (Nat.or_lt_two_pow (readl_lt m v) (by decide))
  refine ⟨_, by simp only [hi3559av100_shub_default_clk_set, if_neg h]; rfl, ?_, ?_, ?_⟩
  · rw [readl_writel_other _ _ _ _ hne2, readl_writel_same]
    simp only [Nat.mod_mod]
    exact l1 _
  · rw [readl_writel_same, readl_writel_other _ _ _ _ hne]
    simp only [Nat.mod_mod]
    exact l2 _
  · intro a h1 h2
    rw [writel_other _ _ _ _ h2, writel_other _ _ _ _ h1]

/-- C25 (the code at a failing input): the SHUB prologue run on `shub_regs_div4`,
where the SPI divider field holds 1 and the UART divider field holds 2. The
hook returns 0, but the fields are ORed, not replaced: the register at 0x20
becomes 0x03000000 and the register at 0x1C becomes 0x30000000, so both 2-bit
fields read 3, a value that is in neither divider table, instead of 2
(SSP 192M/2) and 1 (UART 192M/8). -/
theorem hi3559av100_shub_default_clk_set_ors_fields :
    readl shub_regs_div4 (0x5000 + 0x20) / 2 ^ 24 % 4 = 1 ∧
    readl shub_regs_div4 (0x5000 + 0x1C) / 2 ^ 28 % 4 = 2 ∧
    (hi3559av100_shub_default_clk_set 0x5000 shub_regs_div4).map
        (fun r => (readl r.1 (0x5000 + 0x20), readl r.1 (0x5000 + 0x1C), r.2))
      = some (0x03000000, 0x30000000, 0) ∧
    (hi3559av100_shub_default_clk_set 0x5000 shub_regs_div4).map
        (fun r => (readl r.1 (0x5000 + 0x20) / 2 ^ 24 % 4,
          readl r.1 (0x5000 + 0x1C) / 2 ^ 28 % 4))
      = some (3, 3) ∧
    (hi3559av100_shub_div_clks (fun _ => 0) 0).map
        (fun c => (c.name, c.offset, c.shift, c.width, c.table))
      = [("clk_spi_clk", 0x20, 24, 2, some shub_spi_clk_table),
         ("clk_uart_div_clk", 0x1c, 28, 2, some shub_uart_div_clk_table)] ∧
    div_table_lookup shub_spi_clk_table 2 = some 2 ∧
    div_table_lookup shub_uart_div_clk_table 1 = some 8 ∧
    div_table_lookup shub_spi_clk_table 3 = none ∧
    div_table_lookup shub_uart_div_clk_table 3 = none :=
  ⟨by decide, by decide, by decide, by decide, rfl, by decide, by decide, by decide,
    by decide⟩


/-! ## Lemmas: the combined clock and reset driver -/

/-- A successful `hisi_clk_probe` leaves a registry as the driver data. -/
theorem hisi_clk_probe_success_drvdata (env : Env) (pdev : platform_device)
    (log : List Event) (h : (hisi_clk_probe env pdev log).ret = 0) :
    ∃ data, (hisi_clk_probe env pdev log).pdev.drvdata = drvdata_ptr.clock_data data := by
  have C : ∀ clks pd data l, (hisi_clk_probe_claimed env clks pd data l).ret = 0 →
      ∃ d, (hisi_clk_probe_claimed env clks pd data l).pdev.drvdata
        = drvdata_ptr.clock_data d := by
    intro clks pd data l hz
    unfold hisi_clk_probe_claimed at hz ⊢
    dsimp only at hz ⊢
    split at hz
    · rename_i hne
      exact absurd hz hne
    · split at hz
      · rename_i hne
        exact absurd hz hne
      · rename_i h1 h2
        rw [if_neg h1, if_neg h2]
        exact ⟨_, rfl⟩
  unfold hisi_clk_probe at h ⊢
  split at h
  · simp [ENOENT] at h
  · split at h
    · exact C _ _ _ _ h
    · dsimp only at h ⊢
      split at h
      · rename_i hne
        exact absurd h hne
      · rename_i hz
        rw [if_neg hz]
        split at h
        · exact C _ _ _ _ h
        · simp [ENOMEM] at h

/-- Whenever `hisi_crg_probe` succeeds, the driver data it leaves is the
`struct hisi_crg_dev` as allocated, with only `rstc` assigned, and not the
registry that `hisi_clk_probe` had stored; `hisi_clk_remove` and
`hisi_crg_remove` on the probed device are then undefined. -/
theorem hisi_crg_probe_success (env : Env) (pdev : platform_device) (log : List Event)
    (r : ProbeResult) (h : hisi_crg_probe env pdev log = some r) (hz : r.ret = 0) :
    (∃ data, (hisi_clk_probe env pdev (log ++ [Event.devm_kmalloc_crg])).pdev.drvdata
        = drvdata_ptr.clock_data data) ∧
    (∃ crg rstc, env.devm_kmalloc_crg = some crg ∧
      r.pdev.drvdata = drvdata_ptr.crg_dev { clk_data := crg.clk_data, rstc := some rstc }) ∧
    hisi_clk_remove r.pdev r.log = none ∧
    hisi_crg_remove r.pdev r.log = none := by
  unfold hisi_crg_probe at h
  dsimp only at h
  split at h
  · simp only [Option.some.injEq] at h
    subst h
    simp [ENOMEM] at hz
  · rename_i crg hcrg
    split at h
    · rename_i hne
      simp only [Option.some.injEq] at h
      subst h
      exact absurd hz hne
    · rename_i hp
      have hp0 : (hisi_clk_probe env pdev (log ++ [Event.devm_kmalloc_crg])).ret = 0 := by
        simpa using hp
      split at h
      · split at h
        · simp only [Option.some.injEq] at h
          subst h
          simp [ENOMEM] at hz
        · exact absurd h (by simp)
      · rename_i rstc hr
        simp only [Option.some.injEq] at h
        subst h
        refine ⟨hisi_clk_probe_success_drvdata env pdev _ hp0, ⟨crg, rstc, hcrg, ?_⟩, rfl, ?_⟩
        · simp only [hr]
        · simp only [hisi_crg_remove, hr, hisi_clk_remove]

/-! ## Theorems: the combined clock and reset driver -/

/-- C24 (the code at a failing input): `hisi_crg_probe` on a fresh device with
the table `clocks_mixed`, every call succeeding. `hisi_clk_probe` stores the
registry it built as the driver data; `hisi_crg_probe` then replaces the
driver data by its `struct hisi_crg_dev`, whose member `clk_data` it never
assigns. So the driver data that `hisi_clk_remove` reads in `hisi_crg_remove`
is the `struct hisi_crg_dev` and not the registry: `hisi_clk_free` is not
called on the registry, and both calls are undefined. With the registry as
driver data, as `hisi_clk_probe` left it, `hisi_clk_remove` releases it. -/
theorem hisi_crg_remove_reads_crg_dev :
    (hisi_crg_probe env_crg_ok pdev_fresh []).map (fun r => r.ret) = some 0 ∧
    (hisi_clk_probe env_crg_ok pdev_fresh [Event.devm_kmalloc_crg]).pdev.drvdata =
      drvdata_ptr.clock_data
        { clk_data := { num := 5, hws := [1000, 1001, 2000, 3000, 6000] }, base := 0x1000,
          clks := some clocks_mixed } ∧
    (hisi_crg_probe env_crg_ok pdev_fresh []).map (fun r => r.pdev.drvdata) =
      some (drvdata_ptr.crg_dev { clk_data := none, rstc := some { membase := 0x9000 } }) ∧
    (hisi_crg_probe env_crg_ok pdev_fresh []).bind
      (fun r => hisi_clk_remove r.pdev r.log) = none ∧
    (hisi_crg_probe env_crg_ok pdev_fresh []).bind
      (fun r => hisi_crg_remove r.pdev r.log) = none ∧
    hisi_clk_remove (hisi_clk_probe env_crg_ok pdev_fresh [Event.devm_kmalloc_crg]).pdev [] =
      some [Event.clk_hw_unregister_fixed_rate 1000, Event.clk_hw_unregister_fixed_rate 1001,
        Event.clk_hw_unregister_fixed_factor 2000, Event.of_clk_del_provider,
        Event.kfree_clk_data, Event.kfree_data] := by
  decide


end Hisi
